import Mathlib

/-!
Verification of the `astro_calc.py` position/aspect/transit engine of the
crypto-screener repository.

Conventions of the embedding:
* Python `float` values are modelled as exact rationals (`ℚ`).  Instants
  (`datetime`) are modelled as rational second counts on a single absolute
  axis whose origin is the J2000 epoch (2000-01-01 12:00 UTC), so that
  subtraction of instants yields elapsed seconds exactly as
  `timedelta.total_seconds()` does.
* Python `%` on floats (sign follows the divisor) is `pymod`.
* Python 3 `round(x, 2)` (round half to even) is `round2`.
* The `FileNotFoundError` raised by `EphemerisData.load_csv` is modelled by
  `Except String`; the filesystem is modelled as `Option (List EphRow)`
  (`none` = the CSV file is missing, `some rows` = the parsed rows).
* For the one claim about large-magnitude behaviour of `normalize_angle`,
  IEEE-754 binary64 rounding is modelled by `fl64` on the binades at and
  above `2 ^ 53`, which is the region the claim exercises.
-/

namespace AstroCalc

/-- Python `x % m` for floats: the representative of `x` modulo `m` whose sign
follows the divisor, `x - m * ⌊x / m⌋`. -/
def pymod (x m : ℚ) : ℚ := x - m * ⌊x / m⌋

theorem pymod_eq_fract (x m : ℚ) (hm : m ≠ 0) :
    pymod x m = m * Int.fract (x / m) := by
  unfold pymod Int.fract
  field_simp

theorem pymod_nonneg (x m : ℚ) (hm : 0 < m) : 0 ≤ pymod x m := by
  rw [pymod_eq_fract x m (ne_of_gt hm)]
  exact mul_nonneg (le_of_lt hm) (Int.fract_nonneg _)

theorem pymod_lt (x m : ℚ) (hm : 0 < m) : pymod x m < m := by
  rw [pymod_eq_fract x m (ne_of_gt hm)]
  calc m * Int.fract (x / m) < m * 1 :=
        (mul_lt_mul_left hm).mpr (Int.fract_lt_one _)
    _ = m := mul_one m

/-- `datetime.timedelta.days` of `dt - J2000`: whole days elapsed since the
J2000 epoch, rounded toward minus infinity (Python timedelta normalization),
with `dt` in seconds since J2000. -/
def days_since_j2000 (dt : ℚ) : ℤ := ⌊dt / 86400⌋

/-- First `while` loop of `normalize_angle`: `while angle < 0: angle += 360`. -/
def normalize_up (angle : ℚ) : ℚ :=
  if h : angle < 0 then normalize_up (angle + 360) else angle
  termination_by (⌈-angle / 360⌉).toNat
  decreasing_by
    have h360 : -(angle + 360) / 360 = -angle / 360 - 1 := by ring
    have hpos : (0:ℚ) < -angle / 360 := div_pos (by linarith) (by norm_num)
    have hceil : 1 ≤ ⌈-angle / 360⌉ := Int.ceil_pos.mpr hpos
    have hstep : ⌈-(angle + 360) / 360⌉ = ⌈-angle / 360⌉ - 1 := by
      rw [h360, Int.ceil_sub_one]
    rw [hstep]
    omega

/-- Second `while` loop of `normalize_angle`: `while angle >= 360: angle -= 360`. -/
def normalize_down (angle : ℚ) : ℚ :=
  if h : angle ≥ 360 then normalize_down (angle - 360) else angle
  termination_by (⌊angle / 360⌋).toNat
  decreasing_by
    have h360 : (angle - 360) / 360 = angle / 360 - 1 := by ring
    have hone : (1:ℚ) ≤ angle / 360 := by
      rw [le_div_iff₀ (by norm_num : (0:ℚ) < 360)]
      linarith
    have hfl : 1 ≤ ⌊angle / 360⌋ := by
      exact_mod_cast Int.le_floor.mpr (by exact_mod_cast hone)
    have hstep : ⌊(angle - 360) / 360⌋ = ⌊angle / 360⌋ - 1 := by
      rw [h360, Int.floor_sub_one]
    rw [hstep]
    omega

/-- `normalize_angle` from `astro_calc.py` (exact rational arithmetic): the two
adjustment loops run in sequence. -/
def normalize_angle (angle : ℚ) : ℚ := normalize_down (normalize_up angle)

theorem normalize_up_nonneg (angle : ℚ) : 0 ≤ normalize_up angle := by
  rw [normalize_up]
  by_cases h : angle < 0
  · rw [dif_pos h]
    exact normalize_up_nonneg (angle + 360)
  · rw [dif_neg h]
    linarith [not_lt.mp h]
  termination_by (⌈-angle / 360⌉).toNat
  decreasing_by
    have h360 : -(angle + 360) / 360 = -angle / 360 - 1 := by ring
    have hpos : (0:ℚ) < -angle / 360 := div_pos (by linarith) (by norm_num)
    have hceil : 1 ≤ ⌈-angle / 360⌉ := Int.ceil_pos.mpr hpos
    have hstep : ⌈-(angle + 360) / 360⌉ = ⌈-angle / 360⌉ - 1 := by
      rw [h360, Int.ceil_sub_one]
    rw [hstep]
    omega

theorem normalize_down_lt (angle : ℚ) : normalize_down angle < 360 := by
  rw [normalize_down]
  by_cases h : angle ≥ 360
  · rw [dif_pos h]
    exact normalize_down_lt (angle - 360)
  · rw [dif_neg h]
    linarith [not_le.mp h]
  termination_by (⌊angle / 360⌋).toNat
  decreasing_by
    have h360 : (angle - 360) / 360 = angle / 360 - 1 := by ring
    have hone : (1:ℚ) ≤ angle / 360 := by
      rw [le_div_iff₀ (by norm_num : (0:ℚ) < 360)]
      linarith
    have hfl : 1 ≤ ⌊angle / 360⌋ := by
      exact_mod_cast Int.le_floor.mpr (by exact_mod_cast hone)
    have hstep : ⌊(angle - 360) / 360⌋ = ⌊angle / 360⌋ - 1 := by
      rw [h360, Int.floor_sub_one]
    rw [hstep]
    omega

theorem normalize_down_nonneg (angle : ℚ) (h0 : 0 ≤ angle) :
    0 ≤ normalize_down angle := by
  rw [normalize_down]
  by_cases h : angle ≥ 360
  · rw [dif_pos h]
    exact normalize_down_nonneg (angle - 360) (by linarith)
  · rw [dif_neg h]
    exact h0
  termination_by (⌊angle / 360⌋).toNat
  decreasing_by
    have h360 : (angle - 360) / 360 = angle / 360 - 1 := by ring
    have hone : (1:ℚ) ≤ angle / 360 := by
      rw [le_div_iff₀ (by norm_num : (0:ℚ) < 360)]
      linarith
    have hfl : 1 ≤ ⌊angle / 360⌋ := by
      exact_mod_cast Int.le_floor.mpr (by exact_mod_cast hone)
    have hstep : ⌊(angle - 360) / 360⌋ = ⌊angle / 360⌋ - 1 := by
      rw [h360, Int.floor_sub_one]
    rw [hstep]
    omega

theorem normalize_angle_mem_Ico (angle : ℚ) :
    normalize_angle angle ∈ Set.Ico (0:ℚ) 360 :=
  ⟨normalize_down_nonneg _ (normalize_up_nonneg angle), normalize_down_lt _⟩

/-- `angle_difference` from `astro_calc.py`. -/
def angle_difference (angle1 angle2 : ℚ) : ℚ :=
  let diff := |angle1 - angle2|
  if diff > 180 then 360 - diff else diff

/-- Round to the nearest integer, ties to even (the rounding of Python 3
`round` and of IEEE-754 round-to-nearest). -/
def roundHalfEven (q : ℚ) : ℤ :=
  if q - ⌊q⌋ < 1/2 then ⌊q⌋
  else if q - ⌊q⌋ > 1/2 then ⌊q⌋ + 1
  else if ⌊q⌋ % 2 = 0 then ⌊q⌋ else ⌊q⌋ + 1

/-- Python `round(x, 2)`: round half to even at two decimal places. -/
def round2 (q : ℚ) : ℚ := (roundHalfEven (q * 100) : ℚ) / 100

/-- Bit length of a natural number, with enough fuel for any IEEE-754
binary64 magnitude (exponents range over fewer than 1100 binades). -/
def nbitsGo : ℕ → ℕ → ℕ
  | 0, _ => 0
  | fuel + 1, m => if m = 0 then 0 else nbitsGo fuel (m / 2) + 1

/-- Bit length of a natural number (`nbits m = k` iff `2^(k-1) ≤ m < 2^k`). -/
def nbits (m : ℕ) : ℕ := nbitsGo 1100 m

/-- IEEE-754 binary64 rounding (round to nearest, ties to even) of a real
value, modelled exactly on the binades at and above `2 ^ 53`, where the unit
in the last place exceeds 1 and additions of small terms can be absorbed.
Below `2 ^ 53` the model is the identity, which is exact for the
integer-valued magnitudes this development evaluates it on. -/
def fl64 (q : ℚ) : ℚ :=
  if |q| < 2 ^ 53 then q
  else
    (roundHalfEven (q / 2 ^ (nbits (⌊|q|⌋).toNat - 53)) : ℚ) *
      2 ^ (nbits (⌊|q|⌋).toNat - 53)

/-- One iteration of the second `while` loop of `normalize_angle`
(`while angle >= 360: angle -= 360`) as executed on IEEE-754 binary64
floats: the subtraction is rounded back to a representable double. -/
def normalize_down_f64_step (angle : ℚ) : ℚ :=
  if angle ≥ 360 then fl64 (angle - 360) else angle

/-- The `ASPECTS` catalog: name, target angle, maximum orb. -/
def ASPECTS : List (String × ℚ × ℚ) :=
  [("Conjunction", 0, 8),
   ("Sextile", 60, 6),
   ("Square", 90, 7),
   ("Trine", 120, 8),
   ("Opposition", 180, 8)]

def NATAL_POINTS : List String := ["Sun", "Moon"]

/-- `check_aspect` from `astro_calc.py`; the `ASPECTS[aspect_name]` dictionary
access is modelled by `List.lookup` (`none` corresponds to the `KeyError`
Python would raise for a name outside the catalog). -/
def check_aspect (lon1 lon2 : ℚ) (aspect_name : String) : Option (Bool × ℚ) :=
  (ASPECTS.lookup aspect_name).map fun ta =>
    let diff := angle_difference lon1 lon2
    let orb := |diff - ta.1|
    (decide (orb ≤ ta.2), orb)

/-- One parsed row of the ephemeris CSV, with the fields `load_csv` stores
(`datetime` is `time`, in rational seconds since J2000). -/
structure EphRow where
  time : ℚ
  jd : ℚ
  sun : ℚ
  moon : ℚ
  mercury : ℚ
  venus : ℚ
  mars : ℚ
  jupiter : ℚ
  saturn : ℚ
  uranus : ℚ
  neptune : ℚ
  ascendant : ℚ
  mc : ℚ
  mercuryRetro : Bool
  venusRetro : Bool
  marsRetro : Bool
  jupiterRetro : Bool
  saturnRetro : Bool
  uranusRetro : Bool
  neptuneRetro : Bool
  deriving DecidableEq

/-- The interpolated result dictionary built by `EphemerisData.get_positions`:
the nine interpolated longitudes plus the seven retrograde flags copied from
the nearer row (`Sun`/`Moon` have no flag in the CSV, hence none here). -/
structure EphemPositions where
  time : ℚ
  sun : ℚ
  moon : ℚ
  mercury : ℚ
  venus : ℚ
  mars : ℚ
  jupiter : ℚ
  saturn : ℚ
  uranus : ℚ
  neptune : ℚ
  mercuryRetro : Bool
  venusRetro : Bool
  marsRetro : Bool
  jupiterRetro : Bool
  saturnRetro : Bool
  uranusRetro : Bool
  neptuneRetro : Bool
  deriving DecidableEq

/-- Per-body interpolation step of `EphemerisData.get_positions`: 360°
wraparound handling (add 360° to one endpoint when they differ by more than
180°), linear blend, then `% 360`. -/
def interpLon (lon1 lon2 factor : ℚ) : ℚ :=
  let p :=
    if |lon2 - lon1| > 180 then
      if lon2 < lon1 then (lon1, lon2 + 360) else (lon1 + 360, lon2)
    else (lon1, lon2)
  pymod (p.1 + (p.2 - p.1) * factor) 360

/-- The interpolation step worded as the specification describes it: when the
endpoints differ by more than 180°, add 360° to whichever endpoint is
smaller, blend linearly, and renormalize into `[0, 360)`. -/
def interpLonSpec (lon1 lon2 factor : ℚ) : ℚ :=
  let p :=
    if |lon2 - lon1| > 180 then
      if lon1 ≤ lon2 then (lon1 + 360, lon2) else (lon1, lon2 + 360)
    else (lon1, lon2)
  pymod (p.1 + (p.2 - p.1) * factor) 360

/-- Interpolation of a full row pair in `EphemerisData.get_positions`:
interpolation factor (0 when the bracket degenerates), per-body longitude
interpolation, and retrograde flags copied from the nearer-in-time row. -/
def interpRow (d1 d2 : EphRow) (dt : ℚ) : EphemPositions :=
  let total := d2.time - d1.time
  let factor := if total > 0 then (dt - d1.time) / total else 0
  let closest := if factor < 1/2 then d1 else d2
  { time := dt
    sun := interpLon d1.sun d2.sun factor
    moon := interpLon d1.moon d2.moon factor
    mercury := interpLon d1.mercury d2.mercury factor
    venus := interpLon d1.venus d2.venus factor
    mars := interpLon d1.mars d2.mars factor
    jupiter := interpLon d1.jupiter d2.jupiter factor
    saturn := interpLon d1.saturn d2.saturn factor
    uranus := interpLon d1.uranus d2.uranus factor
    neptune := interpLon d1.neptune d2.neptune factor
    mercuryRetro := closest.mercuryRetro
    venusRetro := closest.venusRetro
    marsRetro := closest.marsRetro
    jupiterRetro := closest.jupiterRetro
    saturnRetro := closest.saturnRetro
    uranusRetro := closest.uranusRetro
    neptuneRetro := closest.neptuneRetro }

/-- The bracketing-pair search of `EphemerisData.get_positions`:
`for i in range(len(data) - 1)`, returning the first adjacent pair with
`data[i].time ≤ dt ≤ data[i+1].time`. -/
def findBracket : List EphRow → ℚ → Option (EphRow × EphRow)
  | d1 :: d2 :: rest, dt =>
    if d1.time ≤ dt ∧ dt ≤ d2.time then some (d1, d2)
    else findBracket (d2 :: rest) dt
  | _, _ => none

/-- Timestamp of the last row, `self.data[-1]['datetime']`. -/
def lastTime (d0 : EphRow) (rest : List EphRow) : ℚ :=
  ((d0 :: rest).getLast (List.cons_ne_nil d0 rest)).time

/-- `EphemerisData.get_positions`: `none` for an empty table, `none` (after a
printed warning) when the epoch lies outside `[first, last]`, otherwise the
interpolated positions for the first bracketing pair of rows; the final
fall-through `return None` of the Python loop is the last `none`. -/
def get_positions (data : List EphRow) (dt : ℚ) : Option EphemPositions :=
  match data with
  | [] => none
  | d0 :: rest =>
    if dt < d0.time ∨ dt > lastTime d0 rest then none
    else
      match findBracket (d0 :: rest) dt with
      | some p => some (interpRow p.1 p.2 dt)
      | none => none

/-- One per-planet entry of the position dictionaries built by
`get_all_positions` / `calculate_fallback_positions`: the `'longitude'`,
`'planet'` and (optional) `'retrograde'` keys. `retrograde = none` models a
dictionary with no `'retrograde'` key at all. -/
structure PlanetPos where
  longitude : ℚ
  planet : String
  retrograde : Option Bool
  deriving DecidableEq

/-- `calculate_pluto_position` from `astro_calc.py`. -/
def calculate_pluto_position (dt : ℚ) : ℚ :=
  let years : ℚ := (days_since_j2000 dt : ℚ) / 365.25
  pymod (251.0 + years * 1.5) 360

/-- `calculate_fallback_positions` from `astro_calc.py`: the linear-rate
approximate longitudes, every body explicitly non-retrograde. -/
def calculate_fallback_positions (dt : ℚ) : List (String × PlanetPos) :=
  let d : ℚ := (days_since_j2000 dt : ℚ)
  [("Sun", ⟨pymod (280.46 + 0.9856474 * d) 360, "Sun", some false⟩),
   ("Moon", ⟨pymod (218.316 + 13.176396 * d) 360, "Moon", some false⟩),
   ("Mercury", ⟨pymod (252.25 + 4.092338 * d) 360, "Mercury", some false⟩),
   ("Venus", ⟨pymod (181.98 + 1.602131 * d) 360, "Venus", some false⟩),
   ("Mars", ⟨pymod (355.43 + 0.524039 * d) 360, "Mars", some false⟩),
   ("Jupiter", ⟨pymod (34.35 + 0.083056 * d) 360, "Jupiter", some false⟩),
   ("Saturn", ⟨pymod (50.08 + 0.033459 * d) 360, "Saturn", some false⟩),
   ("Uranus", ⟨pymod (314.05 + 0.011733 * d) 360, "Uranus", some false⟩),
   ("Neptune", ⟨pymod (304.88 + 0.005981 * d) 360, "Neptune", some false⟩),
   ("Pluto", ⟨calculate_pluto_position dt, "Pluto", some false⟩)]

/-- The dictionary `get_all_positions` builds on the tabulated path: the nine
CSV planets (the static key check `f'{planet}_retro' in ephem_data` succeeds
exactly for the seven bodies below `Sun`/`Moon`, so those two carry no
`'retrograde'` key), plus the always-calculated `Pluto` entry. -/
def tabulated_positions (e : EphemPositions) (dt : ℚ) : List (String × PlanetPos) :=
  [("Sun", ⟨e.sun, "Sun", none⟩),
   ("Moon", ⟨e.moon, "Moon", none⟩),
   ("Mercury", ⟨e.mercury, "Mercury", some e.mercuryRetro⟩),
   ("Venus", ⟨e.venus, "Venus", some e.venusRetro⟩),
   ("Mars", ⟨e.mars, "Mars", some e.marsRetro⟩),
   ("Jupiter", ⟨e.jupiter, "Jupiter", some e.jupiterRetro⟩),
   ("Saturn", ⟨e.saturn, "Saturn", some e.saturnRetro⟩),
   ("Uranus", ⟨e.uranus, "Uranus", some e.uranusRetro⟩),
   ("Neptune", ⟨e.neptune, "Neptune", some e.neptuneRetro⟩),
   ("Pluto", ⟨calculate_pluto_position dt, "Pluto", some false⟩)]

/-- `get_ephemeris`: constructing `EphemerisData` calls `load_csv`, which
raises `FileNotFoundError` when the CSV file does not exist.  The filesystem
is `none` (file missing) or `some rows` (the parsed rows). -/
def get_ephemeris (fs : Option (List EphRow)) : Except String (List EphRow) :=
  match fs with
  | none => Except.error "Ephemeris file not found"
  | some rows => Except.ok rows

/-- `get_all_positions` from `astro_calc.py`: load the ephemeris (propagating
the `FileNotFoundError` as an `Except.error`), use the tabulated positions
when the table serves the epoch, otherwise fall back to
`calculate_fallback_positions`. -/
def get_all_positions (fs : Option (List EphRow)) (dt : ℚ) :
    Except String (List (String × PlanetPos)) :=
  match get_ephemeris fs with
  | Except.error e => Except.error e
  | Except.ok data =>
    match get_positions data dt with
    | some ephemData => Except.ok (tabulated_positions ephemData dt)
    | none => Except.ok (calculate_fallback_positions dt)

/-- One aspect record appended by `find_aspects_to_natal`. -/
structure AspectRec where
  transit_planet : String
  natal_planet : String
  aspect : String
  orb : ℚ
  transit_longitude : ℚ
  natal_longitude : ℚ
  deriving DecidableEq

/-- `find_aspects_to_natal` from `astro_calc.py`: every (transit, natal) pair
is tested against every name of the `ASPECTS` catalog, and a record with the
orb and both longitudes rounded to two decimals is emitted for each hit. -/
def find_aspects_to_natal (cur nat : List (String × PlanetPos)) : List AspectRec :=
  cur.flatMap fun t =>
    nat.flatMap fun n =>
      ASPECTS.filterMap fun a =>
        match check_aspect t.2.longitude n.2.longitude a.1 with
        | some (true, orb) =>
          some ⟨t.1, n.1, a.1, round2 orb, round2 t.2.longitude, round2 n.2.longitude⟩
        | _ => none

def outer_planets : List String := ["Jupiter", "Saturn", "Uranus", "Neptune", "Pluto"]

def major_aspects : List String := ["Conjunction", "Square", "Opposition", "Trine"]

/-- One entry appended by `find_upcoming_transits`.  The Python dictionary
stores the day offset (as the strings `date`/`exact_date`) and the formatted
description `transit`; the three component fields record the planet, aspect
and natal body the code formats into `transit`, so that
`transit = transit_planet ++ " " ++ aspect ++ " natal " ++ natal_planet`. -/
structure TransitEntry where
  day_offset : ℕ
  transit_planet : String
  aspect : String
  natal_planet : String
  transit : String
  orb : ℚ
  deriving DecidableEq

/-- The body of one iteration of the day loop in `find_upcoming_transits`:
positions for `now + day_offset` (abstracted as `positionsAt day_offset`),
aspects against the natal chart, and the outer-planet / natal-point /
major-aspect / tight-orb filter. -/
def day_entries (positionsAt : ℕ → List (String × PlanetPos))
    (natal : List (String × PlanetPos)) (day_offset : ℕ) : List TransitEntry :=
  let positions := positionsAt day_offset
  if positions.isEmpty then []
  else
    (find_aspects_to_natal positions natal).filterMap fun a =>
      if a.transit_planet ∈ outer_planets ∧ a.natal_planet ∈ NATAL_POINTS ∧
          a.aspect ∈ major_aspects ∧ a.orb < 2 then
        some ⟨day_offset, a.transit_planet, a.aspect, a.natal_planet,
          a.transit_planet ++ " " ++ a.aspect ++ " natal " ++ a.natal_planet, a.orb⟩
      else none

/-- The `upcoming` list of `find_upcoming_transits` before deduplication:
day offsets `1 .. days_ahead` in order. -/
def upcoming_list (positionsAt : ℕ → List (String × PlanetPos))
    (natal : List (String × PlanetPos)) (days_ahead : ℕ) : List TransitEntry :=
  (List.range' 1 days_ahead).flatMap (day_entries positionsAt natal)

/-- The dedup pass of `find_upcoming_transits`: keep an entry only when its
`transit` description string has not been seen yet. -/
def dedup_transits : List TransitEntry → List String → List TransitEntry
  | [], _ => []
  | t :: rest, seen =>
    if t.transit ∈ seen then dedup_transits rest seen
    else t :: dedup_transits rest (t.transit :: seen)

/-- `find_upcoming_transits` from `astro_calc.py`, with the `now`-anchored
position provider abstracted as `positionsAt : day offset → positions`
(the code calls `get_all_positions(now + timedelta(days=day_offset))`). -/
def find_upcoming_transits (positionsAt : ℕ → List (String × PlanetPos))
    (natal : List (String × PlanetPos)) (days_ahead : ℕ) : List TransitEntry :=
  (dedup_transits (upcoming_list positionsAt natal days_ahead) []).take 10

/-- A concrete all-zero ephemeris row (timestamp 0). -/
def rowZero : EphRow :=
  ⟨0, 0, 0, 0, 0, 0, 0, 0, 0, 0, 0, 0, 0, false, false, false, false, false, false, false⟩

/-- A concrete ephemeris row at timestamp 1 (one second after `rowZero`). -/
def rowOne : EphRow := { rowZero with time := 1 }

lemma get_positions_cons (d0 : EphRow) (rest : List EphRow) (dt : ℚ) :
    get_positions (d0 :: rest) dt =
      if dt < d0.time ∨ dt > lastTime d0 rest then none
      else
        match findBracket (d0 :: rest) dt with
        | some p => some (interpRow p.1 p.2 dt)
        | none => none := rfl

lemma get_all_positions_some (rows : List EphRow) (dt : ℚ) :
    get_all_positions (some rows) dt =
      match get_positions rows dt with
      | some ephemData => Except.ok (tabulated_positions ephemData dt)
      | none => Except.ok (calculate_fallback_positions dt) := rfl

lemma lastTime_cons (d0 d1 : EphRow) (rest : List EphRow) :
    lastTime d0 (d1 :: rest) = lastTime d1 rest := by
  unfold lastTime
  rw [List.getLast_cons (List.cons_ne_nil d1 rest)]

lemma lastTime_nil (d0 : EphRow) : lastTime d0 [] = d0.time := rfl

lemma first_le_lastTime :
    ∀ (d0 d1 : EphRow) (rest : List EphRow),
      List.Chain' (fun a b : EphRow => a.time < b.time) (d0 :: d1 :: rest) →
      d0.time ≤ lastTime d0 (d1 :: rest) := by
  intro d0 d1 rest
  induction rest generalizing d0 d1 with
  | nil =>
    intro h
    rw [lastTime_cons, lastTime_nil]
    exact le_of_lt (List.chain'_cons.mp h).1
  | cons d2 rest ih =>
    intro h
    obtain ⟨h01, htail⟩ := List.chain'_cons.mp h
    calc d0.time ≤ d1.time := le_of_lt h01
      _ ≤ lastTime d1 (d2 :: rest) := ih d1 d2 htail
      _ = lastTime d0 (d1 :: d2 :: rest) := (lastTime_cons d0 d1 (d2 :: rest)).symm

lemma findBracket_isSome :
    ∀ (d0 d1 : EphRow) (rest : List EphRow) (dt : ℚ),
      d0.time ≤ dt → dt ≤ lastTime d0 (d1 :: rest) →
      ∃ p, findBracket (d0 :: d1 :: rest) dt = some p := by
  intro d0 d1 rest
  induction rest generalizing d0 d1 with
  | nil =>
    intro dt h0 h1
    rw [lastTime_cons, lastTime_nil] at h1
    exact ⟨(d0, d1), by simp [findBracket, h0, h1]⟩
  | cons d2 rest ih =>
    intro dt h0 h1
    by_cases hb : d0.time ≤ dt ∧ dt ≤ d1.time
    · exact ⟨(d0, d1), by simp [findBracket, hb]⟩
    · have h1' : d1.time ≤ dt := by
        rcases not_and_or.mp hb with h | h
        · exact absurd h0 h
        · exact le_of_lt (not_le.mp h)
      rw [lastTime_cons] at h1
      obtain ⟨p, hp⟩ := ih d1 d2 dt h1' h1
      refine ⟨p, ?_⟩
      show (if d0.time ≤ dt ∧ dt ≤ d1.time then some (d0, d1)
            else findBracket (d1 :: d2 :: rest) dt) = some p
      rw [if_neg hb]
      exact hp

lemma check_aspect_eval (l1 l2 target maxOrb : ℚ) (name : String)
    (hlk : ASPECTS.lookup name = some (target, maxOrb)) :
    check_aspect l1 l2 name =
      some (decide (|angle_difference l1 l2 - target| ≤ maxOrb),
            |angle_difference l1 l2 - target|) := by
  unfold check_aspect
  rw [hlk]
  rfl

lemma check_aspect_hit (l1 l2 target maxOrb : ℚ) (name : String)
    (hlk : ASPECTS.lookup name = some (target, maxOrb))
    (h : |angle_difference l1 l2 - target| ≤ maxOrb) :
    check_aspect l1 l2 name = some (true, |angle_difference l1 l2 - target|) := by
  rw [check_aspect_eval l1 l2 target maxOrb name hlk, decide_eq_true h]

lemma check_aspect_miss (l1 l2 target maxOrb : ℚ) (name : String)
    (hlk : ASPECTS.lookup name = some (target, maxOrb))
    (h : ¬ |angle_difference l1 l2 - target| ≤ maxOrb) :
    check_aspect l1 l2 name = some (false, |angle_difference l1 l2 - target|) := by
  rw [check_aspect_eval l1 l2 target maxOrb name hlk, decide_eq_false h]

/-- C5: `angle_difference` equals `min (|a-b|) (360 - |a-b|)` on normalized
longitudes, lies in `[0, 180]`, and is symmetric in its arguments. -/
theorem angle_difference_minimal (a b : ℚ)
    (ha0 : 0 ≤ a) (ha : a < 360) (hb0 : 0 ≤ b) (hb : b < 360) :
    angle_difference a b = min |a - b| (360 - |a - b|) ∧
    0 ≤ angle_difference a b ∧ angle_difference a b ≤ 180 ∧
    angle_difference a b = angle_difference b a := by
  have hval : angle_difference a b = if |a - b| > 180 then 360 - |a - b| else |a - b| := rfl
  have hsym : angle_difference a b = angle_difference b a := by
    unfold angle_difference
    rw [abs_sub_comm]
  have habs : |a - b| < 360 := abs_lt.mpr ⟨by linarith, by linarith⟩
  have hnn : (0:ℚ) ≤ |a - b| := abs_nonneg _
  refine ⟨?_, ?_, ?_, hsym⟩ <;> rw [hval] <;> split_ifs with h
  · exact (min_eq_right (by linarith)).symm
  · exact (min_eq_left (by linarith)).symm
  · linarith
  · exact hnn
  · linarith
  · linarith

/-- C5 witness: the contract evaluated at the concrete normalized pair
(10°, 350°). -/
theorem angle_difference_minimal_witness :
    ((0:ℚ) ≤ 10 ∧ (10:ℚ) < 360 ∧ (0:ℚ) ≤ 350 ∧ (350:ℚ) < 360) ∧
    (angle_difference 10 350 = min |(10:ℚ) - 350| (360 - |(10:ℚ) - 350|) ∧
     0 ≤ angle_difference 10 350 ∧ angle_difference 10 350 ≤ 180 ∧
     angle_difference 10 350 = angle_difference 350 10) :=
  ⟨⟨by norm_num, by norm_num, by norm_num, by norm_num⟩,
   angle_difference_minimal 10 350 (by norm_num) (by norm_num) (by norm_num) (by norm_num)⟩

/-- C6: `check_aspect` computes, for each entry of the fixed catalog, the orb
`|angle_difference − target|` and reports a hit exactly when the orb is within
the entry's tolerance (and the catalog is fixed, with no early exit: each of
the five names gets this same treatment); at longitudes 10° and 70° the pair
matches Sextile with orb 0 and no other catalog entry. -/
theorem check_aspect_catalog_spec :
    (∀ l1 l2 : ℚ,
      check_aspect l1 l2 "Conjunction" =
        some (decide (|angle_difference l1 l2 - 0| ≤ 8), |angle_difference l1 l2 - 0|) ∧
      check_aspect l1 l2 "Sextile" =
        some (decide (|angle_difference l1 l2 - 60| ≤ 6), |angle_difference l1 l2 - 60|) ∧
      check_aspect l1 l2 "Square" =
        some (decide (|angle_difference l1 l2 - 90| ≤ 7), |angle_difference l1 l2 - 90|) ∧
      check_aspect l1 l2 "Trine" =
        some (decide (|angle_difference l1 l2 - 120| ≤ 8), |angle_difference l1 l2 - 120|) ∧
      check_aspect l1 l2 "Opposition" =
        some (decide (|angle_difference l1 l2 - 180| ≤ 8), |angle_difference l1 l2 - 180|)) ∧
    check_aspect 10 70 "Conjunction" = some (false, 60) ∧
    check_aspect 10 70 "Sextile" = some (true, 0) ∧
    check_aspect 10 70 "Square" = some (false, 30) ∧
    check_aspect 10 70 "Trine" = some (false, 60) ∧
    check_aspect 10 70 "Opposition" = some (false, 120) := by
  have hd : angle_difference 10 70 = 60 := by norm_num [angle_difference]
  refine ⟨fun l1 l2 => ⟨?_, ?_, ?_, ?_, ?_⟩, ?_, ?_, ?_, ?_, ?_⟩
  · exact check_aspect_eval l1 l2 0 8 "Conjunction" rfl
  · exact check_aspect_eval l1 l2 60 6 "Sextile" rfl
  · exact check_aspect_eval l1 l2 90 7 "Square" rfl
  · exact check_aspect_eval l1 l2 120 8 "Trine" rfl
  · exact check_aspect_eval l1 l2 180 8 "Opposition" rfl
  · rw [check_aspect_miss 10 70 0 8 "Conjunction" rfl (by rw [hd]; norm_num), hd]
    norm_num
  · rw [check_aspect_hit 10 70 60 6 "Sextile" rfl (by rw [hd]; norm_num), hd]
    norm_num
  · rw [check_aspect_miss 10 70 90 7 "Square" rfl (by rw [hd]; norm_num), hd]
    norm_num
  · rw [check_aspect_miss 10 70 120 8 "Trine" rfl (by rw [hd]; norm_num), hd]
    norm_num
  · rw [check_aspect_miss 10 70 180 8 "Opposition" rfl (by rw [hd]; norm_num), hd]
    norm_num

lemma fl64_large_absorbs :
    fl64 ((10:ℚ) ^ 20 - 360) = (10:ℚ) ^ 20 := by
  have hq : (10:ℚ) ^ 20 - 360 = (99999999999999999640 : ℚ) := by norm_num
  have habs : |(99999999999999999640 : ℚ)| = 99999999999999999640 :=
    abs_of_pos (by norm_num)
  have hfl : ⌊(99999999999999999640 : ℚ)⌋ = 99999999999999999640 := by norm_num
  have hnb : nbits 99999999999999999640 = 67 := by decide
  have hr : roundHalfEven ((99999999999999999640 : ℚ) / 16384) = 6103515625000000 := by
    have hfl2 : ⌊(99999999999999999640 : ℚ) / 16384⌋ = 6103515624999999 := by
      norm_num
    unfold roundHalfEven
    rw [hfl2, if_neg (by push_cast; norm_num), if_pos (by push_cast; norm_num)]
    norm_num
  rw [hq]
  unfold fl64
  rw [if_neg (by rw [habs]; norm_num)]
  rw [habs, hfl]
  rw [show (99999999999999999640 : ℤ).toNat = 99999999999999999640 from rfl, hnb]
  rw [show (67 - 53 : ℕ) = 14 from rfl]
  rw [show ((2:ℚ) ^ (14:ℕ)) = 16384 by norm_num]
  rw [hr]
  push_cast
  norm_num

/-- C4 (code bug): `normalize_angle` reduces by repeated ±360 steps; under
the exact rational semantics both loops terminate and land in `[0, 360)`
(final conjunct), but as executed on IEEE-754 binary64 floats the claimed
totality fails for large magnitudes: at the double `1e20` the first loop is a
no-op and every iteration of the second loop rounds `1e20 - 360` back to
`1e20` (the subtrahend is below half an ulp), so the guard `angle ≥ 360`
holds forever and the loop never terminates. -/
theorem normalize_angle_float_nontermination :
    ((10:ℚ) ^ 20 ≥ 360) ∧
    normalize_up ((10:ℚ) ^ 20) = 10 ^ 20 ∧
    (∀ n : ℕ, normalize_down_f64_step^[n] ((10:ℚ) ^ 20) = 10 ^ 20) ∧
    (∀ angle : ℚ, normalize_angle angle ∈ Set.Ico (0:ℚ) 360) := by
  refine ⟨by norm_num, ?_, ?_, normalize_angle_mem_Ico⟩
  · rw [normalize_up, dif_neg (by norm_num)]
  · intro n
    induction n with
    | zero => simp
    | succ n ih =>
      rw [Function.iterate_succ_apply', ih]
      unfold normalize_down_f64_step
      rw [if_pos (by norm_num : ((10:ℚ) ^ 20 ≥ 360))]
      exact fl64_large_absorbs

/-- C1 counterexample: with the ephemeris file missing, `get_all_positions`
propagates the `FileNotFoundError` from `load_csv` instead of falling back;
the result at epoch 0 is an error, not the fallback position set. -/
theorem get_all_positions_missing_file_counterexample :
    get_all_positions none 0 = Except.error "Ephemeris file not found" ∧
    get_all_positions none 0 ≠ Except.ok (calculate_fallback_positions 0) := by
  refine ⟨rfl, ?_⟩
  rw [show get_all_positions none 0 = Except.error "Ephemeris file not found" from rfl]
  simp

/-- C1 amended: only an epoch the loaded table cannot serve (out of range, or
an empty table) transparently falls back to the linear-rate model, which
returns the full ten-body set; a missing ephemeris file instead makes
`get_all_positions` fail with the propagated `FileNotFoundError`. -/
theorem missing_table_vs_out_of_range_amended :
    (∀ (rows : List EphRow) (dt : ℚ), get_positions rows dt = none →
      get_all_positions (some rows) dt = Except.ok (calculate_fallback_positions dt)) ∧
    (∀ dt : ℚ, get_all_positions none dt = Except.error "Ephemeris file not found") ∧
    (∀ dt : ℚ, (calculate_fallback_positions dt).map Prod.fst =
      ["Sun", "Moon", "Mercury", "Venus", "Mars",
       "Jupiter", "Saturn", "Uranus", "Neptune", "Pluto"]) := by
  refine ⟨?_, fun dt => rfl, fun dt => rfl⟩
  intro rows dt h
  rw [get_all_positions_some, h]

/-- C1 witness: the empty table misses every epoch, and `get_all_positions`
then serves the fallback positions. -/
theorem missing_table_vs_out_of_range_witness :
    get_positions [] 0 = none ∧
    get_all_positions (some []) 0 = Except.ok (calculate_fallback_positions 0) :=
  ⟨rfl, missing_table_vs_out_of_range_amended.1 [] 0 rfl⟩

/-- C7 counterexample: a table holding exactly one row returns `none` at the
row's own timestamp, although that epoch is neither strictly before the first
row nor strictly after the last row. -/
theorem get_positions_single_row_counterexample :
    get_positions [rowZero] rowZero.time = none ∧
    ¬ (rowZero.time < rowZero.time ∨ rowZero.time > rowZero.time) := by
  constructor
  · rfl
  · simp

/-- C7 amended: for every table with at least two rows the lookup returns
`none` exactly when the epoch is strictly before the first or strictly after
the last row's timestamp, and (for an ascending table) the two boundary
epochs are served with interpolated data; a table with a single row,
however, returns `none` even at its own timestamp. -/
theorem get_positions_none_iff_outside :
    (∀ (d0 d1 : EphRow) (rest : List EphRow) (dt : ℚ),
      get_positions (d0 :: d1 :: rest) dt = none ↔
        (dt < d0.time ∨ dt > lastTime d0 (d1 :: rest))) ∧
    (∀ (d0 d1 : EphRow) (rest : List EphRow),
      List.Chain' (fun a b : EphRow => a.time < b.time) (d0 :: d1 :: rest) →
      (get_positions (d0 :: d1 :: rest) d0.time).isSome ∧
      (get_positions (d0 :: d1 :: rest) (lastTime d0 (d1 :: rest))).isSome) := by
  have hmain : ∀ (d0 d1 : EphRow) (rest : List EphRow) (dt : ℚ),
      get_positions (d0 :: d1 :: rest) dt = none ↔
        (dt < d0.time ∨ dt > lastTime d0 (d1 :: rest)) := by
    intro d0 d1 rest dt
    constructor
    · intro hnone
      by_contra hout
      push_neg at hout
      obtain ⟨p, hp⟩ := findBracket_isSome d0 d1 rest dt hout.1 hout.2
      rw [get_positions_cons, if_neg (by push_neg; exact hout), hp] at hnone
      exact Option.noConfusion hnone
    · intro hout
      rw [get_positions_cons, if_pos hout]
  refine ⟨hmain, ?_⟩
  intro d0 d1 rest hchain
  have hle : d0.time ≤ lastTime d0 (d1 :: rest) := first_le_lastTime d0 d1 rest hchain
  constructor
  · rw [Option.isSome_iff_ne_none]
    intro h
    rcases (hmain d0 d1 rest d0.time).mp h with h' | h'
    · exact absurd h' (lt_irrefl _)
    · exact absurd hle (not_le.mpr h')
  · rw [Option.isSome_iff_ne_none]
    intro h
    rcases (hmain d0 d1 rest (lastTime d0 (d1 :: rest))).mp h with h' | h'
    · exact absurd hle (not_le.mpr h')
    · exact absurd h' (lt_irrefl _)

/-- C7 witness: the contract evaluated on the concrete ascending two-row
table `[rowZero, rowOne]` at an in-range and an out-of-range epoch. -/
theorem get_positions_none_iff_outside_witness :
    (¬ (get_positions [rowZero, rowOne] 0 = none) ↔
      ¬ ((0:ℚ) < rowZero.time ∨ (0:ℚ) > lastTime rowZero [rowOne])) ∧
    List.Chain' (fun a b : EphRow => a.time < b.time) [rowZero, rowOne] ∧
    (get_positions [rowZero, rowOne] rowZero.time).isSome ∧
    (get_positions [rowZero, rowOne] (lastTime rowZero [rowOne])).isSome := by
  have hchain : List.Chain' (fun a b : EphRow => a.time < b.time) [rowZero, rowOne] := by
    simp [List.chain'_cons, rowZero, rowOne]
  refine ⟨not_congr (get_positions_none_iff_outside.1 rowZero rowOne [] 0), hchain, ?_, ?_⟩
  · exact (get_positions_none_iff_outside.2 rowZero rowOne [] hchain).1
  · exact (get_positions_none_iff_outside.2 rowZero rowOne [] hchain).2

/-- C3: the per-body interpolation of `get_positions` agrees with the
specification's wraparound rule (add 360° to the smaller endpoint when the
endpoints differ by more than 180°, blend, renormalize), always lands in
`[0, 360)`, is exactly what `get_positions` applies to a bracketing row pair,
and between endpoint longitudes 350° and 10° it stays on the short arc
through 0° (never near 180°). -/
theorem interpolation_wraparound_spec :
    (∀ l1 l2 f : ℚ, interpLon l1 l2 f = interpLonSpec l1 l2 f) ∧
    (∀ l1 l2 f : ℚ, 0 ≤ interpLon l1 l2 f ∧ interpLon l1 l2 f < 360) ∧
    (∀ (r1 r2 : EphRow) (dt : ℚ), r1.time < r2.time → r1.time ≤ dt → dt ≤ r2.time →
      get_positions [r1, r2] dt = some (interpRow r1 r2 dt) ∧
      (interpRow r1 r2 dt).sun =
        interpLon r1.sun r2.sun ((dt - r1.time) / (r2.time - r1.time))) ∧
    (∀ f : ℚ, 0 ≤ f → f ≤ 1 →
      (350 ≤ interpLon 350 10 f ∨ interpLon 350 10 f ≤ 10) ∧
      ¬ (170 ≤ interpLon 350 10 f ∧ interpLon 350 10 f ≤ 190)) := by
  refine ⟨?_, ?_, ?_, ?_⟩
  · intro l1 l2 f
    simp only [interpLon, interpLonSpec]
    by_cases h : |l2 - l1| > 180
    · simp only [if_pos h]
      by_cases h2 : l2 < l1
      · rw [if_pos h2, if_neg (not_le.mpr h2)]
      · rw [if_neg h2, if_pos (not_lt.mp h2)]
    · simp only [if_neg h]
  · intro l1 l2 f
    exact ⟨pymod_nonneg _ 360 (by norm_num), pymod_lt _ 360 (by norm_num)⟩
  · intro r1 r2 dt h1 h2 h3
    have hlast : lastTime r1 [r2] = r2.time := by rw [lastTime_cons, lastTime_nil]
    constructor
    · rw [get_positions_cons, if_neg (by rw [hlast]; push_neg; exact ⟨h2, h3⟩)]
      have hb : findBracket [r1, r2] dt = some (r1, r2) := by
        simp [findBracket, h2, h3]
      rw [hb]
    · dsimp only [interpRow]
      rw [if_pos (by linarith : r2.time - r1.time > 0)]
  · intro f hf0 hf1
    have hkey : interpLon 350 10 f = pymod (350 + 20 * f) 360 := by
      simp only [interpLon]
      rw [if_pos (by norm_num), if_pos (by norm_num)]
      norm_num
    have hmain : 350 ≤ interpLon 350 10 f ∨ interpLon 350 10 f ≤ 10 := by
      by_cases hc : 350 + 20 * f < 360
      · left
        have h0 : ⌊(350 + 20 * f) / 360⌋ = 0 := by
          rw [Int.floor_eq_zero_iff]
          exact ⟨div_nonneg (by linarith) (by norm_num),
                 (div_lt_one (by norm_num)).mpr hc⟩
        rw [hkey]
        unfold pymod
        rw [h0]
        push_cast
        linarith
      · right
        have h1 : ⌊(350 + 20 * f) / 360⌋ = 1 := by
          rw [Int.floor_eq_iff]
          constructor
          · push_cast
            rw [le_div_iff₀ (by norm_num : (0:ℚ) < 360)]
            linarith [not_lt.mp hc]
          · push_cast
            rw [div_lt_iff₀ (by norm_num : (0:ℚ) < 360)]
            linarith
        rw [hkey]
        unfold pymod
        rw [h1]
        push_cast
        linarith
    refine ⟨hmain, ?_⟩
    rintro ⟨hA, hB⟩
    rcases hmain with h | h <;> linarith

/-- C3 witness: the contract evaluated on the concrete two-row table
`[rowZero, rowOne]` at epoch 0 and at blend factor 1/2. -/
theorem interpolation_wraparound_witness :
    (rowZero.time < rowOne.time ∧ rowZero.time ≤ (0:ℚ) ∧ (0:ℚ) ≤ rowOne.time) ∧
    get_positions [rowZero, rowOne] 0 = some (interpRow rowZero rowOne 0) ∧
    ((0:ℚ) ≤ 1/2 ∧ (1/2:ℚ) ≤ 1) ∧
    (350 ≤ interpLon 350 10 (1/2) ∨ interpLon 350 10 (1/2) ≤ 10) := by
  have h1 : rowZero.time < rowOne.time := by simp [rowZero, rowOne]
  have h2 : rowZero.time ≤ (0:ℚ) := by simp [rowZero]
  have h3 : (0:ℚ) ≤ rowOne.time := by simp [rowZero, rowOne]
  refine ⟨⟨h1, h2, h3⟩, ?_, ⟨by norm_num, by norm_num⟩, ?_⟩
  · exact (interpolation_wraparound_spec.2.2.1 rowZero rowOne 0 h1 h2 h3).1
  · exact (interpolation_wraparound_spec.2.2.2 (1/2) (by norm_num) (by norm_num)).1

lemma get_all_rowpair :
    get_all_positions (some [rowZero, rowOne]) 0 =
      Except.ok (tabulated_positions (interpRow rowZero rowOne 0) 0) := by
  have hlast : lastTime rowZero [rowOne] = rowOne.time := by
    rw [lastTime_cons, lastTime_nil]
  have hgp : get_positions [rowZero, rowOne] 0 = some (interpRow rowZero rowOne 0) := by
    rw [get_positions_cons, if_neg (by rw [hlast]; simp [rowZero, rowOne])]
    have hb : findBracket [rowZero, rowOne] 0 = some (rowZero, rowOne) := by
      simp [findBracket, rowZero, rowOne]
    rw [hb]
  rw [get_all_positions_some, hgp]

/-- C9 counterexample: on the tabulated path the Sun and Moon entries carry
no retrograde flag at all (the CSV has no `Sun_retro`/`Moon_retro` column, so
`get_all_positions` never adds the `'retrograde'` key for them), rather than
reporting `retrograde = false` as claimed. -/
theorem tabulated_sun_retro_counterexample :
    get_all_positions (some [rowZero, rowOne]) 0 =
      Except.ok (tabulated_positions (interpRow rowZero rowOne 0) 0) ∧
    ((tabulated_positions (interpRow rowZero rowOne 0) 0).lookup "Sun").map
        PlanetPos.retrograde = some none ∧
    ((tabulated_positions (interpRow rowZero rowOne 0) 0).lookup "Moon").map
        PlanetPos.retrograde = some none ∧
    some (none : Option Bool) ≠ some (some false) :=
  ⟨get_all_rowpair, rfl, rfl, by simp⟩

/-- C9 amended: Sun and Moon never report `retrograde = true` on either
path; the fallback path reports an explicit `false`, while the tabulated
path omits the flag entirely (an absent `'retrograde'` key). -/
theorem sun_moon_retro_amended :
    (∀ (fs : Option (List EphRow)) (dt : ℚ) (pos : List (String × PlanetPos))
        (p : PlanetPos),
      get_all_positions fs dt = Except.ok pos →
      pos.lookup "Sun" = some p ∨ pos.lookup "Moon" = some p →
      p.retrograde ≠ some true) ∧
    (∀ (dt : ℚ) (p : PlanetPos),
      (calculate_fallback_positions dt).lookup "Sun" = some p ∨
      (calculate_fallback_positions dt).lookup "Moon" = some p →
      p.retrograde = some false) ∧
    (∀ (e : EphemPositions) (dt : ℚ) (p : PlanetPos),
      (tabulated_positions e dt).lookup "Sun" = some p ∨
      (tabulated_positions e dt).lookup "Moon" = some p →
      p.retrograde = none) := by
  have htab : ∀ (e : EphemPositions) (dt : ℚ) (p : PlanetPos),
      (tabulated_positions e dt).lookup "Sun" = some p ∨
      (tabulated_positions e dt).lookup "Moon" = some p →
      p.retrograde = none := by
    intro e dt p hp
    rcases hp with hp | hp
    · rw [show (tabulated_positions e dt).lookup "Sun" = some ⟨e.sun, "Sun", none⟩
          from rfl] at hp
      cases hp
      rfl
    · rw [show (tabulated_positions e dt).lookup "Moon" = some ⟨e.moon, "Moon", none⟩
          from rfl] at hp
      cases hp
      rfl
  have hfb : ∀ (dt : ℚ) (p : PlanetPos),
      (calculate_fallback_positions dt).lookup "Sun" = some p ∨
      (calculate_fallback_positions dt).lookup "Moon" = some p →
      p.retrograde = some false := by
    intro dt p hp
    rcases hp with hp | hp
    · obtain ⟨q, hq⟩ : ∃ q, (calculate_fallback_positions dt).lookup "Sun" =
          some ⟨q, "Sun", some false⟩ := ⟨_, rfl⟩
      rw [hq] at hp
      cases hp
      rfl
    · obtain ⟨q, hq⟩ : ∃ q, (calculate_fallback_positions dt).lookup "Moon" =
          some ⟨q, "Moon", some false⟩ := ⟨_, rfl⟩
      rw [hq] at hp
      cases hp
      rfl
  refine ⟨?_, hfb, htab⟩
  intro fs dt pos p hok hp
  cases fs with
  | none => exact absurd hok (by simp [get_all_positions, get_ephemeris])
  | some rows =>
    rw [get_all_positions_some] at hok
    cases hgp : get_positions rows dt with
    | some e =>
      simp only [hgp] at hok
      cases hok
      rw [htab e dt p hp]
      simp
    | none =>
      simp only [hgp] at hok
      cases hok
      rw [hfb dt p hp]
      simp

/-- C9 witness: the amended contract evaluated on the concrete tabulated-path
run over `[rowZero, rowOne]` at epoch 0. -/
theorem sun_moon_retro_witness :
    get_all_positions (some [rowZero, rowOne]) 0 =
      Except.ok (tabulated_positions (interpRow rowZero rowOne 0) 0) ∧
    (tabulated_positions (interpRow rowZero rowOne 0) 0).lookup "Sun" =
      some ⟨(interpRow rowZero rowOne 0).sun, "Sun", none⟩ ∧
    (⟨(interpRow rowZero rowOne 0).sun, "Sun", none⟩ : PlanetPos).retrograde ≠ some true :=
  ⟨get_all_rowpair, rfl,
   sun_moon_retro_amended.1 (some [rowZero, rowOne]) 0 _ _ get_all_rowpair (Or.inl rfl)⟩

lemma round2_eq_two (q : ℚ) (h1 : 1995/1000 ≤ q) (h2 : q < 2) : round2 q = 2 := by
  have hf : ⌊q * 100⌋ = 199 := by
    rw [Int.floor_eq_iff]
    constructor
    · push_cast
      linarith
    · push_cast
      linarith
  unfold round2 roundHalfEven
  rw [hf]
  split_ifs with h3 h4 h5
  · exfalso
    push_cast at h3
    linarith
  · norm_num
  · exact absurd h5 (by decide)
  · norm_num

lemma mem_find_aspects {cur nat : List (String × PlanetPos)} {rec : AspectRec}
    (h : rec ∈ find_aspects_to_natal cur nat) :
    ∃ t ∈ cur, ∃ n ∈ nat, ∃ a ∈ ASPECTS,
      rec = ⟨t.1, n.1, a.1,
             round2 |angle_difference t.2.longitude n.2.longitude - a.2.1|,
             round2 t.2.longitude, round2 n.2.longitude⟩ ∧
      |angle_difference t.2.longitude n.2.longitude - a.2.1| ≤ a.2.2 := by
  unfold find_aspects_to_natal at h
  rw [List.mem_flatMap] at h
  obtain ⟨t, ht, h⟩ := h
  rw [List.mem_flatMap] at h
  obtain ⟨n, hn, h⟩ := h
  rw [List.mem_filterMap] at h
  obtain ⟨a, ha, heq⟩ := h
  refine ⟨t, ht, n, hn, a, ha, ?_⟩
  have ha5 : a = ("Conjunction", (0:ℚ), (8:ℚ)) ∨ a = ("Sextile", 60, 6) ∨
      a = ("Square", 90, 7) ∨ a = ("Trine", 120, 8) ∨ a = ("Opposition", 180, 8) := by
    simpa [ASPECTS] using ha
  have hlk : ASPECTS.lookup a.1 = some (a.2.1, a.2.2) := by
    rcases ha5 with rfl | rfl | rfl | rfl | rfl <;> rfl
  rw [check_aspect_eval t.2.longitude n.2.longitude a.2.1 a.2.2 a.1 hlk] at heq
  by_cases hc : |angle_difference t.2.longitude n.2.longitude - a.2.1| ≤ a.2.2
  · rw [decide_eq_true hc] at heq
    exact ⟨(Option.some.inj heq).symm, hc⟩
  · rw [decide_eq_false hc] at heq
    exact Option.noConfusion heq

/-- C10: every record emitted by `find_aspects_to_natal` carries its orb and
both longitudes rounded to two decimal places; rounding (half to even) sends
every true orb in `[1.995, 2)` to exactly `2.0`; and since
`find_upcoming_transits` tests the stored (rounded) orb strictly against
`2.0`, such a match fails the cutoff although its true orb is below 2°. -/
theorem rounded_orb_gate_spec :
    (∀ (cur nat : List (String × PlanetPos)) (rec : AspectRec),
      rec ∈ find_aspects_to_natal cur nat →
      ∃ t ∈ cur, ∃ n ∈ nat, ∃ a ∈ ASPECTS,
        rec.orb = round2 |angle_difference t.2.longitude n.2.longitude - a.2.1| ∧
        rec.transit_longitude = round2 t.2.longitude ∧
        rec.natal_longitude = round2 n.2.longitude) ∧
    (∀ q : ℚ, 1995/1000 ≤ q → q < 2 → round2 q = 2) ∧
    (∀ l1 l2 ta : ℚ, 1995/1000 ≤ |angle_difference l1 l2 - ta| →
      |angle_difference l1 l2 - ta| < 2 →
      ¬ (round2 |angle_difference l1 l2 - ta| < 2)) := by
  refine ⟨?_, round2_eq_two, ?_⟩
  · intro cur nat rec h
    obtain ⟨t, ht, n, hn, a, ha, hrec, _⟩ := mem_find_aspects h
    exact ⟨t, ht, n, hn, a, ha, by rw [hrec], by rw [hrec], by rw [hrec]⟩
  · intro l1 l2 ta h1 h2
    rw [round2_eq_two _ h1 h2]
    norm_num

/-- C10 witness: the rounding window evaluated at the concrete true orb
1.996, and the cutoff exclusion at the concrete pair (10°, 70°) against a
target angle of 58.005° (true orb exactly 1.995). -/
theorem rounded_orb_gate_witness :
    ((1995/1000 : ℚ) ≤ 1996/1000 ∧ (1996/1000 : ℚ) < 2 ∧ round2 (1996/1000) = 2) ∧
    ((1995/1000 : ℚ) ≤ |angle_difference 10 70 - 58005/1000| ∧
     |angle_difference 10 70 - (58005/1000 : ℚ)| < 2 ∧
     ¬ (round2 |angle_difference 10 70 - (58005/1000 : ℚ)| < 2)) := by
  have hd : angle_difference 10 70 = 60 := by norm_num [angle_difference]
  have habs : |angle_difference 10 70 - (58005/1000 : ℚ)| = 1995/1000 := by
    rw [hd, show (60:ℚ) - 58005/1000 = 1995/1000 by norm_num,
        abs_of_pos (by norm_num : (0:ℚ) < 1995/1000)]
  have hA : (1995/1000 : ℚ) ≤ |angle_difference 10 70 - 58005/1000| := by
    rw [habs]
  have hB : |angle_difference 10 70 - (58005/1000 : ℚ)| < 2 := by
    rw [habs]
    norm_num
  exact ⟨⟨by norm_num, by norm_num,
          rounded_orb_gate_spec.2.1 (1996/1000) (by norm_num) (by norm_num)⟩,
         ⟨hA, hB, rounded_orb_gate_spec.2.2 10 70 (58005/1000) hA hB⟩⟩

lemma mem_day_entries {p : ℕ → List (String × PlanetPos)}
    {n : List (String × PlanetPos)} {day : ℕ} {e : TransitEntry}
    (h : e ∈ day_entries p n day) :
    e.day_offset = day ∧ e.transit_planet ∈ outer_planets ∧
    e.natal_planet ∈ NATAL_POINTS ∧ e.aspect ∈ major_aspects ∧ e.orb < 2 ∧
    e.transit = e.transit_planet ++ " " ++ e.aspect ++ " natal " ++ e.natal_planet := by
  simp only [day_entries] at h
  by_cases hemp : (p day).isEmpty
  · rw [if_pos hemp] at h
    exact absurd h (List.not_mem_nil e)
  · rw [if_neg hemp] at h
    rw [List.mem_filterMap] at h
    obtain ⟨a, _, heq⟩ := h
    by_cases hc : a.transit_planet ∈ outer_planets ∧ a.natal_planet ∈ NATAL_POINTS ∧
        a.aspect ∈ major_aspects ∧ a.orb < 2
    · rw [if_pos hc] at heq
      cases heq
      exact ⟨rfl, hc.1, hc.2.1, hc.2.2.1, hc.2.2.2, rfl⟩
    · rw [if_neg hc] at heq
      exact Option.noConfusion heq

lemma mem_upcoming_list {p : ℕ → List (String × PlanetPos)}
    {n : List (String × PlanetPos)} {d : ℕ} {e : TransitEntry}
    (h : e ∈ upcoming_list p n d) :
    1 ≤ e.day_offset ∧ e.day_offset ≤ d ∧ e.transit_planet ∈ outer_planets ∧
    e.natal_planet ∈ NATAL_POINTS ∧ e.aspect ∈ major_aspects ∧ e.orb < 2 ∧
    e.transit = e.transit_planet ++ " " ++ e.aspect ++ " natal " ++ e.natal_planet := by
  unfold upcoming_list at h
  rw [List.mem_flatMap] at h
  obtain ⟨day, hday, he⟩ := h
  obtain ⟨hd0, h1, h2, h3, h4, h5⟩ := mem_day_entries he
  rw [List.mem_range'_1] at hday
  refine ⟨?_, ?_, h1, h2, h3, h4, h5⟩
  · rw [hd0]
    exact hday.1
  · rw [hd0]
    omega

lemma upcoming_list_sorted (p : ℕ → List (String × PlanetPos))
    (n : List (String × PlanetPos)) (d : ℕ) :
    (upcoming_list p n d).Pairwise
      (fun x y : TransitEntry => x.day_offset ≤ y.day_offset) := by
  unfold upcoming_list
  rw [List.pairwise_flatMap]
  constructor
  · intro day _
    apply List.pairwise_of_forall_mem_list
    intro x hx y hy
    rw [(mem_day_entries hx).1, (mem_day_entries hy).1]
  · refine List.Pairwise.imp ?_ (List.pairwise_le_range' 1 d)
    intro a b hab x hx y hy
    rw [(mem_day_entries hx).1, (mem_day_entries hy).1]
    exact hab

lemma dedup_transits_sublist :
    ∀ (l : List TransitEntry) (seen : List String),
      (dedup_transits l seen).Sublist l := by
  intro l
  induction l with
  | nil => intro seen; simp [dedup_transits]
  | cons t rest ih =>
    intro seen
    unfold dedup_transits
    split_ifs with h
    · exact (ih seen).trans (List.sublist_cons_self t rest)
    · exact (ih (t.transit :: seen)).cons₂ t

lemma dedup_transits_not_seen :
    ∀ (l : List TransitEntry) (seen : List String) (e : TransitEntry),
      e ∈ dedup_transits l seen → e.transit ∉ seen := by
  intro l
  induction l with
  | nil => intro seen e he; simp [dedup_transits] at he
  | cons t rest ih =>
    intro seen e he
    unfold dedup_transits at he
    split_ifs at he with h
    · exact ih seen e he
    · rcases List.mem_cons.mp he with rfl | he'
      · exact h
      · intro hs
        exact ih _ e he' (List.mem_cons_of_mem _ hs)

lemma dedup_transits_keys :
    ∀ (l : List TransitEntry) (seen : List String),
      (dedup_transits l seen).Pairwise
        (fun x y : TransitEntry => x.transit ≠ y.transit) := by
  intro l
  induction l with
  | nil => intro seen; simp [dedup_transits]
  | cons t rest ih =>
    intro seen
    unfold dedup_transits
    split_ifs with h
    · exact ih seen
    · refine List.Pairwise.cons ?_ (ih (t.transit :: seen))
      intro y hy heq
      exact dedup_transits_not_seen rest (t.transit :: seen) y hy
        (heq ▸ List.mem_cons_self _ _)

lemma dedup_transits_first :
    ∀ (l : List TransitEntry) (seen : List String),
      l.Pairwise (fun x y : TransitEntry => x.day_offset ≤ y.day_offset) →
      ∀ e ∈ dedup_transits l seen, ∀ e2 ∈ l, e2.transit = e.transit →
        e.day_offset ≤ e2.day_offset := by
  intro l
  induction l with
  | nil => intro seen _ e he; simp [dedup_transits] at he
  | cons t rest ih =>
    intro seen hp e he e2 he2 hkey
    obtain ⟨hhead, htail⟩ := List.pairwise_cons.mp hp
    unfold dedup_transits at he
    split_ifs at he with h
    · rcases List.mem_cons.mp he2 with rfl | he2'
      · exact absurd (hkey ▸ h) (dedup_transits_not_seen rest seen e he)
      · exact ih seen htail e he e2 he2' hkey
    · rcases List.mem_cons.mp he with rfl | he'
      · rcases List.mem_cons.mp he2 with rfl | he2'
        · exact le_refl _
        · exact hhead e2 he2'
      · rcases List.mem_cons.mp he2 with rfl | he2'
        · exact absurd (hkey ▸ List.mem_cons_self e2.transit seen)
            (dedup_transits_not_seen rest (e2.transit :: seen) e he')
        · exact ih (t.transit :: seen) htail e he' e2 he2' hkey

/-- C2: the transit forecast keeps only records whose transiting body is an
outer planet, whose natal body is Sun or Moon, whose aspect is one of the
four major aspects, and whose (stored) orb is below 2°; it returns at most
10 entries, never two entries sharing the (transit body, aspect, natal body)
triple, ordered by day offset ascending, and for each kept triple the entry
is the chronologically first occurrence in the scanned window. -/
theorem find_upcoming_transits_spec (p : ℕ → List (String × PlanetPos))
    (n : List (String × PlanetPos)) (d : ℕ) :
    (find_upcoming_transits p n d).length ≤ 10 ∧
    (∀ e ∈ find_upcoming_transits p n d,
      e.transit_planet ∈ outer_planets ∧ e.natal_planet ∈ NATAL_POINTS ∧
      e.aspect ∈ major_aspects ∧ e.orb < 2 ∧
      1 ≤ e.day_offset ∧ e.day_offset ≤ d) ∧
    (find_upcoming_transits p n d).Pairwise (fun x y : TransitEntry =>
      ¬ (x.transit_planet = y.transit_planet ∧ x.aspect = y.aspect ∧
         x.natal_planet = y.natal_planet)) ∧
    (find_upcoming_transits p n d).Pairwise (fun x y : TransitEntry =>
      x.day_offset ≤ y.day_offset) ∧
    (∀ e ∈ find_upcoming_transits p n d, ∀ e2 ∈ upcoming_list p n d,
      e2.transit_planet = e.transit_planet → e2.aspect = e.aspect →
      e2.natal_planet = e.natal_planet → e.day_offset ≤ e2.day_offset) := by
  have hsub1 : (find_upcoming_transits p n d).Sublist
      (dedup_transits (upcoming_list p n d) []) := List.take_sublist _ _
  have hsub2 : (dedup_transits (upcoming_list p n d) []).Sublist
      (upcoming_list p n d) := dedup_transits_sublist _ _
  have hmemup : ∀ e ∈ find_upcoming_transits p n d, e ∈ upcoming_list p n d :=
    fun e he => hsub2.subset (hsub1.subset he)
  refine ⟨List.length_take_le _ _, ?_, ?_, ?_, ?_⟩
  · intro e he
    obtain ⟨hb1, hb2, hb3, hb4, hb5, hb6, _⟩ := mem_upcoming_list (hmemup e he)
    exact ⟨hb3, hb4, hb5, hb6, hb1, hb2⟩
  · have hkeys : (find_upcoming_transits p n d).Pairwise
        (fun x y : TransitEntry => x.transit ≠ y.transit) :=
      List.Pairwise.sublist hsub1 (dedup_transits_keys _ _)
    refine List.Pairwise.imp_of_mem ?_ hkeys
    intro a b hma hmb hne
    rintro ⟨h1, h2, h3⟩
    have hfa := (mem_upcoming_list (hmemup a hma)).2.2.2.2.2.2
    have hfb := (mem_upcoming_list (hmemup b hmb)).2.2.2.2.2.2
    exact hne (by rw [hfa, hfb, h1, h2, h3])
  · exact List.Pairwise.sublist (hsub1.trans hsub2) (upcoming_list_sorted p n d)
  · intro e he e2 he2 h1 h2 h3
    have hfe := (mem_upcoming_list (hmemup e he)).2.2.2.2.2.2
    have hfe2 := (mem_upcoming_list he2).2.2.2.2.2.2
    have hkey : e2.transit = e.transit := by rw [hfe, hfe2, h1, h2, h3]
    exact dedup_transits_first (upcoming_list p n d) [] (upcoming_list_sorted p n d)
      e (hsub1.subset he) e2 he2 hkey

/-- C2 witness: a one-day forecast over a single transiting Jupiter at 0°
against a natal Sun at 0° yields exactly the Jupiter-Conjunction-Sun entry,
and the contract holds at it. -/
theorem find_upcoming_transits_spec_witness :
    (⟨1, "Jupiter", "Conjunction", "Sun", "Jupiter Conjunction natal Sun", 0⟩ :
        TransitEntry) ∈
      find_upcoming_transits (fun _ => [("Jupiter", ⟨0, "Jupiter", some false⟩)])
        [("Sun", ⟨0, "Sun", some false⟩)] 1 ∧
    ("Jupiter" ∈ outer_planets ∧ "Sun" ∈ NATAL_POINTS ∧
     "Conjunction" ∈ major_aspects ∧ (0:ℚ) < 2 ∧ (1:ℕ) ≤ 1 ∧ (1:ℕ) ≤ 1) := by
  have h0 : angle_difference 0 0 = 0 := by norm_num [angle_difference]
  have hc1 : check_aspect 0 0 "Conjunction" = some (true, 0) := by
    rw [check_aspect_hit 0 0 0 8 "Conjunction" rfl (by rw [h0]; norm_num), h0]
    norm_num
  have hc2 : check_aspect 0 0 "Sextile" = some (false, 60) := by
    rw [check_aspect_miss 0 0 60 6 "Sextile" rfl (by rw [h0]; norm_num), h0]
    norm_num
  have hc3 : check_aspect 0 0 "Square" = some (false, 90) := by
    rw [check_aspect_miss 0 0 90 7 "Square" rfl (by rw [h0]; norm_num), h0]
    norm_num
  have hc4 : check_aspect 0 0 "Trine" = some (false, 120) := by
    rw [check_aspect_miss 0 0 120 8 "Trine" rfl (by rw [h0]; norm_num), h0]
    norm_num
  have hc5 : check_aspect 0 0 "Opposition" = some (false, 180) := by
    rw [check_aspect_miss 0 0 180 8 "Opposition" rfl (by rw [h0]; norm_num), h0]
    norm_num
  have hr0 : round2 0 = 0 := by norm_num [round2, roundHalfEven]
  have hfa : find_aspects_to_natal [("Jupiter", ⟨0, "Jupiter", some false⟩)]
      [("Sun", ⟨0, "Sun", some false⟩)] =
      [⟨"Jupiter", "Sun", "Conjunction", 0, 0, 0⟩] := by
    simp only [find_aspects_to_natal, ASPECTS, List.flatMap_cons, List.flatMap_nil,
      List.filterMap_cons, List.filterMap_nil, List.append_nil, hc1, hc2, hc3, hc4,
      hc5, hr0]
  have hday : day_entries (fun _ => [("Jupiter", ⟨0, "Jupiter", some false⟩)])
      [("Sun", ⟨0, "Sun", some false⟩)] 1 =
      [⟨1, "Jupiter", "Conjunction", "Sun", "Jupiter Conjunction natal Sun", 0⟩] := by
    simp only [day_entries, List.isEmpty_cons, Bool.false_eq_true, if_false, hfa,
      List.filterMap_cons, List.filterMap_nil]
    rw [if_pos ⟨by simp [outer_planets], by simp [NATAL_POINTS],
        by simp [major_aspects], by norm_num⟩]
    rfl
  have hup : upcoming_list (fun _ => [("Jupiter", ⟨0, "Jupiter", some false⟩)])
      [("Sun", ⟨0, "Sun", some false⟩)] 1 =
      [⟨1, "Jupiter", "Conjunction", "Sun", "Jupiter Conjunction natal Sun", 0⟩] := by
    unfold upcoming_list
    rw [show List.range' 1 1 = [1] from rfl]
    rw [List.flatMap_cons, List.flatMap_nil, hday, List.append_nil]
  have hmem : (⟨1, "Jupiter", "Conjunction", "Sun", "Jupiter Conjunction natal Sun", 0⟩ :
      TransitEntry) ∈
      find_upcoming_transits (fun _ => [("Jupiter", ⟨0, "Jupiter", some false⟩)])
        [("Sun", ⟨0, "Sun", some false⟩)] 1 := by
    unfold find_upcoming_transits
    rw [hup]
    rw [show dedup_transits
        [⟨1, "Jupiter", "Conjunction", "Sun", "Jupiter Conjunction natal Sun", 0⟩] [] =
        [⟨1, "Jupiter", "Conjunction", "Sun", "Jupiter Conjunction natal Sun", 0⟩] by
      simp [dedup_transits]]
    simp
  refine ⟨hmem, ?_⟩
  have := (find_upcoming_transits_spec
      (fun _ => [("Jupiter", ⟨0, "Jupiter", some false⟩)])
      [("Sun", ⟨0, "Sun", some false⟩)] 1).2.1 _ hmem
  exact this

/-- Modelled from the spec: the Kepler-equation residual `E - e·sin E - M`
of the KeplerSolver component (absent from the repository's source, which
only ships the linear-rate fallback; spec section 4.2 specifies it). -/
noncomputable def kepler_residual (e M E : ℝ) : ℝ := E - e * Real.sin E - M

/-- Modelled from the spec: one Newton-Raphson step of the KeplerSolver,
`E ← E - (E - e·sin E - M) / (1 - e·cos E)`. -/
noncomputable def kepler_step (e M E : ℝ) : ℝ :=
  E - kepler_residual e M E / (1 - e * Real.cos E)

/-- Modelled from the spec: the KeplerSolver iteration loop with its fuel
(remaining iterations of the 30-iteration cap): at each round the residual
of the current estimate is tested against the 1e-6 tolerance, the estimate
is returned on convergence, and the last estimate is returned without error
when the fuel runs out. -/
noncomputable def kepler_solve_go (e M : ℝ) : ℕ → ℝ → ℝ
  | 0, E => E
  | fuel + 1, E =>
    if |kepler_residual e M E| < 1/1000000 then E
    else kepler_solve_go e M fuel (kepler_step e M E)

/-- Modelled from the spec: the KeplerSolver entry point, Newton-Raphson
from the initial guess `E₀ = M` with residual tolerance 1e-6 and a hard cap
of 30 iterations. -/
noncomputable def kepler_solve (e M : ℝ) : ℝ := kepler_solve_go e M 30 M

lemma abs_sin_sub_sin_le (x y : ℝ) : |Real.sin x - Real.sin y| ≤ |x - y| := by
  rw [Real.sin_sub_sin]
  have h1 : |Real.sin ((x - y) / 2)| ≤ |(x - y) / 2| := by
    by_cases h : (x - y) / 2 = 0
    · simp [h]
    · exact le_of_lt (Real.abs_sin_lt_abs h)
  have h2 : |Real.cos ((x + y) / 2)| ≤ 1 := Real.abs_cos_le_one _
  calc |2 * Real.sin ((x - y) / 2) * Real.cos ((x + y) / 2)|
      = 2 * |Real.sin ((x - y) / 2)| * |Real.cos ((x + y) / 2)| := by
        rw [abs_mul, abs_mul]
        norm_num
    _ ≤ 2 * |(x - y) / 2| * 1 := by
        apply mul_le_mul
        · exact mul_le_mul_of_nonneg_left h1 (by norm_num)
        · exact h2
        · exact abs_nonneg _
        · positivity
    _ = |x - y| := by
        rw [abs_div]
        norm_num
        ring

/-- Residual-to-error transfer: since `g(E) = E - e·sin E` changes by at
least `(1-e)·|ΔE|`, any estimate whose residual is below the tolerance is
within `tolerance / (1-e)` of the exact root. -/
lemma kepler_transfer (e M E r : ℝ) (he0 : 0 ≤ e) (he1 : e < 1)
    (hE : kepler_residual e M E = 0)
    (hr : |kepler_residual e M r| < 1/1000000) :
    |r - E| ≤ 1/1000000 / (1 - e) := by
  have hsin : |Real.sin r - Real.sin E| ≤ |r - E| := abs_sin_sub_sin_le r E
  have hkey : (1 - e) * |r - E| ≤ |kepler_residual e M r| := by
    have h1 : kepler_residual e M r =
        (r - E) - e * (Real.sin r - Real.sin E) + kepler_residual e M E := by
      unfold kepler_residual
      ring
    rw [h1, hE, add_zero]
    have h2 : |r - E| - e * |Real.sin r - Real.sin E| ≤
        |(r - E) - e * (Real.sin r - Real.sin E)| := by
      have := abs_sub_abs_le_abs_sub (r - E) (e * (Real.sin r - Real.sin E))
      rw [abs_mul, abs_of_nonneg he0] at this
      linarith
    nlinarith [abs_nonneg (Real.sin r - Real.sin E)]
  have hpos : 0 < 1 - e := by linarith
  rw [le_div_iff₀ hpos]
  nlinarith

/-- If some iterate of the Newton orbit within the fuel bound has residual
below the tolerance, the returned estimate has residual below the
tolerance (the loop returns at the first such iterate). -/
lemma kepler_solve_go_stops (e M : ℝ) :
    ∀ (n : ℕ) (E : ℝ),
      (∃ k < n, |kepler_residual e M ((kepler_step e M)^[k] E)| < 1/1000000) →
      |kepler_residual e M (kepler_solve_go e M n E)| < 1/1000000 := by
  intro n
  induction n with
  | zero =>
    intro E h
    obtain ⟨k, hk, _⟩ := h
    exact absurd hk (Nat.not_lt_zero k)
  | succ m ih =>
    intro E h
    rw [kepler_solve_go]
    by_cases h0 : |kepler_residual e M E| < 1/1000000
    · rw [if_pos h0]
      exact h0
    · rw [if_neg h0]
      obtain ⟨k, hk, hres⟩ := h
      apply ih
      cases k with
      | zero => exact absurd hres (by simpa using h0)
      | succ k' =>
        refine ⟨k', by omega, ?_⟩
        rw [← Function.iterate_succ_apply]
        exact hres

/-- Packaged round trip: a stopping certificate for the orbit started at
`M = E - e·sin E` yields the 1e-5 recovery bound (for `e ≤ 0.9`,
`1e-6 / (1-e) ≤ 1e-5`). -/
lemma kepler_roundtrip_of_stop (e E : ℝ) (he0 : 0 ≤ e) (he1 : e ≤ 9/10)
    (hstop : ∃ k < 30,
      |kepler_residual e (E - e * Real.sin E)
        ((kepler_step e (E - e * Real.sin E))^[k] (E - e * Real.sin E))| < 1/1000000) :
    |kepler_solve e (E - e * Real.sin E) - E| ≤ 1/100000 := by
  have he1' : e < 1 := by linarith
  have hroot : kepler_residual e (E - e * Real.sin E) E = 0 := by
    unfold kepler_residual
    ring
  have hret :
      |kepler_residual e (E - e * Real.sin E)
        (kepler_solve e (E - e * Real.sin E))| < 1/1000000 :=
    kepler_solve_go_stops e (E - e * Real.sin E) 30 (E - e * Real.sin E) hstop
  have htr := kepler_transfer e (E - e * Real.sin E) E
    (kepler_solve e (E - e * Real.sin E)) he0 he1' hroot hret
  have hbound : 1/1000000 / (1 - e) ≤ 1/100000 := by
    rw [div_le_iff₀ (by linarith : (0:ℝ) < 1 - e)]
    linarith
  linarith

lemma kepler_residual_mirror (e M x : ℝ) :
    kepler_residual e (2 * Real.pi - M) (2 * Real.pi - x) =
      -(kepler_residual e M x) := by
  unfold kepler_residual
  have hs : Real.sin (2 * Real.pi - x) = -Real.sin x := by
    rw [Real.sin_sub, Real.sin_two_pi, Real.cos_two_pi]
    ring
  rw [hs]
  ring

lemma kepler_step_mirror (e M x : ℝ) :
    kepler_step e (2 * Real.pi - M) (2 * Real.pi - x) =
      2 * Real.pi - kepler_step e M x := by
  unfold kepler_step
  rw [kepler_residual_mirror]
  have hc : Real.cos (2 * Real.pi - x) = Real.cos x := by
    rw [Real.cos_sub, Real.sin_two_pi, Real.cos_two_pi]
    ring
  rw [hc]
  ring

lemma kepler_orbit_mirror (e M : ℝ) :
    ∀ k : ℕ, (kepler_step e (2 * Real.pi - M))^[k] (2 * Real.pi - M) =
      2 * Real.pi - (kepler_step e M)^[k] M := by
  intro k
  induction k with
  | zero => simp
  | succ m ih =>
    rw [Function.iterate_succ_apply', Function.iterate_succ_apply', ih,
        kepler_step_mirror]

lemma abs_cos_sub_cos_le (x y : ℝ) : |Real.cos x - Real.cos y| ≤ |x - y| := by
  rw [Real.cos_sub_cos]
  have h1 : |Real.sin ((x - y) / 2)| ≤ |(x - y) / 2| := by
    by_cases h : (x - y) / 2 = 0
    · simp [h]
    · exact le_of_lt (Real.abs_sin_lt_abs h)
  have h2 : |Real.sin ((x + y) / 2)| ≤ 1 := Real.abs_sin_le_one _
  calc |-2 * Real.sin ((x + y) / 2) * Real.sin ((x - y) / 2)|
      = 2 * |Real.sin ((x + y) / 2)| * |Real.sin ((x - y) / 2)| := by
        rw [abs_mul, abs_mul]
        norm_num
    _ ≤ 2 * 1 * |(x - y) / 2| := by
        apply mul_le_mul
        · exact mul_le_mul_of_nonneg_left h2 (by norm_num)
        · exact h1
        · exact abs_nonneg _
        · norm_num
    _ = |x - y| := by
        rw [abs_div]
        norm_num
        ring

/-- Two-sided rational enclosures: certified interval arithmetic used to
verify the Newton iterates of the spec-modelled KeplerSolver at the
concrete test points. An enclosure of a value v is a proof of
l <= v and v <= u for rational l, u. -/
lemma interval_of_abs (v p d l u : ℝ) (h : |v - p| ≤ d) (hl : l ≤ p - d) (hu : p + d ≤ u) :
    l ≤ v ∧ v ≤ u := by
  obtain ⟨h1, h2⟩ := abs_le.mp h
  constructor <;> linarith

lemma mul_interval (u v u1 u2 v1 v2 L U : ℝ)
    (hu : u1 ≤ u ∧ u ≤ u2) (hv : v1 ≤ v ∧ v ≤ v2)
    (hL1 : L ≤ u1*v1) (hL2 : L ≤ u1*v2) (hL3 : L ≤ u2*v1) (hL4 : L ≤ u2*v2)
    (hU1 : u1*v1 ≤ U) (hU2 : u1*v2 ≤ U) (hU3 : u2*v1 ≤ U) (hU4 : u2*v2 ≤ U) :
    L ≤ u*v ∧ u*v ≤ U := by
  constructor
  · rcases le_total 0 u with h | h
    · rcases le_total 0 v1 with h' | h'
      · nlinarith
      · nlinarith
    · rcases le_total 0 v2 with h' | h'
      · nlinarith
      · nlinarith
  · rcases le_total 0 u with h | h
    · rcases le_total 0 v2 with h' | h'
      · nlinarith
      · nlinarith
    · rcases le_total 0 v1 with h' | h'
      · nlinarith
      · nlinarith

lemma div_interval (u w u1 u2 w1 w2 L U : ℝ)
    (hu : u1 ≤ u ∧ u ≤ u2) (hw : w1 ≤ w ∧ w ≤ w2) (h0 : 0 < w1)
    (hL1 : L*w1 ≤ u1) (hL2 : L*w2 ≤ u1) (hU1 : u2 ≤ U*w1) (hU2 : u2 ≤ U*w2) :
    L ≤ u/w ∧ u/w ≤ U := by
  have hw0 : 0 < w := lt_of_lt_of_le h0 hw.1
  constructor
  · rw [le_div_iff₀ hw0]
    have : L*w ≤ u1 := by
      rcases le_total 0 L with h | h
      · nlinarith
      · nlinarith
    linarith [hu.1]
  · rw [div_le_iff₀ hw0]
    have : u2 ≤ U*w := by
      rcases le_total 0 U with h | h
      · nlinarith
      · nlinarith
    linarith [hu.2]

lemma sin_lipschitz_interval (x a x1 x2 d sa1 sa2 s1 s2 : ℝ)
    (hx : x1 ≤ x ∧ x ≤ x2) (hd1 : a - x1 ≤ d) (hd2 : x2 - a ≤ d)
    (hsa : sa1 ≤ Real.sin a ∧ Real.sin a ≤ sa2)
    (h1 : s1 ≤ sa1 - d) (h2 : sa2 + d ≤ s2) :
    s1 ≤ Real.sin x ∧ Real.sin x ≤ s2 := by
  have habs : |Real.sin x - Real.sin a| ≤ d := by
    calc |Real.sin x - Real.sin a| ≤ |x - a| := abs_sin_sub_sin_le x a
      _ ≤ d := abs_le.mpr ⟨by linarith, by linarith⟩
  obtain ⟨ha, hb⟩ := abs_le.mp habs
  constructor <;> linarith

lemma cos_lipschitz_interval (x a x1 x2 d ca1 ca2 c1 c2 : ℝ)
    (hx : x1 ≤ x ∧ x ≤ x2) (hd1 : a - x1 ≤ d) (hd2 : x2 - a ≤ d)
    (hca : ca1 ≤ Real.cos a ∧ Real.cos a ≤ ca2)
    (h1 : c1 ≤ ca1 - d) (h2 : ca2 + d ≤ c2) :
    c1 ≤ Real.cos x ∧ Real.cos x ≤ c2 := by
  have habs : |Real.cos x - Real.cos a| ≤ d := by
    calc |Real.cos x - Real.cos a| ≤ |x - a| := abs_cos_sub_cos_le x a
      _ ≤ d := abs_le.mpr ⟨by linarith, by linarith⟩
  obtain ⟨ha, hb⟩ := abs_le.mp habs
  constructor <;> linarith

lemma scale_interval (e x a b l u : ℝ) (he : 0 ≤ e) (h : a ≤ x ∧ x ≤ b)
    (hl : l ≤ e*a) (hu : e*b ≤ u) : l ≤ e*x ∧ e*x ≤ u := by
  constructor
  · calc l ≤ e*a := hl
      _ ≤ e*x := mul_le_mul_of_nonneg_left h.1 he
  · calc e*x ≤ e*b := mul_le_mul_of_nonneg_left h.2 he
      _ ≤ u := hu

lemma one_sub_interval (t t1 t2 l u : ℝ) (h : t1 ≤ t ∧ t ≤ t2)
    (hl : l ≤ 1 - t2) (hu : 1 - t1 ≤ u) : l ≤ 1 - t ∧ 1 - t ≤ u := by
  constructor <;> [linarith [h.2]; linarith [h.1]]

lemma kepler_residual_interval (e M x s1 s2 m1 m2 x1 x2 l u : ℝ)
    (hx : x1 ≤ x ∧ x ≤ x2) (hM : m1 ≤ M ∧ M ≤ m2)
    (hs : s1 ≤ e * Real.sin x ∧ e * Real.sin x ≤ s2)
    (hl : l ≤ x1 - s2 - m2) (hu : x2 - s1 - m1 ≤ u) :
    l ≤ kepler_residual e M x ∧ kepler_residual e M x ≤ u := by
  unfold kepler_residual
  constructor <;> [linarith [hx.1, hs.2, hM.2]; linarith [hx.2, hs.1, hM.1]]

lemma kepler_step_interval (e M x q1 q2 x1 x2 l u : ℝ)
    (hx : x1 ≤ x ∧ x ≤ x2)
    (hq : q1 ≤ kepler_residual e M x / (1 - e * Real.cos x) ∧
          kepler_residual e M x / (1 - e * Real.cos x) ≤ q2)
    (hl : l ≤ x1 - q2) (hu : x2 - q1 ≤ u) :
    l ≤ kepler_step e M x ∧ kepler_step e M x ≤ u := by
  unfold kepler_step
  constructor <;> [linarith [hx.1, hq.2]; linarith [hx.2, hq.1]]

lemma abs_lt_of_interval (x l u c : ℝ) (h : l ≤ x ∧ x ≤ u) (h1 : -c < l) (h2 : u < c) :
    |x| < c := abs_lt.mpr ⟨by linarith [h.1], by linarith [h.2]⟩

lemma sin_double_interval (y P1 P2 l u : ℝ)
    (hp : P1 ≤ Real.sin y * Real.cos y ∧ Real.sin y * Real.cos y ≤ P2)
    (hl : l ≤ 2*P1) (hu : 2*P2 ≤ u) :
    l ≤ Real.sin (2*y) ∧ Real.sin (2*y) ≤ u := by
  rw [Real.sin_two_mul]
  constructor <;> [linarith [hp.1]; linarith [hp.2]]

lemma cos_double_interval (y P1 P2 l u : ℝ)
    (hp : P1 ≤ Real.cos y * Real.cos y ∧ Real.cos y * Real.cos y ≤ P2)
    (hl : l ≤ 2*P1 - 1) (hu : 2*P2 - 1 ≤ u) :
    l ≤ Real.cos (2*y) ∧ Real.cos (2*y) ≤ u := by
  rw [Real.cos_two_mul, pow_two]
  constructor <;> [linarith [hp.1]; linarith [hp.2]]

lemma sqrt_two_interval :
    (141421356237309504880/10^20 : ℝ) ≤ Real.sqrt 2 ∧
      Real.sqrt 2 ≤ (141421356237309504881/10^20 : ℝ) := by
  constructor
  · have h : ((141421356237309504880/10^20 : ℝ))^2 ≤ 2 := by norm_num
    calc (141421356237309504880/10^20 : ℝ)
        = Real.sqrt (((141421356237309504880/10^20 : ℝ))^2) :=
          (Real.sqrt_sq (by norm_num)).symm
      _ ≤ Real.sqrt 2 := Real.sqrt_le_sqrt h
  · have h : (2:ℝ) ≤ ((141421356237309504881/10^20 : ℝ))^2 := by norm_num
    calc Real.sqrt 2 ≤ Real.sqrt (((141421356237309504881/10^20 : ℝ))^2) :=
          Real.sqrt_le_sqrt h
      _ = (141421356237309504881/10^20 : ℝ) := Real.sqrt_sq (by norm_num)

set_option maxHeartbeats 1600000 in
/-- Degree-11 Taylor enclosure of sin on [-0.7, 0.7], proved from the
power series; the tail is dominated by a geometric series. -/
lemma sin_taylor (x : ℝ) (hx : |x| ≤ 7/10) :
    |Real.sin x - (x - x^3/6 + x^5/120 - x^7/5040 + x^9/362880 - x^11/39916800)| ≤
      1/100000000000 := by
  have hs := Real.hasSum_sin x
  have hsum : Summable (fun n : ℕ => (-1)^n * x^(2*n+1) / ((2*n+1).factorial : ℝ)) :=
    hs.summable
  have hsplit : Real.sin x =
      (∑ n in Finset.range 6, (-1)^n * x^(2*n+1) / ((2*n+1).factorial : ℝ)) +
        tsum (fun n : ℕ => (-1)^(n+6) * x^(2*(n+6)+1) / ((2*(n+6)+1).factorial : ℝ)) := by
    rw [← hs.tsum_eq, ← sum_add_tsum_nat_add 6 hsum]
  have hpartial : (∑ n in Finset.range 6, (-1)^n * x^(2*n+1) / ((2*n+1).factorial : ℝ)) =
      x - x^3/6 + x^5/120 - x^7/5040 + x^9/362880 - x^11/39916800 := by
    simp [Finset.sum_range_succ, Nat.factorial]
    ring
  have hterm : ∀ n : ℕ, |x|^(2*(n+6)+1) / ((2*(n+6)+1).factorial : ℝ) ≤
      (7/10)^13/6227020800 * (49/100)^n := by
    intro n
    have hexp : 2*(n+6)+1 = 2*n+13 := by ring
    rw [hexp]
    have hx0 : (0:ℝ) ≤ |x| := abs_nonneg x
    have h3 : |x|^(2*n+13) = |x|^13 * (|x|^2)^n := by
      rw [← pow_mul, ← pow_add]
      ring_nf
    have h4 : |x|^13 ≤ (7/10)^13 := pow_le_pow_left₀ hx0 hx 13
    have h5 : (|x|^2)^n ≤ ((49:ℝ)/100)^n := by
      apply pow_le_pow_left₀ (sq_nonneg _)
      nlinarith
    have h6 : ((6227020800:ℕ) : ℝ) ≤ ((2*n+13).factorial : ℝ) := by
      have h7 : Nat.factorial 13 ≤ Nat.factorial (2*n+13) := Nat.factorial_le (by omega)
      have h8 : Nat.factorial 13 = 6227020800 := by norm_num [Nat.factorial]
      exact_mod_cast h8 ▸ h7
    have h9 : |x|^(2*n+13) ≤ (7/10)^13 * (49/100)^n := by
      rw [h3]
      exact mul_le_mul h4 h5 (pow_nonneg (sq_nonneg _) n) (by positivity)
    calc |x|^(2*n+13) / ((2*n+13).factorial : ℝ) ≤
        ((7/10)^13 * (49/100)^n) / 6227020800 := by
          apply div_le_div₀ (by positivity) h9 (by norm_num)
          exact_mod_cast h6
      _ = (7/10)^13/6227020800 * (49/100)^n := by ring
  have hshift : Summable (fun n : ℕ =>
      (-1:ℝ)^(n+6) * x^(2*(n+6)+1) / ((2*(n+6)+1).factorial : ℝ)) := by
    exact_mod_cast (summable_nat_add_iff 6).mpr hsum
  have habs2 : Summable (fun n : ℕ => |x|^(2*(n+6)+1) / ((2*(n+6)+1).factorial : ℝ)) := by
    simpa [abs_mul, abs_div, abs_pow, abs_neg, abs_one, one_pow, one_mul, Nat.abs_cast] using hshift.abs
  have hgeom : Summable (fun n : ℕ => (7/10:ℝ)^13/6227020800 * (49/100)^n) :=
    (summable_geometric_of_lt_one (by norm_num) (by norm_num)).mul_left _
  have hnorm : Summable (fun n : ℕ =>
      ‖(-1:ℝ)^(n+6) * x^(2*(n+6)+1) / ((2*(n+6)+1).factorial : ℝ)‖) := by
    simpa [abs_mul, abs_div, abs_pow, abs_neg, abs_one, one_pow, one_mul, Nat.abs_cast] using hshift.abs
  have htail : |tsum (fun n : ℕ => (-1:ℝ)^(n+6) * x^(2*(n+6)+1) / ((2*(n+6)+1).factorial : ℝ))| ≤
      (7/10)^13/6227020800 * (1 - 49/100)⁻¹ := by
    calc |tsum (fun n : ℕ => (-1:ℝ)^(n+6) * x^(2*(n+6)+1) / ((2*(n+6)+1).factorial : ℝ))| ≤
        tsum (fun n : ℕ => |x|^(2*(n+6)+1) / ((2*(n+6)+1).factorial : ℝ)) := by
          simpa [Real.norm_eq_abs, abs_mul, abs_div, abs_pow, abs_neg, abs_one, one_pow, one_mul, Nat.abs_cast] using norm_tsum_le_tsum_norm hnorm
      _ ≤ tsum (fun n : ℕ => (7/10:ℝ)^13/6227020800 * (49/100)^n) :=
          tsum_le_tsum hterm habs2 hgeom
      _ = (7/10)^13/6227020800 * tsum (fun n : ℕ => ((49:ℝ)/100)^n) := tsum_mul_left
      _ = (7/10)^13/6227020800 * (1 - 49/100)⁻¹ := by
          rw [tsum_geometric_of_lt_one (by norm_num) (by norm_num)]
  have hfinal : Real.sin x - (x - x^3/6 + x^5/120 - x^7/5040 + x^9/362880 - x^11/39916800) =
      tsum (fun n : ℕ => (-1:ℝ)^(n+6) * x^(2*(n+6)+1) / ((2*(n+6)+1).factorial : ℝ)) := by
    rw [hsplit, hpartial]
    ring
  rw [hfinal]
  calc |tsum (fun n : ℕ => (-1:ℝ)^(n+6) * x^(2*(n+6)+1) / ((2*(n+6)+1).factorial : ℝ))| ≤
      (7/10)^13/6227020800 * (1 - 49/100)⁻¹ := htail
    _ ≤ 1/100000000000 := by norm_num

set_option maxHeartbeats 1600000 in
/-- Degree-12 Taylor enclosure of cos on [-0.7, 0.7]. -/
lemma cos_taylor (x : ℝ) (hx : |x| ≤ 7/10) :
    |Real.cos x - (1 - x^2/2 + x^4/24 - x^6/720 + x^8/40320 - x^10/3628800 + x^12/479001600)| ≤
      1/1000000000000 := by
  have hs := Real.hasSum_cos x
  have hsum : Summable (fun n : ℕ => (-1)^n * x^(2*n) / ((2*n).factorial : ℝ)) :=
    hs.summable
  have hsplit : Real.cos x =
      (∑ n in Finset.range 7, (-1)^n * x^(2*n) / ((2*n).factorial : ℝ)) +
        tsum (fun n : ℕ => (-1)^(n+7) * x^(2*(n+7)) / ((2*(n+7)).factorial : ℝ)) := by
    rw [← hs.tsum_eq, ← sum_add_tsum_nat_add 7 hsum]
  have hpartial : (∑ n in Finset.range 7, (-1)^n * x^(2*n) / ((2*n).factorial : ℝ)) =
      1 - x^2/2 + x^4/24 - x^6/720 + x^8/40320 - x^10/3628800 + x^12/479001600 := by
    simp [Finset.sum_range_succ, Nat.factorial]
    ring
  have hterm : ∀ n : ℕ, |x|^(2*(n+7)) / ((2*(n+7)).factorial : ℝ) ≤
      (7/10)^14/87178291200 * (49/100)^n := by
    intro n
    have hexp : 2*(n+7) = 2*n+14 := by ring
    rw [hexp]
    have hx0 : (0:ℝ) ≤ |x| := abs_nonneg x
    have h3 : |x|^(2*n+14) = |x|^14 * (|x|^2)^n := by
      rw [← pow_mul, ← pow_add]
      ring_nf
    have h4 : |x|^14 ≤ (7/10)^14 := pow_le_pow_left₀ hx0 hx 14
    have h5 : (|x|^2)^n ≤ ((49:ℝ)/100)^n := by
      apply pow_le_pow_left₀ (sq_nonneg _)
      nlinarith
    have h6 : ((87178291200:ℕ) : ℝ) ≤ ((2*n+14).factorial : ℝ) := by
      have h7 : Nat.factorial 14 ≤ Nat.factorial (2*n+14) := Nat.factorial_le (by omega)
      have h8 : Nat.factorial 14 = 87178291200 := by norm_num [Nat.factorial]
      exact_mod_cast h8 ▸ h7
    have h9 : |x|^(2*n+14) ≤ (7/10)^14 * (49/100)^n := by
      rw [h3]
      exact mul_le_mul h4 h5 (pow_nonneg (sq_nonneg _) n) (by positivity)
    calc |x|^(2*n+14) / ((2*n+14).factorial : ℝ) ≤
        ((7/10)^14 * (49/100)^n) / 87178291200 := by
          apply div_le_div₀ (by positivity) h9 (by norm_num)
          exact_mod_cast h6
      _ = (7/10)^14/87178291200 * (49/100)^n := by ring
  have hshift : Summable (fun n : ℕ =>
      (-1:ℝ)^(n+7) * x^(2*(n+7)) / ((2*(n+7)).factorial : ℝ)) := by
    exact_mod_cast (summable_nat_add_iff 7).mpr hsum
  have habs2 : Summable (fun n : ℕ => |x|^(2*(n+7)) / ((2*(n+7)).factorial : ℝ)) := by
    simpa [abs_mul, abs_div, abs_pow, abs_neg, abs_one, one_pow, one_mul, Nat.abs_cast] using hshift.abs
  have hgeom : Summable (fun n : ℕ => (7/10:ℝ)^14/87178291200 * (49/100)^n) :=
    (summable_geometric_of_lt_one (by norm_num) (by norm_num)).mul_left _
  have hnorm : Summable (fun n : ℕ =>
      ‖(-1:ℝ)^(n+7) * x^(2*(n+7)) / ((2*(n+7)).factorial : ℝ)‖) := by
    simpa [abs_mul, abs_div, abs_pow, abs_neg, abs_one, one_pow, one_mul, Nat.abs_cast] using hshift.abs
  have htail : |tsum (fun n : ℕ => (-1:ℝ)^(n+7) * x^(2*(n+7)) / ((2*(n+7)).factorial : ℝ))| ≤
      (7/10)^14/87178291200 * (1 - 49/100)⁻¹ := by
    calc |tsum (fun n : ℕ => (-1:ℝ)^(n+7) * x^(2*(n+7)) / ((2*(n+7)).factorial : ℝ))| ≤
        tsum (fun n : ℕ => |x|^(2*(n+7)) / ((2*(n+7)).factorial : ℝ)) := by
          simpa [Real.norm_eq_abs, abs_mul, abs_div, abs_pow, abs_neg, abs_one, one_pow, one_mul, Nat.abs_cast] using norm_tsum_le_tsum_norm hnorm
      _ ≤ tsum (fun n : ℕ => (7/10:ℝ)^14/87178291200 * (49/100)^n) :=
          tsum_le_tsum hterm habs2 hgeom
      _ = (7/10)^14/87178291200 * tsum (fun n : ℕ => ((49:ℝ)/100)^n) := tsum_mul_left
      _ = (7/10)^14/87178291200 * (1 - 49/100)⁻¹ := by
          rw [tsum_geometric_of_lt_one (by norm_num) (by norm_num)]
  have hfinal : Real.cos x -
      (1 - x^2/2 + x^4/24 - x^6/720 + x^8/40320 - x^10/3628800 + x^12/479001600) =
      tsum (fun n : ℕ => (-1:ℝ)^(n+7) * x^(2*(n+7)) / ((2*(n+7)).factorial : ℝ)) := by
    rw [hsplit, hpartial]
    ring
  rw [hfinal]
  calc |tsum (fun n : ℕ => (-1:ℝ)^(n+7) * x^(2*(n+7)) / ((2*(n+7)).factorial : ℝ))| ≤
      (7/10)^14/87178291200 * (1 - 49/100)⁻¹ := htail
    _ ≤ 1/1000000000000 := by norm_num

set_option maxHeartbeats 3200000 in
/-- Stopping certificates: at each non-degenerate test point the Newton
orbit reaches residual below 1e-6 within the iteration cap. Each proof
tracks the iterates through certified rational enclosures, evaluating
sin and cos by the Taylor enclosures at a nearby dyadic-scaled rational
point followed by three angle doublings and a Lipschitz transfer. -/
lemma kepler_stop_e01_pi4 :
    |kepler_residual (0.1:ℝ) (Real.pi / 4 - (0.1:ℝ) * Real.sin (Real.pi / 4)) ((kepler_step (0.1:ℝ) (Real.pi / 4 - (0.1:ℝ) * Real.sin (Real.pi / 4)))^[2] (Real.pi / 4 - (0.1:ℝ) * Real.sin (Real.pi / 4)))| < 1/1000000 := by
  have hM : (7146874852787935571745/10^22 : ℝ) ≤ (Real.pi / 4 - (0.1:ℝ) * Real.sin (Real.pi / 4)) ∧ (Real.pi / 4 - (0.1:ℝ) * Real.sin (Real.pi / 4)) ≤ (7146874852787935571776/10^22 : ℝ) := by
    rw [Real.sin_pi_div_four]
    constructor
    · linarith [Real.pi_gt_d20, sqrt_two_interval.2]
    · linarith [Real.pi_lt_d20, sqrt_two_interval.1]
  have hx0 : (7146874852787935571745/10^22 : ℝ) ≤ ((kepler_step (0.1:ℝ) (Real.pi / 4 - (0.1:ℝ) * Real.sin (Real.pi / 4)))^[0] (Real.pi / 4 - (0.1:ℝ) * Real.sin (Real.pi / 4))) ∧ ((kepler_step (0.1:ℝ) (Real.pi / 4 - (0.1:ℝ) * Real.sin (Real.pi / 4)))^[0] (Real.pi / 4 - (0.1:ℝ) * Real.sin (Real.pi / 4))) ≤ (7146874852787935571776/10^22 : ℝ) := by
    simpa using hM
  have ts1 := sin_taylor ((714687485278793557/10^18 : ℝ)/8) (by rw [abs_of_nonneg (by norm_num)]; norm_num)
  have tc2 := cos_taylor ((714687485278793557/10^18 : ℝ)/8) (by rw [abs_of_nonneg (by norm_num)]; norm_num)
  have hs3 := interval_of_abs _ _ _ (89217152724765539283722/10^24 : ℝ) (89217152744765539283723/10^24 : ℝ) ts1 (by norm_num) (by norm_num)
  have hc4 := interval_of_abs _ _ _ (996012198547743436952226/10^24 : ℝ) (996012198549743436952227/10^24 : ℝ) tc2 (by norm_num) (by norm_num)
  have hp5 := mul_interval _ _ _ _ _ _ (8886137243356352368519/10^23 : ℝ) (88861372453662201961636/10^24 : ℝ) hs3 hc4 (by norm_num) (by norm_num) (by norm_num) (by norm_num) (by norm_num) (by norm_num) (by norm_num) (by norm_num)
  have hs6 := sin_double_interval _ (8886137243356352368519/10^23 : ℝ) (88861372453662201961636/10^24 : ℝ) (17772274486712704737038/10^23 : ℝ) (177722744907324403923272/10^24 : ℝ) hp5 (by norm_num) (by norm_num)
  have hq7 := mul_interval _ _ _ _ _ _ (992040299655909493457744/10^24 : ℝ) (992040299659893542251942/10^24 : ℝ) hc4 hc4 (by norm_num) (by norm_num) (by norm_num) (by norm_num) (by norm_num) (by norm_num) (by norm_num) (by norm_num)
  have hc8 := cos_double_interval _ (992040299655909493457744/10^24 : ℝ) (992040299659893542251942/10^24 : ℝ) (984080599311818986915488/10^24 : ℝ) (984080599319787084503884/10^24 : ℝ) hq7 (by norm_num) (by norm_num)
  have hp9 := mul_interval _ _ _ _ _ _ (174893505280183886441652/10^24 : ℝ) (174893505321157437344073/10^24 : ℝ) hs6 hc8 (by norm_num) (by norm_num) (by norm_num) (by norm_num) (by norm_num) (by norm_num) (by norm_num) (by norm_num)
  have hs10 := sin_double_interval _ (174893505280183886441652/10^24 : ℝ) (174893505321157437344073/10^24 : ℝ) (349787010560367772883304/10^24 : ℝ) (349787010642314874688146/10^24 : ℝ) hp9 (by norm_num) (by norm_num)
  have hq11 := mul_interval _ _ _ _ _ _ (968414625941908831943964/10^24 : ℝ) (968414625957591332444356/10^24 : ℝ) hc8 hc8 (by norm_num) (by norm_num) (by norm_num) (by norm_num) (by norm_num) (by norm_num) (by norm_num) (by norm_num)
  have hc12 := cos_double_interval _ (968414625941908831943964/10^24 : ℝ) (968414625957591332444356/10^24 : ℝ) (936829251883817663887928/10^24 : ℝ) (936829251915182664888712/10^24 : ℝ) hq11 (by norm_num) (by norm_num)
  have hp13 := mul_interval _ _ _ _ _ _ (32769070342194636948661/10^23 : ℝ) (327690703509687881503345/10^24 : ℝ) hs10 hc12 (by norm_num) (by norm_num) (by norm_num) (by norm_num) (by norm_num) (by norm_num) (by norm_num) (by norm_num)
  have hs14 := sin_double_interval _ (32769070342194636948661/10^23 : ℝ) (327690703509687881503345/10^24 : ℝ) (65538140684389273897322/10^23 : ℝ) (65538140701937576300669/10^23 : ℝ) hp13 (by norm_num) (by norm_num)
  have hq15 := mul_interval _ _ _ _ _ _ (877649047185193481942528/10^24 : ℝ) (877649047243960782789312/10^24 : ℝ) hc12 hc12 (by norm_num) (by norm_num) (by norm_num) (by norm_num) (by norm_num) (by norm_num) (by norm_num) (by norm_num)
  have hc16 := cos_double_interval _ (877649047185193481942528/10^24 : ℝ) (877649047243960782789312/10^24 : ℝ) (755298094370386963885056/10^24 : ℝ) (755298094487921565578624/10^24 : ℝ) hq15 (by norm_num) (by norm_num)
  have ha17 : 2*(2*(2*((714687485278793557/10^18 : ℝ)/8))) = (714687485278793557/10^18 : ℝ) := by norm_num
  rw [ha17] at hs14 hc16
  have hsx18 := sin_lipschitz_interval ((kepler_step (0.1:ℝ) (Real.pi / 4 - (0.1:ℝ) * Real.sin (Real.pi / 4)))^[0] (Real.pi / 4 - (0.1:ℝ) * Real.sin (Real.pi / 4))) _ _ _ (1776/10^22 : ℝ) _ _ (65538140684389273879562/10^23 : ℝ) (65538140701937576318429/10^23 : ℝ) hx0 (by norm_num) (by norm_num) hs14 (by norm_num) (by norm_num)
  have hes19 := scale_interval (0.1:ℝ) _ _ _ (65538140684389273879562/10^24 : ℝ) (65538140701937576318429/10^24 : ℝ) (by norm_num) hsx18 (by norm_num) (by norm_num)
  have hf20 := kepler_residual_interval (0.1:ℝ) (Real.pi / 4 - (0.1:ℝ) * Real.sin (Real.pi / 4)) ((kepler_step (0.1:ℝ) (Real.pi / 4 - (0.1:ℝ) * Real.sin (Real.pi / 4)))^[0] (Real.pi / 4 - (0.1:ℝ) * Real.sin (Real.pi / 4))) _ _ _ _ _ _ (-65538140701937576321529/10^24 : ℝ) (-65538140684389273876462/10^24 : ℝ) hx0 hM hes19 (by norm_num) (by norm_num)
  have hcx21 := cos_lipschitz_interval ((kepler_step (0.1:ℝ) (Real.pi / 4 - (0.1:ℝ) * Real.sin (Real.pi / 4)))^[0] (Real.pi / 4 - (0.1:ℝ) * Real.sin (Real.pi / 4))) _ _ _ (1776/10^22 : ℝ) _ _ (755298094370386963707456/10^24 : ℝ) (755298094487921565756224/10^24 : ℝ) hx0 (by norm_num) (by norm_num) hc16 (by norm_num) (by norm_num)
  have hec22 := scale_interval (0.1:ℝ) _ _ _ (75529809437038696370745/10^24 : ℝ) (75529809448792156575623/10^24 : ℝ) (by norm_num) hcx21 (by norm_num) (by norm_num)
  have hw23 := one_sub_interval _ _ _ (924470190551207843424377/10^24 : ℝ) (924470190562961303629255/10^24 : ℝ) hec22 (by norm_num) (by norm_num)
  have hqd24 := div_interval _ _ _ _ _ _ (-70892648969958665912372/10^24 : ℝ) (-70892648950075346189146/10^24 : ℝ) hf20 hw23 (by norm_num) (by norm_num) (by norm_num) (by norm_num) (by norm_num)
  have hstep25 := kepler_step_interval (0.1:ℝ) (Real.pi / 4 - (0.1:ℝ) * Real.sin (Real.pi / 4)) ((kepler_step (0.1:ℝ) (Real.pi / 4 - (0.1:ℝ) * Real.sin (Real.pi / 4)))^[0] (Real.pi / 4 - (0.1:ℝ) * Real.sin (Real.pi / 4))) _ _ _ _ (785580134228868903/10^18 : ℝ) (785580134248752224/10^18 : ℝ) hx0 hqd24 (by norm_num) (by norm_num)
  have hx26 : (785580134228868903/10^18 : ℝ) ≤ ((kepler_step (0.1:ℝ) (Real.pi / 4 - (0.1:ℝ) * Real.sin (Real.pi / 4)))^[1] (Real.pi / 4 - (0.1:ℝ) * Real.sin (Real.pi / 4))) ∧ ((kepler_step (0.1:ℝ) (Real.pi / 4 - (0.1:ℝ) * Real.sin (Real.pi / 4)))^[1] (Real.pi / 4 - (0.1:ℝ) * Real.sin (Real.pi / 4))) ≤ (785580134248752224/10^18 : ℝ) := by
    rw [Function.iterate_succ_apply']
    exact hstep25
  have ts27 := sin_taylor ((785580134238810563/10^18 : ℝ)/8) (by rw [abs_of_nonneg (by norm_num)]; norm_num)
  have tc28 := cos_taylor ((785580134238810563/10^18 : ℝ)/8) (by rw [abs_of_nonneg (by norm_num)]; norm_num)
  have hs29 := interval_of_abs _ _ _ (9803977711945470426033/10^23 : ℝ) (98039777139454704260331/10^24 : ℝ) ts27 (by norm_num) (by norm_num)
  have hc30 := interval_of_abs _ _ _ (995182496881057733424325/10^24 : ℝ) (995182496883057733424326/10^24 : ℝ) tc28 (by norm_num) (by norm_num)
  have hp31 := mul_interval _ _ _ _ _ _ (97567470187401326559029/10^24 : ℝ) (97567470207501056050931/10^24 : ℝ) hs29 hc30 (by norm_num) (by norm_num) (by norm_num) (by norm_num) (by norm_num) (by norm_num) (by norm_num) (by norm_num)
  have hs32 := sin_double_interval _ (97567470187401326559029/10^24 : ℝ) (97567470207501056050931/10^24 : ℝ) (195134940374802653118058/10^24 : ℝ) (195134940415002112101862/10^24 : ℝ) hp31 (by norm_num) (by norm_num)
  have hq33 := mul_interval _ _ _ _ _ _ (990388202098416485314907/10^24 : ℝ) (990388202102397215302438/10^24 : ℝ) hc30 hc30 (by norm_num) (by norm_num) (by norm_num) (by norm_num) (by norm_num) (by norm_num) (by norm_num) (by norm_num)
  have hc34 := cos_double_interval _ (990388202098416485314907/10^24 : ℝ) (990388202102397215302438/10^24 : ℝ) (980776404196832970629814/10^24 : ℝ) (980776404204794430604876/10^24 : ℝ) hq33 (by norm_num) (by norm_num)
  have hp35 := mul_interval _ _ _ _ _ _ (191383745153962348322432/10^24 : ℝ) (191383745194942588173076/10^24 : ℝ) hs32 hc34 (by norm_num) (by norm_num) (by norm_num) (by norm_num) (by norm_num) (by norm_num) (by norm_num) (by norm_num)
  have hs36 := sin_double_interval _ (191383745153962348322432/10^24 : ℝ) (191383745194942588173076/10^24 : ℝ) (382767490307924696644864/10^24 : ℝ) (382767490389885176346152/10^24 : ℝ) hp35 (by norm_num) (by norm_num)
  have hq37 := mul_interval _ _ _ _ _ _ (961922355029269482284636/10^24 : ℝ) (961922355044886306457697/10^24 : ℝ) hc34 hc34 (by norm_num) (by norm_num) (by norm_num) (by norm_num) (by norm_num) (by norm_num) (by norm_num) (by norm_num)
  have hc38 := cos_double_interval _ (961922355029269482284636/10^24 : ℝ) (961922355044886306457697/10^24 : ℝ) (923844710058538964569272/10^24 : ℝ) (923844710089772612915394/10^24 : ℝ) hq37 (by norm_num) (by norm_num)
  have hp39 := mul_interval _ _ _ _ _ _ (353617721103359314627117/10^24 : ℝ) (353617721191033295426178/10^24 : ℝ) hs36 hc38 (by norm_num) (by norm_num) (by norm_num) (by norm_num) (by norm_num) (by norm_num) (by norm_num) (by norm_num)
  have hs40 := sin_double_interval _ (353617721103359314627117/10^24 : ℝ) (353617721191033295426178/10^24 : ℝ) (707235442206718629254234/10^24 : ℝ) (707235442382066590852356/10^24 : ℝ) hp39 (by norm_num) (by norm_num)
  have hq41 := mul_interval _ _ _ _ _ _ (853489048303145925495825/10^24 : ℝ) (853489048360856007097588/10^24 : ℝ) hc38 hc38 (by norm_num) (by norm_num) (by norm_num) (by norm_num) (by norm_num) (by norm_num) (by norm_num) (by norm_num)
  have hc42 := cos_double_interval _ (853489048303145925495825/10^24 : ℝ) (853489048360856007097588/10^24 : ℝ) (70697809660629185099165/10^23 : ℝ) (706978096721712014195176/10^24 : ℝ) hq41 (by norm_num) (by norm_num)
  have ha43 : 2*(2*(2*((785580134238810563/10^18 : ℝ)/8))) = (785580134238810563/10^18 : ℝ) := by norm_num
  rw [ha43] at hs40 hc42
  have hsx44 := sin_lipschitz_interval ((kepler_step (0.1:ℝ) (Real.pi / 4 - (0.1:ℝ) * Real.sin (Real.pi / 4)))^[1] (Real.pi / 4 - (0.1:ℝ) * Real.sin (Real.pi / 4))) _ _ _ (9941661/10^18 : ℝ) _ _ (707235442196776968254234/10^24 : ℝ) (707235442392008251852356/10^24 : ℝ) hx26 (by norm_num) (by norm_num) hs40 (by norm_num) (by norm_num)
  have hes45 := scale_interval (0.1:ℝ) _ _ _ (70723544219677696825423/10^24 : ℝ) (70723544239200825185236/10^24 : ℝ) (by norm_num) hsx44 (by norm_num) (by norm_num)
  have hf46 := kepler_residual_interval (0.1:ℝ) (Real.pi / 4 - (0.1:ℝ) * Real.sin (Real.pi / 4)) ((kepler_step (0.1:ℝ) (Real.pi / 4 - (0.1:ℝ) * Real.sin (Real.pi / 4)))^[1] (Real.pi / 4 - (0.1:ℝ) * Real.sin (Real.pi / 4))) _ _ _ _ _ _ (169104710874520637164/10^24 : ℝ) (169104750280970000077/10^24 : ℝ) hx26 hM hes45 (by norm_num) (by norm_num)
  have hcx47 := cos_lipschitz_interval ((kepler_step (0.1:ℝ) (Real.pi / 4 - (0.1:ℝ) * Real.sin (Real.pi / 4)))^[1] (Real.pi / 4 - (0.1:ℝ) * Real.sin (Real.pi / 4))) _ _ _ (9941661/10^18 : ℝ) _ _ (70697809659635018999165/10^23 : ℝ) (706978096731653675195176/10^24 : ℝ) hx26 (by norm_num) (by norm_num) hc42 (by norm_num) (by norm_num)
  have hec48 := scale_interval (0.1:ℝ) _ _ _ (70697809659635018999165/10^24 : ℝ) (70697809673165367519518/10^24 : ℝ) (by norm_num) hcx47 (by norm_num) (by norm_num)
  have hw49 := one_sub_interval _ _ _ (929302190326834632480482/10^24 : ℝ) (929302190340364981000835/10^24 : ℝ) hec48 (by norm_num) (by norm_num)
  have hqd50 := div_interval _ _ _ _ _ _ (181969560205797611713/10^24 : ℝ) (181969602612790605696/10^24 : ℝ) hf46 hw49 (by norm_num) (by norm_num) (by norm_num) (by norm_num) (by norm_num)
  have hstep51 := kepler_step_interval (0.1:ℝ) (Real.pi / 4 - (0.1:ℝ) * Real.sin (Real.pi / 4)) ((kepler_step (0.1:ℝ) (Real.pi / 4 - (0.1:ℝ) * Real.sin (Real.pi / 4)))^[1] (Real.pi / 4 - (0.1:ℝ) * Real.sin (Real.pi / 4))) _ _ _ _ (785398164626256112/10^18 : ℝ) (785398164688546427/10^18 : ℝ) hx26 hqd50 (by norm_num) (by norm_num)
  have hx52 : (785398164626256112/10^18 : ℝ) ≤ ((kepler_step (0.1:ℝ) (Real.pi / 4 - (0.1:ℝ) * Real.sin (Real.pi / 4)))^[2] (Real.pi / 4 - (0.1:ℝ) * Real.sin (Real.pi / 4))) ∧ ((kepler_step (0.1:ℝ) (Real.pi / 4 - (0.1:ℝ) * Real.sin (Real.pi / 4)))^[2] (Real.pi / 4 - (0.1:ℝ) * Real.sin (Real.pi / 4))) ≤ (785398164688546427/10^18 : ℝ) := by
    rw [Function.iterate_succ_apply']
    exact hstep51
  have ts53 := sin_taylor ((785398164657401269/10^18 : ℝ)/8) (by rw [abs_of_nonneg (by norm_num)]; norm_num)
  have tc54 := cos_taylor ((785398164657401269/10^18 : ℝ)/8) (by rw [abs_of_nonneg (by norm_num)]; norm_num)
  have hs55 := interval_of_abs _ _ _ (98017140476296344681058/10^24 : ℝ) (98017140496296344681059/10^24 : ℝ) ts53 (by norm_num) (by norm_num)
  have hc56 := interval_of_abs _ _ _ (995184726655759762978917/10^24 : ℝ) (995184726657759762978918/10^24 : ℝ) tc54 (by norm_num) (by norm_num)
  have hp57 := mul_interval _ _ _ _ _ _ (97545161152482184082827/10^24 : ℝ) (97545161172581912896937/10^24 : ℝ) hs55 hc56 (by norm_num) (by norm_num) (by norm_num) (by norm_num) (by norm_num) (by norm_num) (by norm_num) (by norm_num)
  have hs58 := sin_double_interval _ (97545161152482184082827/10^24 : ℝ) (97545161172581912896937/10^24 : ℝ) (195090322304964368165654/10^24 : ℝ) (195090322345163825793874/10^24 : ℝ) hp57 (by norm_num) (by norm_num)
  have hq59 := mul_interval _ _ _ _ _ _ (990392640168899276514017/10^24 : ℝ) (990392640172880015420647/10^24 : ℝ) hc56 hc56 (by norm_num) (by norm_num) (by norm_num) (by norm_num) (by norm_num) (by norm_num) (by norm_num) (by norm_num)
  have hc60 := cos_double_interval _ (990392640168899276514017/10^24 : ℝ) (990392640172880015420647/10^24 : ℝ) (980785280337798553028034/10^24 : ℝ) (980785280345760030841294/10^24 : ℝ) hq59 (by norm_num) (by norm_num)
  have hp61 := mul_interval _ _ _ _ _ _ (191341716453065951805763/10^24 : ℝ) (191341716494046195398018/10^24 : ℝ) hs58 hc60 (by norm_num) (by norm_num) (by norm_num) (by norm_num) (by norm_num) (by norm_num) (by norm_num) (by norm_num)
  have hs62 := sin_double_interval _ (191341716453065951805763/10^24 : ℝ) (191341716494046195398018/10^24 : ℝ) (382683432906131903611526/10^24 : ℝ) (382683432988092390796036/10^24 : ℝ) hp61 (by norm_num) (by norm_num)
  have hq63 := mul_interval _ _ _ _ _ _ (961939766127294096944498/10^24 : ℝ) (961939766142911097442525/10^24 : ℝ) hc60 hc60 (by norm_num) (by norm_num) (by norm_num) (by norm_num) (by norm_num) (by norm_num) (by norm_num) (by norm_num)
  have hc64 := cos_double_interval _ (961939766127294096944498/10^24 : ℝ) (961939766142911097442525/10^24 : ℝ) (923879532254588193888996/10^24 : ℝ) (92387953228582219488505/10^23 : ℝ) hq63 (by norm_num) (by norm_num)
  have hp65 := mul_interval _ _ _ _ _ _ (353553390994897227053698/10^24 : ℝ) (353553391082571578344206/10^24 : ℝ) hs62 hc64 (by norm_num) (by norm_num) (by norm_num) (by norm_num) (by norm_num) (by norm_num) (by norm_num) (by norm_num)
  have hs66 := sin_double_interval _ (353553390994897227053698/10^24 : ℝ) (353553391082571578344206/10^24 : ℝ) (707106781989794454107396/10^24 : ℝ) (707106782165143156688412/10^24 : ℝ) hp65 (by norm_num) (by norm_num)
  have hq67 := mul_interval _ _ _ _ _ _ (853553390118956666910596/10^24 : ℝ) (85355339017666957537292/10^23 : ℝ) hc64 hc64 (by norm_num) (by norm_num) (by norm_num) (by norm_num) (by norm_num) (by norm_num) (by norm_num) (by norm_num)
  have hc68 := cos_double_interval _ (853553390118956666910596/10^24 : ℝ) (85355339017666957537292/10^23 : ℝ) (707106780237913333821192/10^24 : ℝ) (70710678035333915074584/10^23 : ℝ) hq67 (by norm_num) (by norm_num)
  have ha69 : 2*(2*(2*((785398164657401269/10^18 : ℝ)/8))) = (785398164657401269/10^18 : ℝ) := by norm_num
  rw [ha69] at hs66 hc68
  have hsx70 := sin_lipschitz_interval ((kepler_step (0.1:ℝ) (Real.pi / 4 - (0.1:ℝ) * Real.sin (Real.pi / 4)))^[2] (Real.pi / 4 - (0.1:ℝ) * Real.sin (Real.pi / 4))) _ _ _ (31145158/10^18 : ℝ) _ _ (707106781958649296107396/10^24 : ℝ) (707106782196288314688412/10^24 : ℝ) hx52 (by norm_num) (by norm_num) hs66 (by norm_num) (by norm_num)
  have hes71 := scale_interval (0.1:ℝ) _ _ _ (70710678195864929610739/10^24 : ℝ) (70710678219628831468842/10^24 : ℝ) (by norm_num) hsx70 (by norm_num) (by norm_num)
  have hf72 := kepler_residual_interval (0.1:ℝ) (Real.pi / 4 - (0.1:ℝ) * Real.sin (Real.pi / 4)) ((kepler_step (0.1:ℝ) (Real.pi / 4 - (0.1:ℝ) * Real.sin (Real.pi / 4)))^[2] (Real.pi / 4 - (0.1:ℝ) * Real.sin (Real.pi / 4))) _ _ _ _ _ _ (1127833723353558/10^24 : ℝ) (1213887940214761/10^24 : ℝ) hx52 hM hes71 (by norm_num) (by norm_num)
  exact abs_lt_of_interval _ _ _ _ hf72 (by norm_num) (by norm_num)

set_option maxHeartbeats 3200000 in
lemma kepler_stop_e01_pi2 :
    |kepler_residual (0.1:ℝ) (Real.pi / 2 - (0.1:ℝ) * Real.sin (Real.pi / 2)) ((kepler_step (0.1:ℝ) (Real.pi / 2 - (0.1:ℝ) * Real.sin (Real.pi / 2)))^[2] (Real.pi / 2 - (0.1:ℝ) * Real.sin (Real.pi / 2)))| < 1/1000000 := by
  have hM : (147079632679489661923/10^20 : ℝ) ≤ (Real.pi / 2 - (0.1:ℝ) * Real.sin (Real.pi / 2)) ∧ (Real.pi / 2 - (0.1:ℝ) * Real.sin (Real.pi / 2)) ≤ (1470796326794896619235/10^21 : ℝ) := by
    rw [Real.sin_pi_div_two]
    constructor
    · linarith [Real.pi_gt_d20]
    · linarith [Real.pi_lt_d20]
  have hx0 : (147079632679489661923/10^20 : ℝ) ≤ ((kepler_step (0.1:ℝ) (Real.pi / 2 - (0.1:ℝ) * Real.sin (Real.pi / 2)))^[0] (Real.pi / 2 - (0.1:ℝ) * Real.sin (Real.pi / 2))) ∧ ((kepler_step (0.1:ℝ) (Real.pi / 2 - (0.1:ℝ) * Real.sin (Real.pi / 2)))^[0] (Real.pi / 2 - (0.1:ℝ) * Real.sin (Real.pi / 2))) ≤ (1470796326794896619235/10^21 : ℝ) := by
    simpa using hM
  have ts1 := sin_taylor ((1470796326794896619/10^18 : ℝ)/8) (by rw [abs_of_nonneg (by norm_num)]; norm_num)
  have tc2 := cos_taylor ((1470796326794896619/10^18 : ℝ)/8) (by rw [abs_of_nonneg (by norm_num)]; norm_num)
  have hs3 := interval_of_abs _ _ _ (182815584031683022890892/10^24 : ℝ) (182815584051683022890893/10^24 : ℝ) ts1 (by norm_num) (by norm_num)
  have hc4 := interval_of_abs _ _ _ (983147223069633674888052/10^24 : ℝ) (983147223071633674888053/10^24 : ℝ) tc2 (by norm_num) (by norm_num)
  have hp5 := mul_interval _ _ _ _ _ _ (179734633774602428914357/10^24 : ℝ) (179734633794631004543855/10^24 : ℝ) hs3 hc4 (by norm_num) (by norm_num) (by norm_num) (by norm_num) (by norm_num) (by norm_num) (by norm_num) (by norm_num)
  have hs6 := sin_double_interval _ (179734633774602428914357/10^24 : ℝ) (179734633794631004543855/10^24 : ℝ) (359469267549204857828714/10^24 : ℝ) (35946926758926200908771/10^23 : ℝ) hp5 (by norm_num) (by norm_num)
  have hq7 := mul_interval _ _ _ _ _ _ (966578462229532037191795/10^24 : ℝ) (96657846223346462608408/10^23 : ℝ) hc4 hc4 (by norm_num) (by norm_num) (by norm_num) (by norm_num) (by norm_num) (by norm_num) (by norm_num) (by norm_num)
  have hc8 := cos_double_interval _ (966578462229532037191795/10^24 : ℝ) (96657846223346462608408/10^23 : ℝ) (93315692445906407438359/10^23 : ℝ) (93315692446692925216816/10^23 : ℝ) hq7 (by norm_num) (by norm_num)
  have hp9 := mul_interval _ _ _ _ _ _ (335441236143768450354122/10^24 : ℝ) (335441236183975348123238/10^24 : ℝ) hs6 hc8 (by norm_num) (by norm_num) (by norm_num) (by norm_num) (by norm_num) (by norm_num) (by norm_num) (by norm_num)
  have hs10 := sin_double_interval _ (335441236143768450354122/10^24 : ℝ) (335441236183975348123238/10^24 : ℝ) (670882472287536900708244/10^24 : ℝ) (670882472367950696246476/10^24 : ℝ) hp9 (by norm_num) (by norm_num)
  have hq11 := mul_interval _ _ _ _ _ _ (870781845665899415352135/10^24 : ℝ) (870781845680578305575744/10^24 : ℝ) hc8 hc8 (by norm_num) (by norm_num) (by norm_num) (by norm_num) (by norm_num) (by norm_num) (by norm_num) (by norm_num)
  have hc12 := cos_double_interval _ (870781845665899415352135/10^24 : ℝ) (870781845680578305575744/10^24 : ℝ) (74156369133179883070427/10^23 : ℝ) (741563691361156611151488/10^24 : ℝ) hq11 (by norm_num) (by norm_num)
  have hp13 := mul_interval _ _ _ _ _ _ (4975020825993490972329/10^22 : ℝ) (497502082678676668615898/10^24 : ℝ) hs10 hc12 (by norm_num) (by norm_num) (by norm_num) (by norm_num) (by norm_num) (by norm_num) (by norm_num) (by norm_num)
  have hs14 := sin_double_interval _ (4975020825993490972329/10^22 : ℝ) (497502082678676668615898/10^24 : ℝ) (9950041651986981944658/10^22 : ℝ) (995004165357353337231796/10^24 : ℝ) hp13 (by norm_num) (by norm_num)
  have hq15 := mul_interval _ _ _ _ _ _ (549916708301643412243175/10^24 : ℝ) (549916708345184740319533/10^24 : ℝ) hc12 hc12 (by norm_num) (by norm_num) (by norm_num) (by norm_num) (by norm_num) (by norm_num) (by norm_num) (by norm_num)
  have hc16 := cos_double_interval _ (549916708301643412243175/10^24 : ℝ) (549916708345184740319533/10^24 : ℝ) (9983341660328682448635/10^23 : ℝ) (99833416690369480639066/10^24 : ℝ) hq15 (by norm_num) (by norm_num)
  have ha17 : 2*(2*(2*((1470796326794896619/10^18 : ℝ)/8))) = (1470796326794896619/10^18 : ℝ) := by norm_num
  rw [ha17] at hs14 hc16
  have hsx18 := sin_lipschitz_interval ((kepler_step (0.1:ℝ) (Real.pi / 2 - (0.1:ℝ) * Real.sin (Real.pi / 2)))^[0] (Real.pi / 2 - (0.1:ℝ) * Real.sin (Real.pi / 2))) _ _ _ (235/10^21 : ℝ) _ _ (9950041651986981942308/10^22 : ℝ) (995004165357353337466796/10^24 : ℝ) hx0 (by norm_num) (by norm_num) hs14 (by norm_num) (by norm_num)
  have hes19 := scale_interval (0.1:ℝ) _ _ _ (9950041651986981942308/10^23 : ℝ) (9950041653573533374668/10^23 : ℝ) (by norm_num) hsx18 (by norm_num) (by norm_num)
  have hf20 := kepler_residual_interval (0.1:ℝ) (Real.pi / 2 - (0.1:ℝ) * Real.sin (Real.pi / 2)) ((kepler_step (0.1:ℝ) (Real.pi / 2 - (0.1:ℝ) * Real.sin (Real.pi / 2)))^[0] (Real.pi / 2 - (0.1:ℝ) * Real.sin (Real.pi / 2))) _ _ _ _ _ _ (-9950041653573533375168/10^23 : ℝ) (-9950041651986981941808/10^23 : ℝ) hx0 hM hes19 (by norm_num) (by norm_num)
  have hcx21 := cos_lipschitz_interval ((kepler_step (0.1:ℝ) (Real.pi / 2 - (0.1:ℝ) * Real.sin (Real.pi / 2)))^[0] (Real.pi / 2 - (0.1:ℝ) * Real.sin (Real.pi / 2))) _ _ _ (235/10^21 : ℝ) _ _ (9983341660328682425135/10^23 : ℝ) (99833416690369480874066/10^24 : ℝ) hx0 (by norm_num) (by norm_num) hc16 (by norm_num) (by norm_num)
  have hec22 := scale_interval (0.1:ℝ) _ _ _ (9983341660328682425135/10^24 : ℝ) (9983341669036948087407/10^24 : ℝ) (by norm_num) hcx21 (by norm_num) (by norm_num)
  have hw23 := one_sub_interval _ _ _ (990016658330963051912593/10^24 : ℝ) (990016658339671317574865/10^24 : ℝ) hec22 (by norm_num) (by norm_num)
  have hqd24 := div_interval _ _ _ _ _ _ (-100503780111619390506444/10^24 : ℝ) (-10050378009470984882363/10^23 : ℝ) hf20 hw23 (by norm_num) (by norm_num) (by norm_num) (by norm_num) (by norm_num)
  have hstep25 := kepler_step_interval (0.1:ℝ) (Real.pi / 2 - (0.1:ℝ) * Real.sin (Real.pi / 2)) ((kepler_step (0.1:ℝ) (Real.pi / 2 - (0.1:ℝ) * Real.sin (Real.pi / 2)))^[0] (Real.pi / 2 - (0.1:ℝ) * Real.sin (Real.pi / 2))) _ _ _ _ (1571300106889606468/10^18 : ℝ) (157130010690651601/10^17 : ℝ) hx0 hqd24 (by norm_num) (by norm_num)
  have hx26 : (1571300106889606468/10^18 : ℝ) ≤ ((kepler_step (0.1:ℝ) (Real.pi / 2 - (0.1:ℝ) * Real.sin (Real.pi / 2)))^[1] (Real.pi / 2 - (0.1:ℝ) * Real.sin (Real.pi / 2))) ∧ ((kepler_step (0.1:ℝ) (Real.pi / 2 - (0.1:ℝ) * Real.sin (Real.pi / 2)))^[1] (Real.pi / 2 - (0.1:ℝ) * Real.sin (Real.pi / 2))) ≤ (157130010690651601/10^17 : ℝ) := by
    rw [Function.iterate_succ_apply']
    exact hstep25
  have ts27 := sin_taylor ((1571300106898061239/10^18 : ℝ)/8) (by rw [abs_of_nonneg (by norm_num)]; norm_num)
  have tc28 := cos_taylor ((1571300106898061239/10^18 : ℝ)/8) (by rw [abs_of_nonneg (by norm_num)]; norm_num)
  have hs29 := interval_of_abs _ _ _ (195152084132986450355067/10^24 : ℝ) (195152084152986450355068/10^24 : ℝ) ts27 (by norm_num) (by norm_num)
  have hc30 := interval_of_abs _ _ _ (980772993129749260641416/10^24 : ℝ) (980772993131749260641417/10^24 : ℝ) tc28 (by norm_num) (by norm_num)
  have hp31 := mul_interval _ _ _ _ _ _ (191399893670617769572071/10^24 : ℝ) (191399893690623533602974/10^24 : ℝ) hs29 hc30 (by norm_num) (by norm_num) (by norm_num) (by norm_num) (by norm_num) (by norm_num) (by norm_num) (by norm_num)
  have hs32 := sin_double_interval _ (191399893670617769572071/10^24 : ℝ) (191399893690623533602974/10^24 : ℝ) (382799787341235539144142/10^24 : ℝ) (382799787381247067205948/10^24 : ℝ) hp31 (by norm_num) (by norm_num)
  have hq33 := mul_interval _ _ _ _ _ _ (961915664052687190414472/10^24 : ℝ) (961915664056610282386998/10^24 : ℝ) hc30 hc30 (by norm_num) (by norm_num) (by norm_num) (by norm_num) (by norm_num) (by norm_num) (by norm_num) (by norm_num)
  have hc34 := cos_double_interval _ (961915664052687190414472/10^24 : ℝ) (961915664056610282386998/10^24 : ℝ) (923831328105374380828944/10^24 : ℝ) (923831328113220564773996/10^24 : ℝ) hq33 (by norm_num) (by norm_num)
  have hp35 := mul_interval _ _ _ _ _ _ (353642435937908507860862/10^24 : ℝ) (353642435977875928515647/10^24 : ℝ) hs32 hc34 (by norm_num) (by norm_num) (by norm_num) (by norm_num) (by norm_num) (by norm_num) (by norm_num) (by norm_num)
  have hs36 := sin_double_interval _ (353642435937908507860862/10^24 : ℝ) (353642435977875928515647/10^24 : ℝ) (707284871875817015721724/10^24 : ℝ) (707284871955751857031294/10^24 : ℝ) hp35 (by norm_num) (by norm_num)
  have hq37 := mul_interval _ _ _ _ _ _ (853464322788939892367865/10^24 : ℝ) (853464322803436993436961/10^24 : ℝ) hc34 hc34 (by norm_num) (by norm_num) (by norm_num) (by norm_num) (by norm_num) (by norm_num) (by norm_num) (by norm_num)
  have hc38 := cos_double_interval _ (853464322788939892367865/10^24 : ℝ) (853464322803436993436961/10^24 : ℝ) (70692864557787978473573/10^23 : ℝ) (706928645606873986873922/10^24 : ℝ) hq37 (by norm_num) (by norm_num)
  have hp39 := mul_interval _ _ _ _ _ _ (499999936512895560698537/10^24 : ℝ) (499999936589910950346765/10^24 : ℝ) hs36 hc38 (by norm_num) (by norm_num) (by norm_num) (by norm_num) (by norm_num) (by norm_num) (by norm_num) (by norm_num)
  have hs40 := sin_double_interval _ (499999936512895560698537/10^24 : ℝ) (499999936589910950346765/10^24 : ℝ) (999999873025791121397074/10^24 : ℝ) (99999987317982190069353/10^23 : ℝ) hp39 (by norm_num) (by norm_num)
  have hq41 := mul_interval _ _ _ _ _ _ (499748109938575571726187/10^24 : ℝ) (499748109979569235821355/10^24 : ℝ) hc38 hc38 (by norm_num) (by norm_num) (by norm_num) (by norm_num) (by norm_num) (by norm_num) (by norm_num) (by norm_num)
  have hc42 := cos_double_interval _ (499748109938575571726187/10^24 : ℝ) (499748109979569235821355/10^24 : ℝ) (-503780122848856547626/10^24 : ℝ) (-50378004086152835729/10^23 : ℝ) hq41 (by norm_num) (by norm_num)
  have ha43 : 2*(2*(2*((1571300106898061239/10^18 : ℝ)/8))) = (1571300106898061239/10^18 : ℝ) := by norm_num
  rw [ha43] at hs40 hc42
  have hsx44 := sin_lipschitz_interval ((kepler_step (0.1:ℝ) (Real.pi / 2 - (0.1:ℝ) * Real.sin (Real.pi / 2)))^[1] (Real.pi / 2 - (0.1:ℝ) * Real.sin (Real.pi / 2))) _ _ _ (8454771/10^18 : ℝ) _ _ (999999873017336350397074/10^24 : ℝ) (99999987318827667169353/10^23 : ℝ) hx26 (by norm_num) (by norm_num) hs40 (by norm_num) (by norm_num)
  have hes45 := scale_interval (0.1:ℝ) _ _ _ (99999987301733635039707/10^24 : ℝ) (99999987318827667169353/10^24 : ℝ) (by norm_num) hsx44 (by norm_num) (by norm_num)
  have hf46 := kepler_residual_interval (0.1:ℝ) (Real.pi / 2 - (0.1:ℝ) * Real.sin (Real.pi / 2)) ((kepler_step (0.1:ℝ) (Real.pi / 2 - (0.1:ℝ) * Real.sin (Real.pi / 2)))^[1] (Real.pi / 2 - (0.1:ℝ) * Real.sin (Real.pi / 2))) _ _ _ _ _ _ (503792775882181595647/10^24 : ℝ) (503792809885755730293/10^24 : ℝ) hx26 hM hes45 (by norm_num) (by norm_num)
  have hcx47 := cos_lipschitz_interval ((kepler_step (0.1:ℝ) (Real.pi / 2 - (0.1:ℝ) * Real.sin (Real.pi / 2)))^[1] (Real.pi / 2 - (0.1:ℝ) * Real.sin (Real.pi / 2))) _ _ _ (8454771/10^18 : ℝ) _ _ (-503780131303627547626/10^24 : ℝ) (-50378003240675735729/10^23 : ℝ) hx26 (by norm_num) (by norm_num) hc42 (by norm_num) (by norm_num)
  have hec48 := scale_interval (0.1:ℝ) _ _ _ (-50378013130362754763/10^24 : ℝ) (-50378003240675735729/10^24 : ℝ) (by norm_num) hcx47 (by norm_num) (by norm_num)
  have hw49 := one_sub_interval _ _ _ (1000050378003240675735729/10^24 : ℝ) (1000050378013130362754763/10^24 : ℝ) hec48 (by norm_num) (by norm_num)
  have hqd50 := div_interval _ _ _ _ _ _ (503767397081636768282/10^24 : ℝ) (503767431088479807967/10^24 : ℝ) hf46 hw49 (by norm_num) (by norm_num) (by norm_num) (by norm_num) (by norm_num)
  have hstep51 := kepler_step_interval (0.1:ℝ) (Real.pi / 2 - (0.1:ℝ) * Real.sin (Real.pi / 2)) ((kepler_step (0.1:ℝ) (Real.pi / 2 - (0.1:ℝ) * Real.sin (Real.pi / 2)))^[1] (Real.pi / 2 - (0.1:ℝ) * Real.sin (Real.pi / 2))) _ _ _ _ (1570796339458517988/10^18 : ℝ) (1570796339509434374/10^18 : ℝ) hx26 hqd50 (by norm_num) (by norm_num)
  have hx52 : (1570796339458517988/10^18 : ℝ) ≤ ((kepler_step (0.1:ℝ) (Real.pi / 2 - (0.1:ℝ) * Real.sin (Real.pi / 2)))^[2] (Real.pi / 2 - (0.1:ℝ) * Real.sin (Real.pi / 2))) ∧ ((kepler_step (0.1:ℝ) (Real.pi / 2 - (0.1:ℝ) * Real.sin (Real.pi / 2)))^[2] (Real.pi / 2 - (0.1:ℝ) * Real.sin (Real.pi / 2))) ≤ (1570796339509434374/10^18 : ℝ) := by
    rw [Function.iterate_succ_apply']
    exact hstep51
  have ts53 := sin_taylor ((1570796339483976181/10^18 : ℝ)/8) (by rw [abs_of_nonneg (by norm_num)]; norm_num)
  have tc54 := cos_taylor ((1570796339483976181/10^18 : ℝ)/8) (by rw [abs_of_nonneg (by norm_num)]; norm_num)
  have hs55 := interval_of_abs _ _ _ (195090323561786074505381/10^24 : ℝ) (195090323581786074505382/10^24 : ℝ) ts53 (by norm_num) (by norm_num)
  have hc56 := interval_of_abs _ _ _ (980785280092790870669677/10^24 : ℝ) (980785280094790870669678/10^24 : ℝ) tc54 (by norm_num) (by norm_num)
  have hp57 := mul_interval _ _ _ _ _ _ (191341717637939553366388/10^24 : ℝ) (191341717657945439615409/10^24 : ℝ) hs55 hc56 (by norm_num) (by norm_num) (by norm_num) (by norm_num) (by norm_num) (by norm_num) (by norm_num) (by norm_num)
  have hs58 := sin_double_interval _ (191341717637939553366388/10^24 : ℝ) (191341717657945439615409/10^24 : ℝ) (382683435275879106732776/10^24 : ℝ) (382683435315890879230818/10^24 : ℝ) hp57 (by norm_num) (by norm_num)
  have hq59 := mul_interval _ _ _ _ _ _ (961939765646694240151016/10^24 : ℝ) (961939765650617381271394/10^24 : ℝ) hc56 hc56 (by norm_num) (by norm_num) (by norm_num) (by norm_num) (by norm_num) (by norm_num) (by norm_num) (by norm_num)
  have hc60 := cos_double_interval _ (961939765646694240151016/10^24 : ℝ) (961939765650617381271394/10^24 : ℝ) (923879531293388480302032/10^24 : ℝ) (923879531301234762542788/10^24 : ℝ) hq59 (by norm_num) (by norm_num)
  have hp61 := mul_interval _ _ _ _ _ _ (353553392816422956253327/10^24 : ℝ) (353553392856391656117387/10^24 : ℝ) hs58 hc60 (by norm_num) (by norm_num) (by norm_num) (by norm_num) (by norm_num) (by norm_num) (by norm_num) (by norm_num)
  have hs62 := sin_double_interval _ (353553392816422956253327/10^24 : ℝ) (353553392856391656117387/10^24 : ℝ) (707106785632845912506654/10^24 : ℝ) (707106785712783312234774/10^24 : ℝ) hp61 (by norm_num) (by norm_num)
  have hq63 := mul_interval _ _ _ _ _ _ (853553388342891184250564/10^24 : ℝ) (853553388357389223368598/10^24 : ℝ) hc60 hc60 (by norm_num) (by norm_num) (by norm_num) (by norm_num) (by norm_num) (by norm_num) (by norm_num) (by norm_num)
  have hc64 := cos_double_interval _ (853553388342891184250564/10^24 : ℝ) (853553388357389223368598/10^24 : ℝ) (707106776685782368501128/10^24 : ℝ) (707106776714778446737196/10^24 : ℝ) hq63 (by norm_num) (by norm_num)
  have hp65 := mul_interval _ _ _ _ _ _ (49999999996148615913187/10^23 : ℝ) (500000000038513759870047/10^24 : ℝ) hs62 hc64 (by norm_num) (by norm_num) (by norm_num) (by norm_num) (by norm_num) (by norm_num) (by norm_num) (by norm_num)
  have hs66 := sin_double_interval _ (49999999996148615913187/10^23 : ℝ) (500000000038513759870047/10^24 : ℝ) (99999999992297231826374/10^23 : ℝ) (1000000000077027519740094/10^24 : ℝ) hp65 (by norm_num) (by norm_num)
  have hq67 := mul_interval _ _ _ _ _ _ (49999999363495689572725/10^23 : ℝ) (499999993675963542564161/10^24 : ℝ) hc64 hc64 (by norm_num) (by norm_num) (by norm_num) (by norm_num) (by norm_num) (by norm_num) (by norm_num) (by norm_num)
  have hc68 := cos_double_interval _ (49999999363495689572725/10^23 : ℝ) (499999993675963542564161/10^24 : ℝ) (-127300862085455/10^22 : ℝ) (-12648072914871678/10^24 : ℝ) hq67 (by norm_num) (by norm_num)
  have ha69 : 2*(2*(2*((1570796339483976181/10^18 : ℝ)/8))) = (1570796339483976181/10^18 : ℝ) := by norm_num
  rw [ha69] at hs66 hc68
  have hsx70 := sin_lipschitz_interval ((kepler_step (0.1:ℝ) (Real.pi / 2 - (0.1:ℝ) * Real.sin (Real.pi / 2)))^[2] (Real.pi / 2 - (0.1:ℝ) * Real.sin (Real.pi / 2))) _ _ _ (25458193/10^18 : ℝ) _ _ (99999999989751412526374/10^23 : ℝ) (1000000000102485712740094/10^24 : ℝ) hx52 (by norm_num) (by norm_num) hs66 (by norm_num) (by norm_num)
  have hes71 := scale_interval (0.1:ℝ) _ _ _ (99999999989751412526374/10^24 : ℝ) (10000000001024857127401/10^23 : ℝ) (by norm_num) hsx70 (by norm_num) (by norm_num)
  have hf72 := kepler_residual_interval (0.1:ℝ) (Real.pi / 2 - (0.1:ℝ) * Real.sin (Real.pi / 2)) ((kepler_step (0.1:ℝ) (Real.pi / 2 - (0.1:ℝ) * Real.sin (Real.pi / 2)))^[2] (Real.pi / 2 - (0.1:ℝ) * Real.sin (Real.pi / 2))) _ _ _ _ _ _ (1265337279749099/10^23 : ℝ) (12724786342243626/10^24 : ℝ) hx52 hM hes71 (by norm_num) (by norm_num)
  exact abs_lt_of_interval _ _ _ _ hf72 (by norm_num) (by norm_num)

set_option maxHeartbeats 3200000 in
lemma kepler_stop_e05_pi4 :
    |kepler_residual (0.5:ℝ) (Real.pi / 4 - (0.5:ℝ) * Real.sin (Real.pi / 4)) ((kepler_step (0.5:ℝ) (Real.pi / 4 - (0.5:ℝ) * Real.sin (Real.pi / 4)))^[3] (Real.pi / 4 - (0.5:ℝ) * Real.sin (Real.pi / 4)))| < 1/1000000 := by
  have hM : (4318447728041745474125/10^22 : ℝ) ≤ (Real.pi / 4 - (0.5:ℝ) * Real.sin (Real.pi / 4)) ∧ (Real.pi / 4 - (0.5:ℝ) * Real.sin (Real.pi / 4)) ≤ (4318447728041745474176/10^22 : ℝ) := by
    rw [Real.sin_pi_div_four]
    constructor
    · linarith [Real.pi_gt_d20, sqrt_two_interval.2]
    · linarith [Real.pi_lt_d20, sqrt_two_interval.1]
  have hx0 : (4318447728041745474125/10^22 : ℝ) ≤ ((kepler_step (0.5:ℝ) (Real.pi / 4 - (0.5:ℝ) * Real.sin (Real.pi / 4)))^[0] (Real.pi / 4 - (0.5:ℝ) * Real.sin (Real.pi / 4))) ∧ ((kepler_step (0.5:ℝ) (Real.pi / 4 - (0.5:ℝ) * Real.sin (Real.pi / 4)))^[0] (Real.pi / 4 - (0.5:ℝ) * Real.sin (Real.pi / 4))) ≤ (4318447728041745474176/10^22 : ℝ) := by
    simpa using hM
  have ts1 := sin_taylor ((431844772804174547/10^18 : ℝ)/8) (by rw [abs_of_nonneg (by norm_num)]; norm_num)
  have tc2 := cos_taylor ((431844772804174547/10^18 : ℝ)/8) (by rw [abs_of_nonneg (by norm_num)]; norm_num)
  have hs3 := interval_of_abs _ _ _ (53954384689754842475505/10^24 : ℝ) (53954384709754842475506/10^24 : ℝ) ts1 (by norm_num) (by norm_num)
  have hc4 := interval_of_abs _ _ _ (998543401345016036331028/10^24 : ℝ) (998543401347016036331029/10^24 : ℝ) tc2 (by norm_num) (by norm_num)
  have hp5 := mul_interval _ _ _ _ _ _ (53875794805585258210048/10^24 : ℝ) (5387579482566403500637/10^23 : ℝ) hs3 hc4 (by norm_num) (by norm_num) (by norm_num) (by norm_num) (by norm_num) (by norm_num) (by norm_num) (by norm_num)
  have hs6 := sin_double_interval _ (53875794805585258210048/10^24 : ℝ) (5387579482566403500637/10^23 : ℝ) (107751589611170516420096/10^24 : ℝ) (10775158965132807001274/10^23 : ℝ) hp5 (by norm_num) (by norm_num)
  have hq7 := mul_interval _ _ _ _ _ _ (997088924369673773754084/10^24 : ℝ) (997088924373667947359471/10^24 : ℝ) hc4 hc4 (by norm_num) (by norm_num) (by norm_num) (by norm_num) (by norm_num) (by norm_num) (by norm_num) (by norm_num)
  have hc8 := cos_double_interval _ (997088924369673773754084/10^24 : ℝ) (997088924373667947359471/10^24 : ℝ) (994177848739347547508168/10^24 : ℝ) (994177848747335894718942/10^24 : ℝ) hq7 (by norm_num) (by norm_num)
  have hp9 := mul_interval _ _ _ _ _ _ (107124243557878534294705/10^24 : ℝ) (107124243598663041646723/10^24 : ℝ) hs6 hc8 (by norm_num) (by norm_num) (by norm_num) (by norm_num) (by norm_num) (by norm_num) (by norm_num) (by norm_num)
  have hs10 := sin_double_interval _ (107124243557878534294705/10^24 : ℝ) (107124243598663041646723/10^24 : ℝ) (21424848711575706858941/10^23 : ℝ) (214248487197326083293446/10^24 : ℝ) hp9 (by norm_num) (by norm_num)
  have hq11 := mul_interval _ _ _ _ _ _ (988389594923997011958131/10^24 : ℝ) (988389594939880687648176/10^24 : ℝ) hc8 hc8 (by norm_num) (by norm_num) (by norm_num) (by norm_num) (by norm_num) (by norm_num) (by norm_num) (by norm_num)
  have hc12 := cos_double_interval _ (988389594923997011958131/10^24 : ℝ) (988389594939880687648176/10^24 : ℝ) (976779189847994023916262/10^24 : ℝ) (976779189879761375296352/10^24 : ℝ) hq11 (by norm_num) (by norm_num)
  have hp13 := mul_interval _ _ _ _ _ _ (209273463671087575285043/10^24 : ℝ) (209273463757568598359802/10^24 : ℝ) hs10 hc12 (by norm_num) (by norm_num) (by norm_num) (by norm_num) (by norm_num) (by norm_num) (by norm_num) (by norm_num)
  have hs14 := sin_double_interval _ (209273463671087575285043/10^24 : ℝ) (209273463757568598359802/10^24 : ℝ) (418546927342175150570086/10^24 : ℝ) (418546927515137196719604/10^24 : ℝ) hp13 (by norm_num) (by norm_num)
  have hq15 := mul_interval _ _ _ _ _ _ (954097585720103551634639/10^24 : ℝ) (954097585782162927124971/10^24 : ℝ) hc12 hc12 (by norm_num) (by norm_num) (by norm_num) (by norm_num) (by norm_num) (by norm_num) (by norm_num) (by norm_num)
  have hc16 := cos_double_interval _ (954097585720103551634639/10^24 : ℝ) (954097585782162927124971/10^24 : ℝ) (908195171440207103269278/10^24 : ℝ) (908195171564325854249942/10^24 : ℝ) hq15 (by norm_num) (by norm_num)
  have ha17 : 2*(2*(2*((431844772804174547/10^18 : ℝ)/8))) = (431844772804174547/10^18 : ℝ) := by norm_num
  rw [ha17] at hs14 hc16
  have hsx18 := sin_lipschitz_interval ((kepler_step (0.5:ℝ) (Real.pi / 4 - (0.5:ℝ) * Real.sin (Real.pi / 4)))^[0] (Real.pi / 4 - (0.5:ℝ) * Real.sin (Real.pi / 4))) _ _ _ (4176/10^22 : ℝ) _ _ (418546927342175150152486/10^24 : ℝ) (418546927515137197137204/10^24 : ℝ) hx0 (by norm_num) (by norm_num) hs14 (by norm_num) (by norm_num)
  have hes19 := scale_interval (0.5:ℝ) _ _ _ (209273463671087575076243/10^24 : ℝ) (209273463757568598568602/10^24 : ℝ) (by norm_num) hsx18 (by norm_num) (by norm_num)
  have hf20 := kepler_residual_interval (0.5:ℝ) (Real.pi / 4 - (0.5:ℝ) * Real.sin (Real.pi / 4)) ((kepler_step (0.5:ℝ) (Real.pi / 4 - (0.5:ℝ) * Real.sin (Real.pi / 4)))^[0] (Real.pi / 4 - (0.5:ℝ) * Real.sin (Real.pi / 4))) _ _ _ _ _ _ (-209273463757568598573702/10^24 : ℝ) (-209273463671087575071143/10^24 : ℝ) hx0 hM hes19 (by norm_num) (by norm_num)
  have hcx21 := cos_lipschitz_interval ((kepler_step (0.5:ℝ) (Real.pi / 4 - (0.5:ℝ) * Real.sin (Real.pi / 4)))^[0] (Real.pi / 4 - (0.5:ℝ) * Real.sin (Real.pi / 4))) _ _ _ (4176/10^22 : ℝ) _ _ (908195171440207102851678/10^24 : ℝ) (908195171564325854667542/10^24 : ℝ) hx0 (by norm_num) (by norm_num) hc16 (by norm_num) (by norm_num)
  have hec22 := scale_interval (0.5:ℝ) _ _ _ (454097585720103551425839/10^24 : ℝ) (454097585782162927333771/10^24 : ℝ) (by norm_num) hcx21 (by norm_num) (by norm_num)
  have hw23 := one_sub_interval _ _ _ (545902414217837072666229/10^24 : ℝ) (545902414279896448574161/10^24 : ℝ) hec22 (by norm_num) (by norm_num)
  have hqd24 := div_interval _ _ _ _ _ _ (-383353248322620623476511/10^24 : ℝ) (-383353248120621724110587/10^24 : ℝ) hf20 hw23 (by norm_num) (by norm_num) (by norm_num) (by norm_num) (by norm_num)
  have hstep25 := kepler_step_interval (0.5:ℝ) (Real.pi / 4 - (0.5:ℝ) * Real.sin (Real.pi / 4)) ((kepler_step (0.5:ℝ) (Real.pi / 4 - (0.5:ℝ) * Real.sin (Real.pi / 4)))^[0] (Real.pi / 4 - (0.5:ℝ) * Real.sin (Real.pi / 4))) _ _ _ _ (815198020924796271/10^18 : ℝ) (815198021126795171/10^18 : ℝ) hx0 hqd24 (by norm_num) (by norm_num)
  have hx26 : (815198020924796271/10^18 : ℝ) ≤ ((kepler_step (0.5:ℝ) (Real.pi / 4 - (0.5:ℝ) * Real.sin (Real.pi / 4)))^[1] (Real.pi / 4 - (0.5:ℝ) * Real.sin (Real.pi / 4))) ∧ ((kepler_step (0.5:ℝ) (Real.pi / 4 - (0.5:ℝ) * Real.sin (Real.pi / 4)))^[1] (Real.pi / 4 - (0.5:ℝ) * Real.sin (Real.pi / 4))) ≤ (815198021126795171/10^18 : ℝ) := by
    rw [Function.iterate_succ_apply']
    exact hstep25
  have ts27 := sin_taylor ((815198021025795721/10^18 : ℝ)/8) (by rw [abs_of_nonneg (by norm_num)]; norm_num)
  have tc28 := cos_taylor ((815198021025795721/10^18 : ℝ)/8) (by rw [abs_of_nonneg (by norm_num)]; norm_num)
  have hs29 := interval_of_abs _ _ _ (101723497125554621396636/10^24 : ℝ) (101723497145554621396637/10^24 : ℝ) ts27 (by norm_num) (by norm_num)
  have hc30 := interval_of_abs _ _ _ (99481271108109750836654/10^23 : ℝ) (994812711083097508366541/10^24 : ℝ) tc28 (by norm_num) (by norm_num)
  have hp31 := mul_interval _ _ _ _ _ _ (101195827956123222449379/10^24 : ℝ) (101195827976222923665294/10^24 : ℝ) hs29 hc30 (by norm_num) (by norm_num) (by norm_num) (by norm_num) (by norm_num) (by norm_num) (by norm_num) (by norm_num)
  have hs32 := sin_double_interval _ (101195827956123222449379/10^24 : ℝ) (101195827976222923665294/10^24 : ℝ) (202391655912246444898758/10^24 : ℝ) (202391655952445847330588/10^24 : ℝ) hp31 (by norm_num) (by norm_num)
  have hq33 := mul_interval _ _ _ _ _ _ (989652330128523185313502/10^24 : ℝ) (989652330132502436157833/10^24 : ℝ) hc30 hc30 (by norm_num) (by norm_num) (by norm_num) (by norm_num) (by norm_num) (by norm_num) (by norm_num) (by norm_num)
  have hc34 := cos_double_interval _ (989652330128523185313502/10^24 : ℝ) (989652330132502436157833/10^24 : ℝ) (979304660257046370627004/10^24 : ℝ) (979304660265004872315666/10^24 : ℝ) hq33 (by norm_num) (by norm_num)
  have hp35 := mul_interval _ _ _ _ _ _ (198203091832003535155219/10^24 : ℝ) (198203091872981731631928/10^24 : ℝ) hs32 hc34 (by norm_num) (by norm_num) (by norm_num) (by norm_num) (by norm_num) (by norm_num) (by norm_num) (by norm_num)
  have hs36 := sin_double_interval _ (198203091832003535155219/10^24 : ℝ) (198203091872981731631928/10^24 : ℝ) (396406183664007070310438/10^24 : ℝ) (396406183745963463263856/10^24 : ℝ) hp35 (by norm_num) (by norm_num)
  have hq37 := mul_interval _ _ _ _ _ _ (959037617601169017248297/10^24 : ℝ) (959037617616756612833101/10^24 : ℝ) hc34 hc34 (by norm_num) (by norm_num) (by norm_num) (by norm_num) (by norm_num) (by norm_num) (by norm_num) (by norm_num)
  have hc38 := cos_double_interval _ (959037617601169017248297/10^24 : ℝ) (959037617616756612833101/10^24 : ℝ) (918075235202338034496594/10^24 : ℝ) (918075235233513225666202/10^24 : ℝ) hq37 (by norm_num) (by norm_num)
  have hp39 := mul_interval _ _ _ _ _ _ (363930700302994500181787/10^24 : ℝ) (363930700390594673477928/10^24 : ℝ) hs36 hc38 (by norm_num) (by norm_num) (by norm_num) (by norm_num) (by norm_num) (by norm_num) (by norm_num) (by norm_num)
  have hs40 := sin_double_interval _ (363930700302994500181787/10^24 : ℝ) (363930700390594673477928/10^24 : ℝ) (727861400605989000363574/10^24 : ℝ) (727861400781189346955856/10^24 : ℝ) hp39 (by norm_num) (by norm_num)
  have hq41 := mul_interval _ _ _ _ _ _ (842862137491828302180737/10^24 : ℝ) (842862137549070644112742/10^24 : ℝ) hc38 hc38 (by norm_num) (by norm_num) (by norm_num) (by norm_num) (by norm_num) (by norm_num) (by norm_num) (by norm_num)
  have hc42 := cos_double_interval _ (842862137491828302180737/10^24 : ℝ) (842862137549070644112742/10^24 : ℝ) (685724274983656604361474/10^24 : ℝ) (685724275098141288225484/10^24 : ℝ) hq41 (by norm_num) (by norm_num)
  have ha43 : 2*(2*(2*((815198021025795721/10^18 : ℝ)/8))) = (815198021025795721/10^18 : ℝ) := by norm_num
  rw [ha43] at hs40 hc42
  have hsx44 := sin_lipschitz_interval ((kepler_step (0.5:ℝ) (Real.pi / 4 - (0.5:ℝ) * Real.sin (Real.pi / 4)))^[1] (Real.pi / 4 - (0.5:ℝ) * Real.sin (Real.pi / 4))) _ _ _ (10099945/10^17 : ℝ) _ _ (727861400504989550363574/10^24 : ℝ) (727861400882188796955856/10^24 : ℝ) hx26 (by norm_num) (by norm_num) hs40 (by norm_num) (by norm_num)
  have hes45 := scale_interval (0.5:ℝ) _ _ _ (363930700252494775181787/10^24 : ℝ) (363930700441094398477928/10^24 : ℝ) (by norm_num) hsx44 (by norm_num) (by norm_num)
  have hf46 := kepler_residual_interval (0.5:ℝ) (Real.pi / 4 - (0.5:ℝ) * Real.sin (Real.pi / 4)) ((kepler_step (0.5:ℝ) (Real.pi / 4 - (0.5:ℝ) * Real.sin (Real.pi / 4)))^[1] (Real.pi / 4 - (0.5:ℝ) * Real.sin (Real.pi / 4))) _ _ _ _ _ _ (19422547679527325104472/10^24 : ℝ) (19422548070125848405713/10^24 : ℝ) hx26 hM hes45 (by norm_num) (by norm_num)
  have hcx47 := cos_lipschitz_interval ((kepler_step (0.5:ℝ) (Real.pi / 4 - (0.5:ℝ) * Real.sin (Real.pi / 4)))^[1] (Real.pi / 4 - (0.5:ℝ) * Real.sin (Real.pi / 4))) _ _ _ (10099945/10^17 : ℝ) _ _ (685724274882657154361474/10^24 : ℝ) (685724275199140738225484/10^24 : ℝ) hx26 (by norm_num) (by norm_num) hc42 (by norm_num) (by norm_num)
  have hec48 := scale_interval (0.5:ℝ) _ _ _ (342862137441328577180737/10^24 : ℝ) (342862137599570369112742/10^24 : ℝ) (by norm_num) hcx47 (by norm_num) (by norm_num)
  have hw49 := one_sub_interval _ _ _ (657137862400429630887258/10^24 : ℝ) (657137862558671422819263/10^24 : ℝ) hec48 (by norm_num) (by norm_num)
  have hqd50 := div_interval _ _ _ _ _ _ (29556275457789827732115/10^24 : ℝ) (29556276059300688556103/10^24 : ℝ) hf46 hw49 (by norm_num) (by norm_num) (by norm_num) (by norm_num) (by norm_num)
  have hstep51 := kepler_step_interval (0.5:ℝ) (Real.pi / 4 - (0.5:ℝ) * Real.sin (Real.pi / 4)) ((kepler_step (0.5:ℝ) (Real.pi / 4 - (0.5:ℝ) * Real.sin (Real.pi / 4)))^[1] (Real.pi / 4 - (0.5:ℝ) * Real.sin (Real.pi / 4))) _ _ _ _ (785641744865495582/10^18 : ℝ) (785641745669005344/10^18 : ℝ) hx26 hqd50 (by norm_num) (by norm_num)
  have hx52 : (785641744865495582/10^18 : ℝ) ≤ ((kepler_step (0.5:ℝ) (Real.pi / 4 - (0.5:ℝ) * Real.sin (Real.pi / 4)))^[2] (Real.pi / 4 - (0.5:ℝ) * Real.sin (Real.pi / 4))) ∧ ((kepler_step (0.5:ℝ) (Real.pi / 4 - (0.5:ℝ) * Real.sin (Real.pi / 4)))^[2] (Real.pi / 4 - (0.5:ℝ) * Real.sin (Real.pi / 4))) ≤ (785641745669005344/10^18 : ℝ) := by
    rw [Function.iterate_succ_apply']
    exact hstep51
  have ts53 := sin_taylor ((785641745267250463/10^18 : ℝ)/8) (by rw [abs_of_nonneg (by norm_num)]; norm_num)
  have tc54 := cos_taylor ((785641745267250463/10^18 : ℝ)/8) (by rw [abs_of_nonneg (by norm_num)]; norm_num)
  have hs55 := interval_of_abs _ _ _ (9804744139368698492542/10^23 : ℝ) (98047441413686984925421/10^24 : ℝ) ts53 (by norm_num) (by norm_num)
  have hc56 := interval_of_abs _ _ _ (995181741810107870549874/10^24 : ℝ) (995181741812107870549875/10^24 : ℝ) tc54 (by norm_num) (by norm_num)
  have hp57 := mul_interval _ _ _ _ _ _ (97575023506193884027423/10^24 : ℝ) (97575023526293613746455/10^24 : ℝ) hs55 hc56 (by norm_num) (by norm_num) (by norm_num) (by norm_num) (by norm_num) (by norm_num) (by norm_num) (by norm_num)
  have hs58 := sin_double_interval _ (97575023506193884027423/10^24 : ℝ) (97575023526293613746455/10^24 : ℝ) (195150047012387768054846/10^24 : ℝ) (19515004705258722749291/10^23 : ℝ) hp57 (by norm_num) (by norm_num)
  have hq59 := mul_interval _ _ _ _ _ _ (990386699232200203679527/10^24 : ℝ) (990386699236180930646774/10^24 : ℝ) hc56 hc56 (by norm_num) (by norm_num) (by norm_num) (by norm_num) (by norm_num) (by norm_num) (by norm_num) (by norm_num)
  have hc60 := cos_double_interval _ (990386699232200203679527/10^24 : ℝ) (990386699236180930646774/10^24 : ℝ) (980773398464400407359054/10^24 : ℝ) (980773398472361861293548/10^24 : ℝ) hq59 (by norm_num) (by norm_num)
  have hp61 := mul_interval _ _ _ _ _ _ (191397974818827060697478/10^24 : ℝ) (191397974859807299256904/10^24 : ℝ) hs58 hc60 (by norm_num) (by norm_num) (by norm_num) (by norm_num) (by norm_num) (by norm_num) (by norm_num) (by norm_num)
  have hs62 := sin_double_interval _ (191397974818827060697478/10^24 : ℝ) (191397974859807299256904/10^24 : ℝ) (382795949637654121394956/10^24 : ℝ) (382795949719614598513808/10^24 : ℝ) hp61 (by norm_num) (by norm_num)
  have hq63 := mul_interval _ _ _ _ _ _ (961916459135409535331914/10^24 : ℝ) (961916459151026299796082/10^24 : ℝ) hc60 hc60 (by norm_num) (by norm_num) (by norm_num) (by norm_num) (by norm_num) (by norm_num) (by norm_num) (by norm_num)
  have hc64 := cos_double_interval _ (961916459135409535331914/10^24 : ℝ) (961916459151026299796082/10^24 : ℝ) (923832918270819070663828/10^24 : ℝ) (923832918302052599592164/10^24 : ℝ) hq63 (by norm_num) (by norm_num)
  have hp65 := mul_interval _ _ _ _ _ _ (353639499256003492977775/10^24 : ℝ) (353639499343677348106571/10^24 : ℝ) hs62 hc64 (by norm_num) (by norm_num) (by norm_num) (by norm_num) (by norm_num) (by norm_num) (by norm_num) (by norm_num)
  have hs66 := sin_double_interval _ (353639499256003492977775/10^24 : ℝ) (353639499343677348106571/10^24 : ℝ) (70727899851200698595555/10^23 : ℝ) (707278998687354696213142/10^24 : ℝ) hp65 (by norm_num) (by norm_num)
  have hq67 := mul_interval _ _ _ _ _ _ (853467260880777868676167/10^24 : ℝ) (853467260938486993032665/10^24 : ℝ) hc64 hc64 (by norm_num) (by norm_num) (by norm_num) (by norm_num) (by norm_num) (by norm_num) (by norm_num) (by norm_num)
  have hc68 := cos_double_interval _ (853467260880777868676167/10^24 : ℝ) (853467260938486993032665/10^24 : ℝ) (706934521761555737352334/10^24 : ℝ) (70693452187697398606533/10^23 : ℝ) hq67 (by norm_num) (by norm_num)
  have ha69 : 2*(2*(2*((785641745267250463/10^18 : ℝ)/8))) = (785641745267250463/10^18 : ℝ) := by norm_num
  rw [ha69] at hs66 hc68
  have hsx70 := sin_lipschitz_interval ((kepler_step (0.5:ℝ) (Real.pi / 4 - (0.5:ℝ) * Real.sin (Real.pi / 4)))^[2] (Real.pi / 4 - (0.5:ℝ) * Real.sin (Real.pi / 4))) _ _ _ (401754881/10^18 : ℝ) _ _ (70727899811025210495555/10^23 : ℝ) (707278999089109577213142/10^24 : ℝ) hx52 (by norm_num) (by norm_num) hs66 (by norm_num) (by norm_num)
  have hes71 := scale_interval (0.5:ℝ) _ _ _ (353639499055126052477775/10^24 : ℝ) (353639499544554788606571/10^24 : ℝ) (by norm_num) hsx70 (by norm_num) (by norm_num)
  have hf72 := kepler_residual_interval (0.5:ℝ) (Real.pi / 4 - (0.5:ℝ) * Real.sin (Real.pi / 4)) ((kepler_step (0.5:ℝ) (Real.pi / 4 - (0.5:ℝ) * Real.sin (Real.pi / 4)))^[2] (Real.pi / 4 - (0.5:ℝ) * Real.sin (Real.pi / 4))) _ _ _ _ _ _ (157472516766245975829/10^24 : ℝ) (157473809704744109725/10^24 : ℝ) hx52 hM hes71 (by norm_num) (by norm_num)
  have hcx73 := cos_lipschitz_interval ((kepler_step (0.5:ℝ) (Real.pi / 4 - (0.5:ℝ) * Real.sin (Real.pi / 4)))^[2] (Real.pi / 4 - (0.5:ℝ) * Real.sin (Real.pi / 4))) _ _ _ (401754881/10^18 : ℝ) _ _ (706934521359800856352334/10^24 : ℝ) (70693452227872886706533/10^23 : ℝ) hx52 (by norm_num) (by norm_num) hc68 (by norm_num) (by norm_num)
  have hec74 := scale_interval (0.5:ℝ) _ _ _ (353467260679900428176167/10^24 : ℝ) (353467261139364433532665/10^24 : ℝ) (by norm_num) hcx73 (by norm_num) (by norm_num)
  have hw75 := one_sub_interval _ _ _ (646532738860635566467335/10^24 : ℝ) (646532739320099571823833/10^24 : ℝ) hec74 (by norm_num) (by norm_num)
  have hqd76 := div_interval _ _ _ _ _ _ (243564644432153090757/10^24 : ℝ) (24356664440884352053/10^23 : ℝ) hf72 hw75 (by norm_num) (by norm_num) (by norm_num) (by norm_num) (by norm_num)
  have hstep77 := kepler_step_interval (0.5:ℝ) (Real.pi / 4 - (0.5:ℝ) * Real.sin (Real.pi / 4)) ((kepler_step (0.5:ℝ) (Real.pi / 4 - (0.5:ℝ) * Real.sin (Real.pi / 4)))^[2] (Real.pi / 4 - (0.5:ℝ) * Real.sin (Real.pi / 4))) _ _ _ _ (785398178221086738/10^18 : ℝ) (785398181024573191/10^18 : ℝ) hx52 hqd76 (by norm_num) (by norm_num)
  have hx78 : (785398178221086738/10^18 : ℝ) ≤ ((kepler_step (0.5:ℝ) (Real.pi / 4 - (0.5:ℝ) * Real.sin (Real.pi / 4)))^[3] (Real.pi / 4 - (0.5:ℝ) * Real.sin (Real.pi / 4))) ∧ ((kepler_step (0.5:ℝ) (Real.pi / 4 - (0.5:ℝ) * Real.sin (Real.pi / 4)))^[3] (Real.pi / 4 - (0.5:ℝ) * Real.sin (Real.pi / 4))) ≤ (785398181024573191/10^18 : ℝ) := by
    rw [Function.iterate_succ_apply']
    exact hstep77
  have ts79 := sin_taylor ((785398179622829964/10^18 : ℝ)/8) (by rw [abs_of_nonneg (by norm_num)]; norm_num)
  have tc80 := cos_taylor ((785398179622829964/10^18 : ℝ)/8) (by rw [abs_of_nonneg (by norm_num)]; norm_num)
  have hs81 := interval_of_abs _ _ _ (98017142337967102651406/10^24 : ℝ) (98017142357967102651407/10^24 : ℝ) ts79 (by norm_num) (by norm_num)
  have hc82 := interval_of_abs _ _ _ (99518472647240119538319/10^23 : ℝ) (995184726474401195383191/10^24 : ℝ) tc80 (by norm_num) (by norm_num)
  have hp83 := mul_interval _ _ _ _ _ _ (97545162987216205657653/10^24 : ℝ) (97545163007315934471819/10^24 : ℝ) hs81 hc82 (by norm_num) (by norm_num) (by norm_num) (by norm_num) (by norm_num) (by norm_num) (by norm_num) (by norm_num)
  have hs84 := sin_double_interval _ (97545162987216205657653/10^24 : ℝ) (97545163007315934471819/10^24 : ℝ) (195090325974432411315306/10^24 : ℝ) (195090326014631868943638/10^24 : ℝ) hp83 (by norm_num) (by norm_num)
  have hq85 := mul_interval _ _ _ _ _ _ (990392639803947984602147/10^24 : ℝ) (990392639807928723508044/10^24 : ℝ) hc82 hc82 (by norm_num) (by norm_num) (by norm_num) (by norm_num) (by norm_num) (by norm_num) (by norm_num) (by norm_num)
  have hc86 := cos_double_interval _ (990392639803947984602147/10^24 : ℝ) (990392639807928723508044/10^24 : ℝ) (980785279607895969204294/10^24 : ℝ) (980785279615857447016088/10^24 : ℝ) hq85 (by norm_num) (by norm_num)
  have hp87 := mul_interval _ _ _ _ _ _ (191341719909629262189134/10^24 : ℝ) (191341719950609505781085/10^24 : ℝ) hs84 hc86 (by norm_num) (by norm_num) (by norm_num) (by norm_num) (by norm_num) (by norm_num) (by norm_num) (by norm_num)
  have hs88 := sin_double_interval _ (191341719909629262189134/10^24 : ℝ) (191341719950609505781085/10^24 : ℝ) (382683439819258524378268/10^24 : ℝ) (38268343990121901156217/10^23 : ℝ) hp87 (by norm_num) (by norm_num)
  have hq89 := mul_interval _ _ _ _ _ _ (961939764695538676887555/10^24 : ℝ) (961939764711155677371084/10^24 : ℝ) hc86 hc86 (by norm_num) (by norm_num) (by norm_num) (by norm_num) (by norm_num) (by norm_num) (by norm_num) (by norm_num)
  have hc90 := cos_double_interval _ (961939764695538676887555/10^24 : ℝ) (961939764711155677371084/10^24 : ℝ) (92387952939107735377511/10^23 : ℝ) (923879529422311354742168/10^24 : ℝ) hq89 (by norm_num) (by norm_num)
  have hp91 := mul_interval _ _ _ _ _ _ (353553396285975237609901/10^24 : ℝ) (353553396373649588869981/10^24 : ℝ) hs88 hc90 (by norm_num) (by norm_num) (by norm_num) (by norm_num) (by norm_num) (by norm_num) (by norm_num) (by norm_num)
  have hs92 := sin_double_interval _ (353553396285975237609901/10^24 : ℝ) (353553396373649588869981/10^24 : ℝ) (707106792571950475219802/10^24 : ℝ) (707106792747299177739962/10^24 : ℝ) hp91 (by norm_num) (by norm_num)
  have hq93 := mul_interval _ _ _ _ _ _ (853553384827878563969571/10^24 : ℝ) (85355338488559147219944/10^23 : ℝ) hc90 hc90 (by norm_num) (by norm_num) (by norm_num) (by norm_num) (by norm_num) (by norm_num) (by norm_num) (by norm_num)
  have hc94 := cos_double_interval _ (853553384827878563969571/10^24 : ℝ) (85355338488559147219944/10^23 : ℝ) (707106769655757127939142/10^24 : ℝ) (70710676977118294439888/10^23 : ℝ) hq93 (by norm_num) (by norm_num)
  have ha95 : 2*(2*(2*((785398179622829964/10^18 : ℝ)/8))) = (785398179622829964/10^18 : ℝ) := by norm_num
  rw [ha95] at hs92 hc94
  have hsx96 := sin_lipschitz_interval ((kepler_step (0.5:ℝ) (Real.pi / 4 - (0.5:ℝ) * Real.sin (Real.pi / 4)))^[3] (Real.pi / 4 - (0.5:ℝ) * Real.sin (Real.pi / 4))) _ _ _ (1401743227/10^18 : ℝ) _ _ (707106791170207248219802/10^24 : ℝ) (707106794149042404739962/10^24 : ℝ) hx78 (by norm_num) (by norm_num) hs92 (by norm_num) (by norm_num)
  have hes97 := scale_interval (0.5:ℝ) _ _ _ (353553395585103624109901/10^24 : ℝ) (353553397074521202369981/10^24 : ℝ) (by norm_num) hsx96 (by norm_num) (by norm_num)
  have hf98 := kepler_residual_interval (0.5:ℝ) (Real.pi / 4 - (0.5:ℝ) * Real.sin (Real.pi / 4)) ((kepler_step (0.5:ℝ) (Real.pi / 4 - (0.5:ℝ) * Real.sin (Real.pi / 4)))^[3] (Real.pi / 4 - (0.5:ℝ) * Real.sin (Real.pi / 4))) _ _ _ _ _ _ (8342390988212419/10^24 : ℝ) (12635295019477599/10^24 : ℝ) hx78 hM hes97 (by norm_num) (by norm_num)
  exact abs_lt_of_interval _ _ _ _ hf98 (by norm_num) (by norm_num)

set_option maxHeartbeats 3200000 in
lemma kepler_stop_e05_pi2 :
    |kepler_residual (0.5:ℝ) (Real.pi / 2 - (0.5:ℝ) * Real.sin (Real.pi / 2)) ((kepler_step (0.5:ℝ) (Real.pi / 2 - (0.5:ℝ) * Real.sin (Real.pi / 2)))^[4] (Real.pi / 2 - (0.5:ℝ) * Real.sin (Real.pi / 2)))| < 1/1000000 := by
  have hM : (107079632679489661923/10^20 : ℝ) ≤ (Real.pi / 2 - (0.5:ℝ) * Real.sin (Real.pi / 2)) ∧ (Real.pi / 2 - (0.5:ℝ) * Real.sin (Real.pi / 2)) ≤ (1070796326794896619235/10^21 : ℝ) := by
    rw [Real.sin_pi_div_two]
    constructor
    · linarith [Real.pi_gt_d20]
    · linarith [Real.pi_lt_d20]
  have hx0 : (107079632679489661923/10^20 : ℝ) ≤ ((kepler_step (0.5:ℝ) (Real.pi / 2 - (0.5:ℝ) * Real.sin (Real.pi / 2)))^[0] (Real.pi / 2 - (0.5:ℝ) * Real.sin (Real.pi / 2))) ∧ ((kepler_step (0.5:ℝ) (Real.pi / 2 - (0.5:ℝ) * Real.sin (Real.pi / 2)))^[0] (Real.pi / 2 - (0.5:ℝ) * Real.sin (Real.pi / 2))) ≤ (1070796326794896619235/10^21 : ℝ) := by
    simpa using hM
  have ts1 := sin_taylor ((1070796326794896619/10^18 : ℝ)/8) (by rw [abs_of_nonneg (by norm_num)]; norm_num)
  have tc2 := cos_taylor ((1070796326794896619/10^18 : ℝ)/8) (by rw [abs_of_nonneg (by norm_num)]; norm_num)
  have hs3 := interval_of_abs _ _ _ (133450230676044208360899/10^24 : ℝ) (1334502306960442083609/10^22 : ℝ) ts1 (by norm_num) (by norm_num)
  have hc4 := interval_of_abs _ _ _ (991055516067520545287299/10^24 : ℝ) (9910555160695205452873/10^22 : ℝ) tc2 (by norm_num) (by norm_num)
  have hp5 := mul_interval _ _ _ _ _ _ (132256587231976654099884/10^24 : ℝ) (132256587252064664882629/10^24 : ℝ) hs3 hc4 (by norm_num) (by norm_num) (by norm_num) (by norm_num) (by norm_num) (by norm_num) (by norm_num) (by norm_num)
  have hs6 := sin_double_interval _ (132256587231976654099884/10^24 : ℝ) (132256587252064664882629/10^24 : ℝ) (264513174463953308199768/10^24 : ℝ) (264513174504129329765258/10^24 : ℝ) hp5 (by norm_num) (by norm_num)
  have hq7 := mul_interval _ _ _ _ _ _ (982191035927859473705169/10^24 : ℝ) (982191035931823695769447/10^24 : ℝ) hc4 hc4 (by norm_num) (by norm_num) (by norm_num) (by norm_num) (by norm_num) (by norm_num) (by norm_num) (by norm_num)
  have hc8 := cos_double_interval _ (982191035927859473705169/10^24 : ℝ) (982191035931823695769447/10^24 : ℝ) (964382071855718947410338/10^24 : ℝ) (964382071863647391538894/10^24 : ℝ) hq7 (by norm_num) (by norm_num)
  have hp9 := mul_interval _ _ _ _ _ _ (255091763222680541437454/10^24 : ℝ) (255091763263522754279026/10^24 : ℝ) hs6 hc8 (by norm_num) (by norm_num) (by norm_num) (by norm_num) (by norm_num) (by norm_num) (by norm_num) (by norm_num)
  have hs10 := sin_double_interval _ (255091763222680541437454/10^24 : ℝ) (255091763263522754279026/10^24 : ℝ) (510183526445361082874908/10^24 : ℝ) (510183526527045508558052/10^24 : ℝ) hp9 (by norm_num) (by norm_num)
  have hq11 := mul_interval _ _ _ _ _ _ (930032780516729063127298/10^24 : ℝ) (93003278053202116187794/10^23 : ℝ) hc8 hc8 (by norm_num) (by norm_num) (by norm_num) (by norm_num) (by norm_num) (by norm_num) (by norm_num) (by norm_num)
  have hc12 := cos_double_interval _ (930032780516729063127298/10^24 : ℝ) (93003278053202116187794/10^23 : ℝ) (860065561033458126254596/10^24 : ℝ) (86006556106404232375588/10^23 : ℝ) hq11 (by norm_num) (by norm_num)
  have hp13 := mul_interval _ _ _ _ _ _ (438791280902257600431199/10^24 : ℝ) (438791280988115115571273/10^24 : ℝ) hs10 hc12 (by norm_num) (by norm_num) (by norm_num) (by norm_num) (by norm_num) (by norm_num) (by norm_num) (by norm_num)
  have hs14 := sin_double_interval _ (438791280902257600431199/10^24 : ℝ) (438791280988115115571273/10^24 : ℝ) (877582561804515200862398/10^24 : ℝ) (877582561976230231142546/10^24 : ℝ) hp13 (by norm_num) (by norm_num)
  have hq15 := mul_interval _ _ _ _ _ _ (739712769275797085255455/10^24 : ℝ) (739712769328405915221791/10^24 : ℝ) hc12 hc12 (by norm_num) (by norm_num) (by norm_num) (by norm_num) (by norm_num) (by norm_num) (by norm_num) (by norm_num)
  have hc16 := cos_double_interval _ (739712769275797085255455/10^24 : ℝ) (739712769328405915221791/10^24 : ℝ) (47942553855159417051091/10^23 : ℝ) (479425538656811830443582/10^24 : ℝ) hq15 (by norm_num) (by norm_num)
  have ha17 : 2*(2*(2*((1070796326794896619/10^18 : ℝ)/8))) = (1070796326794896619/10^18 : ℝ) := by norm_num
  rw [ha17] at hs14 hc16
  have hsx18 := sin_lipschitz_interval ((kepler_step (0.5:ℝ) (Real.pi / 2 - (0.5:ℝ) * Real.sin (Real.pi / 2)))^[0] (Real.pi / 2 - (0.5:ℝ) * Real.sin (Real.pi / 2))) _ _ _ (235/10^21 : ℝ) _ _ (877582561804515200627398/10^24 : ℝ) (877582561976230231377546/10^24 : ℝ) hx0 (by norm_num) (by norm_num) hs14 (by norm_num) (by norm_num)
  have hes19 := scale_interval (0.5:ℝ) _ _ _ (438791280902257600313699/10^24 : ℝ) (438791280988115115688773/10^24 : ℝ) (by norm_num) hsx18 (by norm_num) (by norm_num)
  have hf20 := kepler_residual_interval (0.5:ℝ) (Real.pi / 2 - (0.5:ℝ) * Real.sin (Real.pi / 2)) ((kepler_step (0.5:ℝ) (Real.pi / 2 - (0.5:ℝ) * Real.sin (Real.pi / 2)))^[0] (Real.pi / 2 - (0.5:ℝ) * Real.sin (Real.pi / 2))) _ _ _ _ _ _ (-438791280988115115693773/10^24 : ℝ) (-438791280902257600308699/10^24 : ℝ) hx0 hM hes19 (by norm_num) (by norm_num)
  have hcx21 := cos_lipschitz_interval ((kepler_step (0.5:ℝ) (Real.pi / 2 - (0.5:ℝ) * Real.sin (Real.pi / 2)))^[0] (Real.pi / 2 - (0.5:ℝ) * Real.sin (Real.pi / 2))) _ _ _ (235/10^21 : ℝ) _ _ (47942553855159417027591/10^23 : ℝ) (479425538656811830678582/10^24 : ℝ) hx0 (by norm_num) (by norm_num) hc16 (by norm_num) (by norm_num)
  have hec22 := scale_interval (0.5:ℝ) _ _ _ (239712769275797085137955/10^24 : ℝ) (239712769328405915339291/10^24 : ℝ) (by norm_num) hcx21 (by norm_num) (by norm_num)
  have hw23 := one_sub_interval _ _ _ (760287230671594084660709/10^24 : ℝ) (760287230724202914862045/10^24 : ℝ) hec22 (by norm_num) (by norm_num)
  have hqd24 := div_interval _ _ _ _ _ _ (-577138827651376037205166/10^24 : ℝ) (-577138827498512607076424/10^24 : ℝ) hf20 hw23 (by norm_num) (by norm_num) (by norm_num) (by norm_num) (by norm_num)
  have hstep25 := kepler_step_interval (0.5:ℝ) (Real.pi / 2 - (0.5:ℝ) * Real.sin (Real.pi / 2)) ((kepler_step (0.5:ℝ) (Real.pi / 2 - (0.5:ℝ) * Real.sin (Real.pi / 2)))^[0] (Real.pi / 2 - (0.5:ℝ) * Real.sin (Real.pi / 2))) _ _ _ _ (1647935154293409226/10^18 : ℝ) (1647935154446272657/10^18 : ℝ) hx0 hqd24 (by norm_num) (by norm_num)
  have hx26 : (1647935154293409226/10^18 : ℝ) ≤ ((kepler_step (0.5:ℝ) (Real.pi / 2 - (0.5:ℝ) * Real.sin (Real.pi / 2)))^[1] (Real.pi / 2 - (0.5:ℝ) * Real.sin (Real.pi / 2))) ∧ ((kepler_step (0.5:ℝ) (Real.pi / 2 - (0.5:ℝ) * Real.sin (Real.pi / 2)))^[1] (Real.pi / 2 - (0.5:ℝ) * Real.sin (Real.pi / 2))) ≤ (1647935154446272657/10^18 : ℝ) := by
    rw [Function.iterate_succ_apply']
    exact hstep25
  have ts27 := sin_taylor ((1647935154369840941/10^18 : ℝ)/8) (by rw [abs_of_nonneg (by norm_num)]; norm_num)
  have tc28 := cos_taylor ((1647935154369840941/10^18 : ℝ)/8) (by rw [abs_of_nonneg (by norm_num)]; norm_num)
  have hs29 := interval_of_abs _ _ _ (204538184601539333679399/10^24 : ℝ) (2045381846215393336794/10^22 : ℝ) ts27 (by norm_num) (by norm_num)
  have hc30 := interval_of_abs _ _ _ (978858585820167456158941/10^24 : ℝ) (978858585822167456158942/10^24 : ℝ) tc28 (by norm_num) (by norm_num)
  have hp31 := mul_interval _ _ _ _ _ _ (200213958125287143539271/10^24 : ℝ) (20021395814527339162492/10^23 : ℝ) hs29 hc30 (by norm_num) (by norm_num) (by norm_num) (by norm_num) (by norm_num) (by norm_num) (by norm_num) (by norm_num)
  have hs32 := sin_double_interval _ (200213958125287143539271/10^24 : ℝ) (20021395814527339162492/10^23 : ℝ) (400427916250574287078542/10^24 : ℝ) (40042791629054678324984/10^23 : ℝ) hp31 (by norm_num) (by norm_num)
  have hq33 := mul_interval _ _ _ _ _ _ (958164131033858136870255/10^24 : ℝ) (958164131037773571213543/10^24 : ℝ) hc30 hc30 (by norm_num) (by norm_num) (by norm_num) (by norm_num) (by norm_num) (by norm_num) (by norm_num) (by norm_num)
  have hc34 := cos_double_interval _ (958164131033858136870255/10^24 : ℝ) (958164131037773571213543/10^24 : ℝ) (91632826206771627374051/10^23 : ℝ) (916328262075547142427086/10^24 : ℝ) hq33 (by norm_num) (by norm_num)
  have hp35 := mul_interval _ _ _ _ _ _ (366923416581285779370735/10^24 : ℝ) (3669234166210494057488/10^22 : ℝ) hs32 hc34 (by norm_num) (by norm_num) (by norm_num) (by norm_num) (by norm_num) (by norm_num) (by norm_num) (by norm_num)
  have hs36 := sin_double_interval _ (366923416581285779370735/10^24 : ℝ) (3669234166210494057488/10^22 : ℝ) (73384683316257155874147/10^23 : ℝ) (7338468332420988114976/10^22 : ℝ) hp35 (by norm_num) (by norm_num)
  have hq37 := mul_interval _ _ _ _ _ _ (839657483864041314856101/10^24 : ℝ) (839657483878392607444264/10^24 : ℝ) hc34 hc34 (by norm_num) (by norm_num) (by norm_num) (by norm_num) (by norm_num) (by norm_num) (by norm_num) (by norm_num)
  have hc38 := cos_double_interval _ (839657483864041314856101/10^24 : ℝ) (839657483878392607444264/10^24 : ℝ) (679314967728082629712202/10^24 : ℝ) (679314967756785214888528/10^24 : ℝ) hq37 (by norm_num) (by norm_num)
  have hp39 := mul_interval _ _ _ _ _ _ (498513137787187936156576/10^24 : ℝ) (498513137862275290533619/10^24 : ℝ) hs36 hc38 (by norm_num) (by norm_num) (by norm_num) (by norm_num) (by norm_num) (by norm_num) (by norm_num) (by norm_num)
  have hs40 := sin_double_interval _ (498513137787187936156576/10^24 : ℝ) (498513137862275290533619/10^24 : ℝ) (997026275574375872313152/10^24 : ℝ) (997026275724550581067238/10^24 : ℝ) hp39 (by norm_num) (by norm_num)
  have hq41 := mul_interval _ _ _ _ _ _ (461468825379405944682539/10^24 : ℝ) (461468825418402136128901/10^24 : ℝ) hc38 hc38 (by norm_num) (by norm_num) (by norm_num) (by norm_num) (by norm_num) (by norm_num) (by norm_num) (by norm_num)
  have hc42 := cos_double_interval _ (461468825379405944682539/10^24 : ℝ) (461468825418402136128901/10^24 : ℝ) (-77062349241188110634922/10^24 : ℝ) (-77062349163195727742198/10^24 : ℝ) hq41 (by norm_num) (by norm_num)
  have ha43 : 2*(2*(2*((1647935154369840941/10^18 : ℝ)/8))) = (1647935154369840941/10^18 : ℝ) := by norm_num
  rw [ha43] at hs40 hc42
  have hsx44 := sin_lipschitz_interval ((kepler_step (0.5:ℝ) (Real.pi / 2 - (0.5:ℝ) * Real.sin (Real.pi / 2)))^[1] (Real.pi / 2 - (0.5:ℝ) * Real.sin (Real.pi / 2))) _ _ _ (76431716/10^18 : ℝ) _ _ (997026275497944156313152/10^24 : ℝ) (997026275800982297067238/10^24 : ℝ) hx26 (by norm_num) (by norm_num) hs40 (by norm_num) (by norm_num)
  have hes45 := scale_interval (0.5:ℝ) _ _ _ (498513137748972078156576/10^24 : ℝ) (498513137900491148533619/10^24 : ℝ) (by norm_num) hsx44 (by norm_num) (by norm_num)
  have hf46 := kepler_residual_interval (0.5:ℝ) (Real.pi / 2 - (0.5:ℝ) * Real.sin (Real.pi / 2)) ((kepler_step (0.5:ℝ) (Real.pi / 2 - (0.5:ℝ) * Real.sin (Real.pi / 2)))^[1] (Real.pi / 2 - (0.5:ℝ) * Real.sin (Real.pi / 2))) _ _ _ _ _ _ (78625689598021458231381/10^24 : ℝ) (78625689902403959613424/10^24 : ℝ) hx26 hM hes45 (by norm_num) (by norm_num)
  have hcx47 := cos_lipschitz_interval ((kepler_step (0.5:ℝ) (Real.pi / 2 - (0.5:ℝ) * Real.sin (Real.pi / 2)))^[1] (Real.pi / 2 - (0.5:ℝ) * Real.sin (Real.pi / 2))) _ _ _ (76431716/10^18 : ℝ) _ _ (-77062349317619826634922/10^24 : ℝ) (-77062349086764011742198/10^24 : ℝ) hx26 (by norm_num) (by norm_num) hc42 (by norm_num) (by norm_num)
  have hec48 := scale_interval (0.5:ℝ) _ _ _ (-38531174658809913317461/10^24 : ℝ) (-38531174543382005871099/10^24 : ℝ) (by norm_num) hcx47 (by norm_num) (by norm_num)
  have hw49 := one_sub_interval _ _ _ (1038531174543382005871099/10^24 : ℝ) (1038531174658809913317461/10^24 : ℝ) hec48 (by norm_num) (by norm_num)
  have hqd50 := div_interval _ _ _ _ _ _ (75708550226094527249633/10^24 : ℝ) (75708550527598602029201/10^24 : ℝ) hf46 hw49 (by norm_num) (by norm_num) (by norm_num) (by norm_num) (by norm_num)
  have hstep51 := kepler_step_interval (0.5:ℝ) (Real.pi / 2 - (0.5:ℝ) * Real.sin (Real.pi / 2)) ((kepler_step (0.5:ℝ) (Real.pi / 2 - (0.5:ℝ) * Real.sin (Real.pi / 2)))^[1] (Real.pi / 2 - (0.5:ℝ) * Real.sin (Real.pi / 2))) _ _ _ _ (1572226603765810623/10^18 : ℝ) (157222660422017813/10^17 : ℝ) hx26 hqd50 (by norm_num) (by norm_num)
  have hx52 : (1572226603765810623/10^18 : ℝ) ≤ ((kepler_step (0.5:ℝ) (Real.pi / 2 - (0.5:ℝ) * Real.sin (Real.pi / 2)))^[2] (Real.pi / 2 - (0.5:ℝ) * Real.sin (Real.pi / 2))) ∧ ((kepler_step (0.5:ℝ) (Real.pi / 2 - (0.5:ℝ) * Real.sin (Real.pi / 2)))^[2] (Real.pi / 2 - (0.5:ℝ) * Real.sin (Real.pi / 2))) ≤ (157222660422017813/10^17 : ℝ) := by
    rw [Function.iterate_succ_apply']
    exact hstep51
  have ts53 := sin_taylor ((1572226603992994376/10^18 : ℝ)/8) (by rw [abs_of_nonneg (by norm_num)]; norm_num)
  have tc54 := cos_taylor ((1572226603992994376/10^18 : ℝ)/8) (by rw [abs_of_nonneg (by norm_num)]; norm_num)
  have hs55 := interval_of_abs _ _ _ (195265668240114219092705/10^24 : ℝ) (195265668260114219092706/10^24 : ℝ) ts53 (by norm_num) (by norm_num)
  have hc56 := interval_of_abs _ _ _ (980750385572636333793276/10^24 : ℝ) (980750385574636333793277/10^24 : ℝ) tc54 (by norm_num) (by norm_num)
  have hp57 := mul_interval _ _ _ _ _ _ (191506879415590509195857/10^24 : ℝ) (191506879435596048243833/10^24 : ℝ) hs55 hc56 (by norm_num) (by norm_num) (by norm_num) (by norm_num) (by norm_num) (by norm_num) (by norm_num) (by norm_num)
  have hs58 := sin_double_interval _ (191506879415590509195857/10^24 : ℝ) (191506879435596048243833/10^24 : ℝ) (383013758831181018391714/10^24 : ℝ) (383013758871192096487666/10^24 : ℝ) hp57 (by norm_num) (by norm_num)
  have hq59 := mul_interval _ _ _ _ _ _ (9618713188008748349934/10^22 : ℝ) (961871318804797836535697/10^24 : ℝ) hc56 hc56 (by norm_num) (by norm_num) (by norm_num) (by norm_num) (by norm_num) (by norm_num) (by norm_num) (by norm_num)
  have hc60 := cos_double_interval _ (9618713188008748349934/10^22 : ℝ) (961871318804797836535697/10^24 : ℝ) (9237426376017496699868/10^22 : ℝ) (923742637609595673071394/10^24 : ℝ) hq59 (by norm_num) (by norm_num)
  have hp61 := mul_interval _ _ _ _ _ _ (353806139820475594730574/10^24 : ℝ) (353806139860440660677764/10^24 : ℝ) hs58 hc60 (by norm_num) (by norm_num) (by norm_num) (by norm_num) (by norm_num) (by norm_num) (by norm_num) (by norm_num)
  have hs62 := sin_double_interval _ (353806139820475594730574/10^24 : ℝ) (353806139860440660677764/10^24 : ℝ) (707612279640951189461148/10^24 : ℝ) (707612279720881321355528/10^24 : ℝ) hp61 (by norm_num) (by norm_num)
  have hq63 := mul_interval _ _ _ _ _ _ (853300460523437423297075/10^24 : ℝ) (853300460537932798465126/10^24 : ℝ) hc60 hc60 (by norm_num) (by norm_num) (by norm_num) (by norm_num) (by norm_num) (by norm_num) (by norm_num) (by norm_num)
  have hc64 := cos_double_interval _ (853300460523437423297075/10^24 : ℝ) (853300460537932798465126/10^24 : ℝ) (70660092104687484659415/10^23 : ℝ) (706600921075865596930252/10^24 : ℝ) hq63 (by norm_num) (by norm_num)
  have hp65 := mul_interval _ _ _ _ _ _ (499999488538374876845599/10^24 : ℝ) (499999488615367792597715/10^24 : ℝ) hs62 hc64 (by norm_num) (by norm_num) (by norm_num) (by norm_num) (by norm_num) (by norm_num) (by norm_num) (by norm_num)
  have hs66 := sin_double_interval _ (499999488538374876845599/10^24 : ℝ) (499999488615367792597715/10^24 : ℝ) (999998977076749753691198/10^24 : ℝ) (99999897723073558519543/10^23 : ℝ) hp65 (by norm_num) (by norm_num)
  have hq67 := mul_interval _ _ _ _ _ _ (499284861624291860552517/10^24 : ℝ) (499284861665261642332018/10^24 : ℝ) hc64 hc64 (by norm_num) (by norm_num) (by norm_num) (by norm_num) (by norm_num) (by norm_num) (by norm_num) (by norm_num)
  have hc68 := cos_double_interval _ (499284861624291860552517/10^24 : ℝ) (499284861665261642332018/10^24 : ℝ) (-1430276751416278894966/10^24 : ℝ) (-1430276669476715335964/10^24 : ℝ) hq67 (by norm_num) (by norm_num)
  have ha69 : 2*(2*(2*((1572226603992994376/10^18 : ℝ)/8))) = (1572226603992994376/10^18 : ℝ) := by norm_num
  rw [ha69] at hs66 hc68
  have hsx70 := sin_lipschitz_interval ((kepler_step (0.5:ℝ) (Real.pi / 2 - (0.5:ℝ) * Real.sin (Real.pi / 2)))^[2] (Real.pi / 2 - (0.5:ℝ) * Real.sin (Real.pi / 2))) _ _ _ (227183754/10^18 : ℝ) _ _ (999998976849565999691198/10^24 : ℝ) (99999897745791933919543/10^23 : ℝ) hx52 (by norm_num) (by norm_num) hs66 (by norm_num) (by norm_num)
  have hes71 := scale_interval (0.5:ℝ) _ _ _ (499999488424782999845599/10^24 : ℝ) (499999488728959669597715/10^24 : ℝ) (by norm_num) hsx70 (by norm_num) (by norm_num)
  have hf72 := kepler_residual_interval (0.5:ℝ) (Real.pi / 2 - (0.5:ℝ) * Real.sin (Real.pi / 2)) ((kepler_step (0.5:ℝ) (Real.pi / 2 - (0.5:ℝ) * Real.sin (Real.pi / 2)))^[2] (Real.pi / 2 - (0.5:ℝ) * Real.sin (Real.pi / 2))) _ _ _ _ _ _ (1430788241954334167285/10^24 : ℝ) (1430789000498510924401/10^24 : ℝ) hx52 hM hes71 (by norm_num) (by norm_num)
  have hcx73 := cos_lipschitz_interval ((kepler_step (0.5:ℝ) (Real.pi / 2 - (0.5:ℝ) * Real.sin (Real.pi / 2)))^[2] (Real.pi / 2 - (0.5:ℝ) * Real.sin (Real.pi / 2))) _ _ _ (227183754/10^18 : ℝ) _ _ (-1430276978600032894966/10^24 : ℝ) (-1430276442292961335964/10^24 : ℝ) hx52 (by norm_num) (by norm_num) hc68 (by norm_num) (by norm_num)
  have hec74 := scale_interval (0.5:ℝ) _ _ _ (-715138489300016447483/10^24 : ℝ) (-715138221146480667982/10^24 : ℝ) (by norm_num) hcx73 (by norm_num) (by norm_num)
  have hw75 := one_sub_interval _ _ _ (1000715138221146480667982/10^24 : ℝ) (1000715138489300016447483/10^24 : ℝ) hec74 (by norm_num) (by norm_num)
  have hqd76 := div_interval _ _ _ _ _ _ (1429765761427653907142/10^24 : ℝ) (1429766519812877149029/10^24 : ℝ) hf72 hw75 (by norm_num) (by norm_num) (by norm_num) (by norm_num) (by norm_num)
  have hstep77 := kepler_step_interval (0.5:ℝ) (Real.pi / 2 - (0.5:ℝ) * Real.sin (Real.pi / 2)) ((kepler_step (0.5:ℝ) (Real.pi / 2 - (0.5:ℝ) * Real.sin (Real.pi / 2)))^[2] (Real.pi / 2 - (0.5:ℝ) * Real.sin (Real.pi / 2))) _ _ _ _ (1570796837245997745/10^18 : ℝ) (1570796838458750477/10^18 : ℝ) hx52 hqd76 (by norm_num) (by norm_num)
  have hx78 : (1570796837245997745/10^18 : ℝ) ≤ ((kepler_step (0.5:ℝ) (Real.pi / 2 - (0.5:ℝ) * Real.sin (Real.pi / 2)))^[3] (Real.pi / 2 - (0.5:ℝ) * Real.sin (Real.pi / 2))) ∧ ((kepler_step (0.5:ℝ) (Real.pi / 2 - (0.5:ℝ) * Real.sin (Real.pi / 2)))^[3] (Real.pi / 2 - (0.5:ℝ) * Real.sin (Real.pi / 2))) ≤ (1570796838458750477/10^18 : ℝ) := by
    rw [Function.iterate_succ_apply']
    exact hstep77
  have ts79 := sin_taylor ((1570796837852374111/10^18 : ℝ)/8) (by rw [abs_of_nonneg (by norm_num)]; norm_num)
  have tc80 := cos_taylor ((1570796837852374111/10^18 : ℝ)/8) (by rw [abs_of_nonneg (by norm_num)]; norm_num)
  have hs81 := interval_of_abs _ _ _ (1950903846608342901609/10^22 : ℝ) (195090384680834290160901/10^24 : ℝ) ts79 (by norm_num) (by norm_num)
  have hc82 := interval_of_abs _ _ _ (980785267939432466290457/10^24 : ℝ) (980785267941432466290458/10^24 : ℝ) tc80 (by norm_num) (by norm_num)
  have hp83 := mul_interval _ _ _ _ _ _ (191341775191983304929695/10^24 : ℝ) (191341775211989191057847/10^24 : ℝ) hs81 hc82 (by norm_num) (by norm_num) (by norm_num) (by norm_num) (by norm_num) (by norm_num) (by norm_num) (by norm_num)
  have hs84 := sin_double_interval _ (191341775191983304929695/10^24 : ℝ) (191341775211989191057847/10^24 : ℝ) (38268355038396660985939/10^23 : ℝ) (382683550423978382115694/10^24 : ℝ) hp83 (by norm_num) (by norm_num)
  have hq85 := mul_interval _ _ _ _ _ _ (961939741807024334440842/10^24 : ℝ) (961939741810947475512606/10^24 : ℝ) hc82 hc82 (by norm_num) (by norm_num) (by norm_num) (by norm_num) (by norm_num) (by norm_num) (by norm_num) (by norm_num)
  have hc86 := cos_double_interval _ (961939741807024334440842/10^24 : ℝ) (961939741810947475512606/10^24 : ℝ) (923879483614048668881684/10^24 : ℝ) (923879483621894951025212/10^24 : ℝ) hq85 (by norm_num) (by norm_num)
  have hp87 := mul_interval _ _ _ _ _ _ (353553480916329847722347/10^24 : ℝ) (353553480956298546321299/10^24 : ℝ) hs84 hc86 (by norm_num) (by norm_num) (by norm_num) (by norm_num) (by norm_num) (by norm_num) (by norm_num) (by norm_num)
  have hs88 := sin_double_interval _ (353553480916329847722347/10^24 : ℝ) (353553480956298546321299/10^24 : ℝ) (707106961832659695444694/10^24 : ℝ) (707106961912597092642598/10^24 : ℝ) hp87 (by norm_num) (by norm_num)
  have hq89 := mul_interval _ _ _ _ _ _ (853553300242961222863552/10^24 : ℝ) (85355330025745926105372/10^23 : ℝ) hc86 hc86 (by norm_num) (by norm_num) (by norm_num) (by norm_num) (by norm_num) (by norm_num) (by norm_num) (by norm_num)
  have hc90 := cos_double_interval _ (853553300242961222863552/10^24 : ℝ) (85355330025745926105372/10^23 : ℝ) (707106600485922445727104/10^24 : ℝ) (70710660051491852210744/10^23 : ℝ) hq89 (by norm_num) (by norm_num)
  have hp91 := mul_interval _ _ _ _ _ _ (499999999961420910487321/10^24 : ℝ) (500000000038448499148309/10^24 : ℝ) hs88 hc90 (by norm_num) (by norm_num) (by norm_num) (by norm_num) (by norm_num) (by norm_num) (by norm_num) (by norm_num)
  have hs92 := sin_double_interval _ (499999999961420910487321/10^24 : ℝ) (500000000038448499148309/10^24 : ℝ) (999999999922841820974642/10^24 : ℝ) (1000000000076896998296618/10^24 : ℝ) hp91 (by norm_num) (by norm_num)
  have hq93 := mul_interval _ _ _ _ _ _ (499999744450757937159674/10^24 : ℝ) (499999744491764571153975/10^24 : ℝ) hc90 hc90 (by norm_num) (by norm_num) (by norm_num) (by norm_num) (by norm_num) (by norm_num) (by norm_num) (by norm_num)
  have hc94 := cos_double_interval _ (499999744450757937159674/10^24 : ℝ) (499999744491764571153975/10^24 : ℝ) (-511098484125680652/10^24 : ℝ) (-51101647085769205/10^23 : ℝ) hq93 (by norm_num) (by norm_num)
  have ha95 : 2*(2*(2*((1570796837852374111/10^18 : ℝ)/8))) = (1570796837852374111/10^18 : ℝ) := by norm_num
  rw [ha95] at hs92 hc94
  have hsx96 := sin_lipschitz_interval ((kepler_step (0.5:ℝ) (Real.pi / 2 - (0.5:ℝ) * Real.sin (Real.pi / 2)))^[3] (Real.pi / 2 - (0.5:ℝ) * Real.sin (Real.pi / 2))) _ _ _ (606376366/10^18 : ℝ) _ _ (999999999316465454974642/10^24 : ℝ) (1000000000683273364296618/10^24 : ℝ) hx78 (by norm_num) (by norm_num) hs92 (by norm_num) (by norm_num)
  have hes97 := scale_interval (0.5:ℝ) _ _ _ (499999999658232727487321/10^24 : ℝ) (500000000341636682148309/10^24 : ℝ) (by norm_num) hsx96 (by norm_num) (by norm_num)
  have hf98 := kepler_residual_interval (0.5:ℝ) (Real.pi / 2 - (0.5:ℝ) * Real.sin (Real.pi / 2)) ((kepler_step (0.5:ℝ) (Real.pi / 2 - (0.5:ℝ) * Real.sin (Real.pi / 2)))^[3] (Real.pi / 2 - (0.5:ℝ) * Real.sin (Real.pi / 2))) _ _ _ _ _ _ (510109464443616691/10^24 : ℝ) (512005621130282679/10^24 : ℝ) hx78 hM hes97 (by norm_num) (by norm_num)
  have hcx99 := cos_lipschitz_interval ((kepler_step (0.5:ℝ) (Real.pi / 2 - (0.5:ℝ) * Real.sin (Real.pi / 2)))^[3] (Real.pi / 2 - (0.5:ℝ) * Real.sin (Real.pi / 2))) _ _ _ (606376366/10^18 : ℝ) _ _ (-511704860491680652/10^24 : ℝ) (-51041009449169205/10^23 : ℝ) hx78 (by norm_num) (by norm_num) hc94 (by norm_num) (by norm_num)
  have hec100 := scale_interval (0.5:ℝ) _ _ _ (-255852430245840326/10^24 : ℝ) (-255205047245846025/10^24 : ℝ) (by norm_num) hcx99 (by norm_num) (by norm_num)
  have hw101 := one_sub_interval _ _ _ (1000000255205047245846025/10^24 : ℝ) (1000000255852430245840326/10^24 : ℝ) hec100 (by norm_num) (by norm_num)
  have hqd102 := div_interval _ _ _ _ _ _ (510109333930903913/10^24 : ℝ) (512005490463897296/10^24 : ℝ) hf98 hw101 (by norm_num) (by norm_num) (by norm_num) (by norm_num) (by norm_num)
  have hstep103 := kepler_step_interval (0.5:ℝ) (Real.pi / 2 - (0.5:ℝ) * Real.sin (Real.pi / 2)) ((kepler_step (0.5:ℝ) (Real.pi / 2 - (0.5:ℝ) * Real.sin (Real.pi / 2)))^[3] (Real.pi / 2 - (0.5:ℝ) * Real.sin (Real.pi / 2))) _ _ _ _ (1570796325240507281/10^18 : ℝ) (1570796328349416547/10^18 : ℝ) hx78 hqd102 (by norm_num) (by norm_num)
  have hx104 : (1570796325240507281/10^18 : ℝ) ≤ ((kepler_step (0.5:ℝ) (Real.pi / 2 - (0.5:ℝ) * Real.sin (Real.pi / 2)))^[4] (Real.pi / 2 - (0.5:ℝ) * Real.sin (Real.pi / 2))) ∧ ((kepler_step (0.5:ℝ) (Real.pi / 2 - (0.5:ℝ) * Real.sin (Real.pi / 2)))^[4] (Real.pi / 2 - (0.5:ℝ) * Real.sin (Real.pi / 2))) ≤ (1570796328349416547/10^18 : ℝ) := by
    rw [Function.iterate_succ_apply']
    exact hstep103
  have ts105 := sin_taylor ((1570796326794961914/10^18 : ℝ)/8) (by rw [abs_of_nonneg (by norm_num)]; norm_num)
  have tc106 := cos_taylor ((1570796326794961914/10^18 : ℝ)/8) (by rw [abs_of_nonneg (by norm_num)]; norm_num)
  have hs107 := interval_of_abs _ _ _ (195090322006136272763264/10^24 : ℝ) (195090322026136272763265/10^24 : ℝ) ts105 (by norm_num) (by norm_num)
  have hc108 := interval_of_abs _ _ _ (980785280402228856830453/10^24 : ℝ) (980785280404228856830454/10^24 : ℝ) tc106 (by norm_num) (by norm_num)
  have hp109 := mul_interval _ _ _ _ _ _ (191341716172549483199487/10^24 : ℝ) (191341716192555369451586/10^24 : ℝ) hs107 hc108 (by norm_num) (by norm_num) (by norm_num) (by norm_num) (by norm_num) (by norm_num) (by norm_num) (by norm_num)
  have hs110 := sin_double_interval _ (191341716172549483199487/10^24 : ℝ) (191341716192555369451586/10^24 : ℝ) (382683432345098966398974/10^24 : ℝ) (382683432385110738903172/10^24 : ℝ) hp109 (by norm_num) (by norm_num)
  have hq111 := mul_interval _ _ _ _ _ _ (961939766253678684102859/10^24 : ℝ) (961939766257601825224475/10^24 : ℝ) hc108 hc108 (by norm_num) (by norm_num) (by norm_num) (by norm_num) (by norm_num) (by norm_num) (by norm_num) (by norm_num)
  have hc112 := cos_double_interval _ (961939766253678684102859/10^24 : ℝ) (961939766257601825224475/10^24 : ℝ) (923879532507357368205718/10^24 : ℝ) (92387953251520365044895/10^23 : ℝ) hq111 (by norm_num) (by norm_num)
  have hp113 := mul_interval _ _ _ _ _ _ (353553390573300954660908/10^24 : ℝ) (35355339061326965455718/10^23 : ℝ) hs110 hc112 (by norm_num) (by norm_num) (by norm_num) (by norm_num) (by norm_num) (by norm_num) (by norm_num) (by norm_num)
  have hs114 := sin_double_interval _ (353553390573300954660908/10^24 : ℝ) (35355339061326965455718/10^23 : ℝ) (707106781146601909321816/10^24 : ℝ) (70710678122653930911436/10^23 : ℝ) hp113 (by norm_num) (by norm_num)
  have hq115 := mul_interval _ _ _ _ _ _ (853553390586013200046712/10^24 : ℝ) (85355339060051123918837/10^23 : ℝ) hc112 hc112 (by norm_num) (by norm_num) (by norm_num) (by norm_num) (by norm_num) (by norm_num) (by norm_num) (by norm_num)
  have hc116 := cos_double_interval _ (853553390586013200046712/10^24 : ℝ) (85355339060051123918837/10^23 : ℝ) (707106781172026400093424/10^24 : ℝ) (70710678120102247837674/10^23 : ℝ) hq115 (by norm_num) (by norm_num)
  have hp117 := mul_interval _ _ _ _ _ _ (499999999961486199231301/10^24 : ℝ) (500000000038513800276978/10^24 : ℝ) hs114 hc116 (by norm_num) (by norm_num) (by norm_num) (by norm_num) (by norm_num) (by norm_num) (by norm_num) (by norm_num)
  have hs118 := sin_double_interval _ (499999999961486199231301/10^24 : ℝ) (500000000038513800276978/10^24 : ℝ) (999999999922972398462602/10^24 : ℝ) (1000000000077027600553956/10^24 : ℝ) hp117 (by norm_num) (by norm_num)
  have hq119 := mul_interval _ _ _ _ _ _ (499999999979464029063751/10^24 : ℝ) (500000000020470676227648/10^24 : ℝ) hc116 hc116 (by norm_num) (by norm_num) (by norm_num) (by norm_num) (by norm_num) (by norm_num) (by norm_num) (by norm_num)
  have hc120 := cos_double_interval _ (499999999979464029063751/10^24 : ℝ) (500000000020470676227648/10^24 : ℝ) (-41071941872498/10^24 : ℝ) (40941352455296/10^24 : ℝ) hq119 (by norm_num) (by norm_num)
  have ha121 : 2*(2*(2*((1570796326794961914/10^18 : ℝ)/8))) = (1570796326794961914/10^18 : ℝ) := by norm_num
  rw [ha121] at hs118 hc120
  have hsx122 := sin_lipschitz_interval ((kepler_step (0.5:ℝ) (Real.pi / 2 - (0.5:ℝ) * Real.sin (Real.pi / 2)))^[4] (Real.pi / 2 - (0.5:ℝ) * Real.sin (Real.pi / 2))) _ _ _ (1554454633/10^18 : ℝ) _ _ (999999998368517765462602/10^24 : ℝ) (1000000001631482233553956/10^24 : ℝ) hx104 (by norm_num) (by norm_num) hs118 (by norm_num) (by norm_num)
  have hes123 := scale_interval (0.5:ℝ) _ _ _ (499999999184258882731301/10^24 : ℝ) (500000000815741116776978/10^24 : ℝ) (by norm_num) hsx122 (by norm_num) (by norm_num)
  have hf124 := kepler_residual_interval (0.5:ℝ) (Real.pi / 2 - (0.5:ℝ) * Real.sin (Real.pi / 2)) ((kepler_step (0.5:ℝ) (Real.pi / 2 - (0.5:ℝ) * Real.sin (Real.pi / 2)))^[4] (Real.pi / 2 - (0.5:ℝ) * Real.sin (Real.pi / 2))) _ _ _ _ _ _ (-2370130455011978/10^24 : ℝ) (2370261045038699/10^24 : ℝ) hx104 hM hes123 (by norm_num) (by norm_num)
  exact abs_lt_of_interval _ _ _ _ hf124 (by norm_num) (by norm_num)

set_option maxHeartbeats 3200000 in
lemma kepler_stop_e08_pi4 :
    |kepler_residual (0.8:ℝ) (Real.pi / 4 - (0.8:ℝ) * Real.sin (Real.pi / 4)) ((kepler_step (0.8:ℝ) (Real.pi / 4 - (0.8:ℝ) * Real.sin (Real.pi / 4)))^[4] (Real.pi / 4 - (0.8:ℝ) * Real.sin (Real.pi / 4)))| < 1/1000000 := by
  have hM : (219712738448210290091/10^21 : ℝ) ≤ (Real.pi / 4 - (0.8:ℝ) * Real.sin (Real.pi / 4)) ∧ (Real.pi / 4 - (0.8:ℝ) * Real.sin (Real.pi / 4)) ≤ (2197127384482102900976/10^22 : ℝ) := by
    rw [Real.sin_pi_div_four]
    constructor
    · linarith [Real.pi_gt_d20, sqrt_two_interval.2]
    · linarith [Real.pi_lt_d20, sqrt_two_interval.1]
  have hx0 : (219712738448210290091/10^21 : ℝ) ≤ ((kepler_step (0.8:ℝ) (Real.pi / 4 - (0.8:ℝ) * Real.sin (Real.pi / 4)))^[0] (Real.pi / 4 - (0.8:ℝ) * Real.sin (Real.pi / 4))) ∧ ((kepler_step (0.8:ℝ) (Real.pi / 4 - (0.8:ℝ) * Real.sin (Real.pi / 4)))^[0] (Real.pi / 4 - (0.8:ℝ) * Real.sin (Real.pi / 4))) ≤ (2197127384482102900976/10^22 : ℝ) := by
    simpa using hM
  have ts1 := sin_taylor ((21971273844821029/10^17 : ℝ)/8) (by rw [abs_of_nonneg (by norm_num)]; norm_num)
  have tc2 := cos_taylor ((21971273844821029/10^17 : ℝ)/8) (by rw [abs_of_nonneg (by norm_num)]; norm_num)
  have hs3 := interval_of_abs _ _ _ (27460639840276579963494/10^24 : ℝ) (27460639860276579963495/10^24 : ℝ) ts1 (by norm_num) (by norm_num)
  have hc4 := interval_of_abs _ _ _ (999622885520841882691414/10^24 : ℝ) (999622885522841882691415/10^24 : ℝ) tc2 (by norm_num) (by norm_num)
  have hp5 := mul_interval _ _ _ _ _ _ (27450284035385865415361/10^24 : ℝ) (274502840554332444055/10^22 : ℝ) hs3 hc4 (by norm_num) (by norm_num) (by norm_num) (by norm_num) (by norm_num) (by norm_num) (by norm_num) (by norm_num)
  have hs6 := sin_double_interval _ (27450284035385865415361/10^24 : ℝ) (274502840554332444055/10^22 : ℝ) (54900568070771730830722/10^24 : ℝ) (54900568110866488811/10^21 : ℝ) hp5 (by norm_num) (by norm_num)
  have hq7 := mul_interval _ _ _ _ _ _ (999245913257014156080921/10^24 : ℝ) (999245913261012647623012/10^24 : ℝ) hc4 hc4 (by norm_num) (by norm_num) (by norm_num) (by norm_num) (by norm_num) (by norm_num) (by norm_num) (by norm_num)
  have hc8 := cos_double_interval _ (999245913257014156080921/10^24 : ℝ) (999245913261012647623012/10^24 : ℝ) (998491826514028312161842/10^24 : ℝ) (998491826522025295246024/10^24 : ℝ) hq7 (by norm_num) (by norm_num)
  have hp9 := mul_interval _ _ _ _ _ _ (54817768489642609088493/10^24 : ℝ) (54817768530115936132354/10^24 : ℝ) hs6 hc8 (by norm_num) (by norm_num) (by norm_num) (by norm_num) (by norm_num) (by norm_num) (by norm_num) (by norm_num)
  have hs10 := sin_double_interval _ (54817768489642609088493/10^24 : ℝ) (54817768530115936132354/10^24 : ℝ) (109635536979285218176986/10^24 : ℝ) (109635537060231872264708/10^24 : ℝ) hp9 (by norm_num) (by norm_num)
  have hq11 := mul_interval _ _ _ _ _ _ (996985927615320412316576/10^24 : ℝ) (996985927631290256809294/10^24 : ℝ) hc8 hc8 (by norm_num) (by norm_num) (by norm_num) (by norm_num) (by norm_num) (by norm_num) (by norm_num) (by norm_num)
  have hc12 := cos_double_interval _ (996985927615320412316576/10^24 : ℝ) (996985927631290256809294/10^24 : ℝ) (993971855230640824633152/10^24 : ℝ) (993971855262580513618588/10^24 : ℝ) hq11 (by norm_num) (by norm_num)
  have hp13 := mul_interval _ _ _ _ _ _ (108974638090507655543459/10^24 : ℝ) (108974638174468076437201/10^24 : ℝ) hs10 hc12 (by norm_num) (by norm_num) (by norm_num) (by norm_num) (by norm_num) (by norm_num) (by norm_num) (by norm_num)
  have hs14 := sin_double_interval _ (108974638090507655543459/10^24 : ℝ) (108974638174468076437201/10^24 : ℝ) (217949276181015311086918/10^24 : ℝ) (217949276348936152874402/10^24 : ℝ) hp13 (by norm_num) (by norm_num)
  have hq15 := mul_interval _ _ _ _ _ _ (987980048990642001651882/10^24 : ℝ) (98798004905413630548559/10^23 : ℝ) hc12 hc12 (by norm_num) (by norm_num) (by norm_num) (by norm_num) (by norm_num) (by norm_num) (by norm_num) (by norm_num)
  have hc16 := cos_double_interval _ (987980048990642001651882/10^24 : ℝ) (98798004905413630548559/10^23 : ℝ) (975960097981284003303764/10^24 : ℝ) (97596009810827261097118/10^23 : ℝ) hq15 (by norm_num) (by norm_num)
  have ha17 : 2*(2*(2*((21971273844821029/10^17 : ℝ)/8))) = (21971273844821029/10^17 : ℝ) := by norm_num
  rw [ha17] at hs14 hc16
  have hsx18 := sin_lipschitz_interval ((kepler_step (0.8:ℝ) (Real.pi / 4 - (0.8:ℝ) * Real.sin (Real.pi / 4)))^[0] (Real.pi / 4 - (0.8:ℝ) * Real.sin (Real.pi / 4))) _ _ _ (976/10^22 : ℝ) _ _ (217949276181015310989318/10^24 : ℝ) (217949276348936152972002/10^24 : ℝ) hx0 (by norm_num) (by norm_num) hs14 (by norm_num) (by norm_num)
  have hes19 := scale_interval (0.8:ℝ) _ _ _ (174359420944812248791454/10^24 : ℝ) (174359421079148922377602/10^24 : ℝ) (by norm_num) hsx18 (by norm_num) (by norm_num)
  have hf20 := kepler_residual_interval (0.8:ℝ) (Real.pi / 4 - (0.8:ℝ) * Real.sin (Real.pi / 4)) ((kepler_step (0.8:ℝ) (Real.pi / 4 - (0.8:ℝ) * Real.sin (Real.pi / 4)))^[0] (Real.pi / 4 - (0.8:ℝ) * Real.sin (Real.pi / 4))) _ _ _ _ _ _ (-174359421079148922384202/10^24 : ℝ) (-174359420944812248784854/10^24 : ℝ) hx0 hM hes19 (by norm_num) (by norm_num)
  have hcx21 := cos_lipschitz_interval ((kepler_step (0.8:ℝ) (Real.pi / 4 - (0.8:ℝ) * Real.sin (Real.pi / 4)))^[0] (Real.pi / 4 - (0.8:ℝ) * Real.sin (Real.pi / 4))) _ _ _ (976/10^22 : ℝ) _ _ (975960097981284003206164/10^24 : ℝ) (97596009810827261106878/10^23 : ℝ) hx0 (by norm_num) (by norm_num) hc16 (by norm_num) (by norm_num)
  have hec22 := scale_interval (0.8:ℝ) _ _ _ (780768078385027202564931/10^24 : ℝ) (780768078486618088855024/10^24 : ℝ) (by norm_num) hcx21 (by norm_num) (by norm_num)
  have hw23 := one_sub_interval _ _ _ (219231921513381911144976/10^24 : ℝ) (219231921614972797435069/10^24 : ℝ) hec22 (by norm_num) (by norm_num)
  have hqd24 := div_interval _ _ _ _ _ _ (-795319494877966608397755/10^24 : ℝ) (-795319493896659304319931/10^24 : ℝ) hf20 hw23 (by norm_num) (by norm_num) (by norm_num) (by norm_num) (by norm_num)
  have hstep25 := kepler_step_interval (0.8:ℝ) (Real.pi / 4 - (0.8:ℝ) * Real.sin (Real.pi / 4)) ((kepler_step (0.8:ℝ) (Real.pi / 4 - (0.8:ℝ) * Real.sin (Real.pi / 4)))^[0] (Real.pi / 4 - (0.8:ℝ) * Real.sin (Real.pi / 4))) _ _ _ _ (1015032232344869594/10^18 : ℝ) (1015032233326176899/10^18 : ℝ) hx0 hqd24 (by norm_num) (by norm_num)
  have hx26 : (1015032232344869594/10^18 : ℝ) ≤ ((kepler_step (0.8:ℝ) (Real.pi / 4 - (0.8:ℝ) * Real.sin (Real.pi / 4)))^[1] (Real.pi / 4 - (0.8:ℝ) * Real.sin (Real.pi / 4))) ∧ ((kepler_step (0.8:ℝ) (Real.pi / 4 - (0.8:ℝ) * Real.sin (Real.pi / 4)))^[1] (Real.pi / 4 - (0.8:ℝ) * Real.sin (Real.pi / 4))) ≤ (1015032233326176899/10^18 : ℝ) := by
    rw [Function.iterate_succ_apply']
    exact hstep25
  have ts27 := sin_taylor ((1015032232835523246/10^18 : ℝ)/8) (by rw [abs_of_nonneg (by norm_num)]; norm_num)
  have tc28 := cos_taylor ((1015032232835523246/10^18 : ℝ)/8) (by rw [abs_of_nonneg (by norm_num)]; norm_num)
  have hs29 := interval_of_abs _ _ _ (126538880474590405716174/10^24 : ℝ) (126538880494590405716175/10^24 : ℝ) ts27 (by norm_num) (by norm_num)
  have hc30 := interval_of_abs _ _ _ (991961648312938871793151/10^24 : ℝ) (991961648314938871793152/10^24 : ℝ) tc28 (by norm_num) (by norm_num)
  have hp31 := mul_interval _ _ _ _ _ _ (125521716451248655472891/10^24 : ℝ) (125521716471340966200141/10^24 : ℝ) hs29 hc30 (by norm_num) (by norm_num) (by norm_num) (by norm_num) (by norm_num) (by norm_num) (by norm_num) (by norm_num)
  have hs32 := sin_double_interval _ (125521716451248655472891/10^24 : ℝ) (125521716471340966200141/10^24 : ℝ) (251043432902497310945782/10^24 : ℝ) (251043432942681932400282/10^24 : ℝ) hp31 (by norm_num) (by norm_num)
  have hq33 := mul_interval _ _ _ _ _ _ (98398791172372262207232/10^23 : ℝ) (983987911727690468665579/10^24 : ℝ) hc30 hc30 (by norm_num) (by norm_num) (by norm_num) (by norm_num) (by norm_num) (by norm_num) (by norm_num) (by norm_num)
  have hc34 := cos_double_interval _ (98398791172372262207232/10^23 : ℝ) (983987911727690468665579/10^24 : ℝ) (96797582344744524414464/10^23 : ℝ) (967975823455380937331158/10^24 : ℝ) hq33 (by norm_num) (by norm_num)
  have hp35 := mul_interval _ _ _ _ _ _ (243003973684868303443996/10^24 : ℝ) (243003973725758249146664/10^24 : ℝ) hs32 hc34 (by norm_num) (by norm_num) (by norm_num) (by norm_num) (by norm_num) (by norm_num) (by norm_num) (by norm_num)
  have hs36 := sin_double_interval _ (243003973684868303443996/10^24 : ℝ) (243003973725758249146664/10^24 : ℝ) (486007947369736606887992/10^24 : ℝ) (486007947451516498293328/10^24 : ℝ) hp35 (by norm_num) (by norm_num)
  have hq37 := mul_interval _ _ _ _ _ _ (936977194778759686096894/10^24 : ℝ) (93697719479412280439065/10^23 : ℝ) hc34 hc34 (by norm_num) (by norm_num) (by norm_num) (by norm_num) (by norm_num) (by norm_num) (by norm_num) (by norm_num)
  have hc38 := cos_double_interval _ (936977194778759686096894/10^24 : ℝ) (93697719479412280439065/10^23 : ℝ) (873954389557519372193788/10^24 : ℝ) (8739543895882456087813/10^22 : ℝ) hq37 (by norm_num) (by norm_num)
  have hp39 := mul_interval _ _ _ _ _ _ (424748778963621159062495/10^24 : ℝ) (424748779050026249310533/10^24 : ℝ) hs36 hc38 (by norm_num) (by norm_num) (by norm_num) (by norm_num) (by norm_num) (by norm_num) (by norm_num) (by norm_num)
  have hs40 := sin_double_interval _ (424748778963621159062495/10^24 : ℝ) (424748779050026249310533/10^24 : ℝ) (84949755792724231812499/10^23 : ℝ) (849497558100052498621066/10^24 : ℝ) hp39 (by norm_num) (by norm_num)
  have hq41 := mul_interval _ _ _ _ _ _ (763796275026856325873399/10^24 : ℝ) (763796275080562984554822/10^24 : ℝ) hc38 hc38 (by norm_num) (by norm_num) (by norm_num) (by norm_num) (by norm_num) (by norm_num) (by norm_num) (by norm_num)
  have hc42 := cos_double_interval _ (763796275026856325873399/10^24 : ℝ) (763796275080562984554822/10^24 : ℝ) (527592550053712651746798/10^24 : ℝ) (527592550161125969109644/10^24 : ℝ) hq41 (by norm_num) (by norm_num)
  have ha43 : 2*(2*(2*((1015032232835523246/10^18 : ℝ)/8))) = (1015032232835523246/10^18 : ℝ) := by norm_num
  rw [ha43] at hs40 hc42
  have hsx44 := sin_lipschitz_interval ((kepler_step (0.8:ℝ) (Real.pi / 4 - (0.8:ℝ) * Real.sin (Real.pi / 4)))^[1] (Real.pi / 4 - (0.8:ℝ) * Real.sin (Real.pi / 4))) _ _ _ (490653653/10^18 : ℝ) _ _ (84949755743658866512499/10^23 : ℝ) (849497558590706151621066/10^24 : ℝ) hx26 (by norm_num) (by norm_num) hs40 (by norm_num) (by norm_num)
  have hes45 := scale_interval (0.8:ℝ) _ _ _ (679598045949270932099992/10^24 : ℝ) (679598046872564921296853/10^24 : ℝ) (by norm_num) hsx44 (by norm_num) (by norm_num)
  have hf46 := kepler_residual_interval (0.8:ℝ) (Real.pi / 4 - (0.8:ℝ) * Real.sin (Real.pi / 4)) ((kepler_step (0.8:ℝ) (Real.pi / 4 - (0.8:ℝ) * Real.sin (Real.pi / 4)))^[1] (Real.pi / 4 - (0.8:ℝ) * Real.sin (Real.pi / 4))) _ _ _ _ _ _ (115721447024094382605547/10^24 : ℝ) (115721448928695676809008/10^24 : ℝ) hx26 hM hes45 (by norm_num) (by norm_num)
  have hcx47 := cos_lipschitz_interval ((kepler_step (0.8:ℝ) (Real.pi / 4 - (0.8:ℝ) * Real.sin (Real.pi / 4)))^[1] (Real.pi / 4 - (0.8:ℝ) * Real.sin (Real.pi / 4))) _ _ _ (490653653/10^18 : ℝ) _ _ (527592549563058998746798/10^24 : ℝ) (527592550651779622109644/10^24 : ℝ) hx26 (by norm_num) (by norm_num) hc42 (by norm_num) (by norm_num)
  have hec48 := scale_interval (0.8:ℝ) _ _ _ (422074039650447198997438/10^24 : ℝ) (422074040521423697687716/10^24 : ℝ) (by norm_num) hcx47 (by norm_num) (by norm_num)
  have hw49 := one_sub_interval _ _ _ (577925959478576302312284/10^24 : ℝ) (577925960349552801002562/10^24 : ℝ) hec48 (by norm_num) (by norm_num)
  have hqd50 := div_interval _ _ _ _ _ _ (200235765415523832747812/10^24 : ℝ) (200235769012873815007452/10^24 : ℝ) hf46 hw49 (by norm_num) (by norm_num) (by norm_num) (by norm_num) (by norm_num)
  have hstep51 := kepler_step_interval (0.8:ℝ) (Real.pi / 4 - (0.8:ℝ) * Real.sin (Real.pi / 4)) ((kepler_step (0.8:ℝ) (Real.pi / 4 - (0.8:ℝ) * Real.sin (Real.pi / 4)))^[1] (Real.pi / 4 - (0.8:ℝ) * Real.sin (Real.pi / 4))) _ _ _ _ (814796463331995778/10^18 : ℝ) (814796467910653067/10^18 : ℝ) hx26 hqd50 (by norm_num) (by norm_num)
  have hx52 : (814796463331995778/10^18 : ℝ) ≤ ((kepler_step (0.8:ℝ) (Real.pi / 4 - (0.8:ℝ) * Real.sin (Real.pi / 4)))^[2] (Real.pi / 4 - (0.8:ℝ) * Real.sin (Real.pi / 4))) ∧ ((kepler_step (0.8:ℝ) (Real.pi / 4 - (0.8:ℝ) * Real.sin (Real.pi / 4)))^[2] (Real.pi / 4 - (0.8:ℝ) * Real.sin (Real.pi / 4))) ≤ (814796467910653067/10^18 : ℝ) := by
    rw [Function.iterate_succ_apply']
    exact hstep51
  have ts53 := sin_taylor ((814796465621324422/10^18 : ℝ)/8) (by rw [abs_of_nonneg (by norm_num)]; norm_num)
  have tc54 := cos_taylor ((814796465621324422/10^18 : ℝ)/8) (by rw [abs_of_nonneg (by norm_num)]; norm_num)
  have hs55 := interval_of_abs _ _ _ (101673562944858942804905/10^24 : ℝ) (101673562964858942804906/10^24 : ℝ) ts53 (by norm_num) (by norm_num)
  have hc56 := interval_of_abs _ _ _ (994817815780394385077736/10^24 : ℝ) (994817815782394385077737/10^24 : ℝ) tc54 (by norm_num) (by norm_num)
  have hp57 := mul_interval _ _ _ _ _ _ (101146671811415016597401/10^24 : ℝ) (10114667183151472003894/10^23 : ℝ) hs55 hc56 (by norm_num) (by norm_num) (by norm_num) (by norm_num) (by norm_num) (by norm_num) (by norm_num) (by norm_num)
  have hs58 := sin_double_interval _ (101146671811415016597401/10^24 : ℝ) (10114667183151472003894/10^23 : ℝ) (202293343622830033194802/10^24 : ℝ) (20229334366302944007788/10^23 : ℝ) hp57 (by norm_num) (by norm_num)
  have hq59 := mul_interval _ _ _ _ _ _ (989662486594074699611619/10^24 : ℝ) (989662486598053970874747/10^24 : ℝ) hc56 hc56 (by norm_num) (by norm_num) (by norm_num) (by norm_num) (by norm_num) (by norm_num) (by norm_num) (by norm_num)
  have hc60 := cos_double_interval _ (989662486594074699611619/10^24 : ℝ) (989662486598053970874747/10^24 : ℝ) (979324973188149399223238/10^24 : ℝ) (979324973196107941749494/10^24 : ℝ) hq59 (by norm_num) (by norm_num)
  have hp61 := mul_interval _ _ _ _ _ _ (198110923319569115511584/10^24 : ℝ) (198110923360547358757855/10^24 : ℝ) hs58 hc60 (by norm_num) (by norm_num) (by norm_num) (by norm_num) (by norm_num) (by norm_num) (by norm_num) (by norm_num)
  have hs62 := sin_double_interval _ (198110923319569115511584/10^24 : ℝ) (198110923360547358757855/10^24 : ℝ) (396221846639138231023168/10^24 : ℝ) (39622184672109471751571/10^23 : ℝ) hp61 (by norm_num) (by norm_num)
  have hq63 := mul_interval _ _ _ _ _ _ (959077403109969539663927/10^24 : ℝ) (959077403125557538556276/10^24 : ℝ) hc60 hc60 (by norm_num) (by norm_num) (by norm_num) (by norm_num) (by norm_num) (by norm_num) (by norm_num) (by norm_num)
  have hc64 := cos_double_interval _ (959077403109969539663927/10^24 : ℝ) (959077403125557538556276/10^24 : ℝ) (918154806219939079327854/10^24 : ℝ) (918154806251115077112552/10^24 : ℝ) hq63 (by norm_num) (by norm_num)
  have hp65 := mul_interval _ _ _ _ _ _ (363792992821064382671654/10^24 : ℝ) (363792992908665736061307/10^24 : ℝ) hs62 hc64 (by norm_num) (by norm_num) (by norm_num) (by norm_num) (by norm_num) (by norm_num) (by norm_num) (by norm_num)
  have hs66 := sin_double_interval _ (363792992821064382671654/10^24 : ℝ) (363792992908665736061307/10^24 : ℝ) (727585985642128765343308/10^24 : ℝ) (727585985817331472122614/10^24 : ℝ) hp65 (by norm_num) (by norm_num)
  have hq67 := mul_interval _ _ _ _ _ _ (843008248184773881472541/10^24 : ℝ) (84300824824202266588296/10^23 : ℝ) hc64 hc64 (by norm_num) (by norm_num) (by norm_num) (by norm_num) (by norm_num) (by norm_num) (by norm_num) (by norm_num)
  have hc68 := cos_double_interval _ (843008248184773881472541/10^24 : ℝ) (84300824824202266588296/10^23 : ℝ) (686016496369547762945082/10^24 : ℝ) (68601649648404533176592/10^23 : ℝ) hq67 (by norm_num) (by norm_num)
  have ha69 : 2*(2*(2*((814796465621324422/10^18 : ℝ)/8))) = (814796465621324422/10^18 : ℝ) := by norm_num
  rw [ha69] at hs66 hc68
  have hsx70 := sin_lipschitz_interval ((kepler_step (0.8:ℝ) (Real.pi / 4 - (0.8:ℝ) * Real.sin (Real.pi / 4)))^[2] (Real.pi / 4 - (0.8:ℝ) * Real.sin (Real.pi / 4))) _ _ _ (2289328645/10^18 : ℝ) _ _ (727585983352800120343308/10^24 : ℝ) (727585988106660117122614/10^24 : ℝ) hx52 (by norm_num) (by norm_num) hs66 (by norm_num) (by norm_num)
  have hes71 := scale_interval (0.8:ℝ) _ _ _ (582068786682240096274646/10^24 : ℝ) (582068790485328093698092/10^24 : ℝ) (by norm_num) hsx70 (by norm_num) (by norm_num)
  have hf72 := kepler_residual_interval (0.8:ℝ) (Real.pi / 4 - (0.8:ℝ) * Real.sin (Real.pi / 4)) ((kepler_step (0.8:ℝ) (Real.pi / 4 - (0.8:ℝ) * Real.sin (Real.pi / 4)))^[2] (Real.pi / 4 - (0.8:ℝ) * Real.sin (Real.pi / 4))) _ _ _ _ _ _ (13014934398457394204308/10^24 : ℝ) (13014942780202680634354/10^24 : ℝ) hx52 hM hes71 (by norm_num) (by norm_num)
  have hcx73 := cos_lipschitz_interval ((kepler_step (0.8:ℝ) (Real.pi / 4 - (0.8:ℝ) * Real.sin (Real.pi / 4)))^[2] (Real.pi / 4 - (0.8:ℝ) * Real.sin (Real.pi / 4))) _ _ _ (2289328645/10^18 : ℝ) _ _ (686016494080219117945082/10^24 : ℝ) (68601649877337397676592/10^23 : ℝ) hx52 (by norm_num) (by norm_num) hc68 (by norm_num) (by norm_num)
  have hec74 := scale_interval (0.8:ℝ) _ _ _ (548813195264175294356065/10^24 : ℝ) (548813199018699181412736/10^24 : ℝ) (by norm_num) hcx73 (by norm_num) (by norm_num)
  have hw75 := one_sub_interval _ _ _ (451186800981300818587264/10^24 : ℝ) (451186804735824705643935/10^24 : ℝ) hec74 (by norm_num) (by norm_num)
  have hqd76 := div_interval _ _ _ _ _ _ (28845999621105485665097/10^24 : ℝ) (28846018438252313959349/10^24 : ℝ) hf72 hw75 (by norm_num) (by norm_num) (by norm_num) (by norm_num) (by norm_num)
  have hstep77 := kepler_step_interval (0.8:ℝ) (Real.pi / 4 - (0.8:ℝ) * Real.sin (Real.pi / 4)) ((kepler_step (0.8:ℝ) (Real.pi / 4 - (0.8:ℝ) * Real.sin (Real.pi / 4)))^[2] (Real.pi / 4 - (0.8:ℝ) * Real.sin (Real.pi / 4))) _ _ _ _ (785950444893743464/10^18 : ℝ) (785950468289547582/10^18 : ℝ) hx52 hqd76 (by norm_num) (by norm_num)
  have hx78 : (785950444893743464/10^18 : ℝ) ≤ ((kepler_step (0.8:ℝ) (Real.pi / 4 - (0.8:ℝ) * Real.sin (Real.pi / 4)))^[3] (Real.pi / 4 - (0.8:ℝ) * Real.sin (Real.pi / 4))) ∧ ((kepler_step (0.8:ℝ) (Real.pi / 4 - (0.8:ℝ) * Real.sin (Real.pi / 4)))^[3] (Real.pi / 4 - (0.8:ℝ) * Real.sin (Real.pi / 4))) ≤ (785950468289547582/10^18 : ℝ) := by
    rw [Function.iterate_succ_apply']
    exact hstep77
  have ts79 := sin_taylor ((785950456591645523/10^18 : ℝ)/8) (by rw [abs_of_nonneg (by norm_num)]; norm_num)
  have tc80 := cos_taylor ((785950456591645523/10^18 : ℝ)/8) (by rw [abs_of_nonneg (by norm_num)]; norm_num)
  have hs81 := interval_of_abs _ _ _ (98085844304867051784457/10^24 : ℝ) (98085844324867051784458/10^24 : ℝ) ts79 (by norm_num) (by norm_num)
  have hc82 := interval_of_abs _ _ _ (995177957524707892854959/10^24 : ℝ) (99517795752670789285496/10^23 : ℝ) tc80 (by norm_num) (by norm_num)
  have hp83 := mul_interval _ _ _ _ _ _ (97612870197404094435575/10^24 : ℝ) (97612870217503825274721/10^24 : ℝ) hs81 hc82 (by norm_num) (by norm_num) (by norm_num) (by norm_num) (by norm_num) (by norm_num) (by norm_num) (by norm_num)
  have hs84 := sin_double_interval _ (97612870197404094435575/10^24 : ℝ) (97612870217503825274721/10^24 : ℝ) (19522574039480818887115/10^23 : ℝ) (195225740435007650549442/10^24 : ℝ) hp83 (by norm_num) (by norm_num)
  have hq85 := mul_interval _ _ _ _ _ _ (990379167143049306941664/10^24 : ℝ) (99037916714703001877177/10^23 : ℝ) hc82 hc82 (by norm_num) (by norm_num) (by norm_num) (by norm_num) (by norm_num) (by norm_num) (by norm_num) (by norm_num)
  have hc86 := cos_double_interval _ (990379167143049306941664/10^24 : ℝ) (99037916714703001877177/10^23 : ℝ) (980758334286098613883328/10^24 : ℝ) (98075833429406003754354/10^23 : ℝ) hq85 (by norm_num) (by norm_num)
  have hp87 := mul_interval _ _ _ _ _ _ (191469271959382395288127/10^24 : ℝ) (191469272000362627191909/10^24 : ℝ) hs84 hc86 (by norm_num) (by norm_num) (by norm_num) (by norm_num) (by norm_num) (by norm_num) (by norm_num) (by norm_num)
  have hs88 := sin_double_interval _ (191469271959382395288127/10^24 : ℝ) (191469272000362627191909/10^24 : ℝ) (382938543918764790576254/10^24 : ℝ) (382938544000725254383818/10^24 : ℝ) hp87 (by norm_num) (by norm_num)
  have hq89 := mul_interval _ _ _ _ _ _ (961886910271642755905696/10^24 : ℝ) (961886910287259221120831/10^24 : ℝ) hc86 hc86 (by norm_num) (by norm_num) (by norm_num) (by norm_num) (by norm_num) (by norm_num) (by norm_num) (by norm_num)
  have hc90 := cos_double_interval _ (961886910271642755905696/10^24 : ℝ) (961886910287259221120831/10^24 : ℝ) (923773820543285511811392/10^24 : ℝ) (923773820574518442241662/10^24 : ℝ) hq89 (by norm_num) (by norm_num)
  have hp91 := mul_interval _ _ _ _ _ _ (353748601749120083097341/10^24 : ℝ) (353748601836793306786199/10^24 : ℝ) hs88 hc90 (by norm_num) (by norm_num) (by norm_num) (by norm_num) (by norm_num) (by norm_num) (by norm_num) (by norm_num)
  have hs92 := sin_double_interval _ (353748601749120083097341/10^24 : ℝ) (353748601836793306786199/10^24 : ℝ) (707497203498240166194682/10^24 : ℝ) (707497203673586613572398/10^24 : ℝ) hp91 (by norm_num) (by norm_num)
  have hq93 := mul_interval _ _ _ _ _ _ (853358071521138265488488/10^24 : ℝ) (853358071578842592430131/10^24 : ℝ) hc90 hc90 (by norm_num) (by norm_num) (by norm_num) (by norm_num) (by norm_num) (by norm_num) (by norm_num) (by norm_num)
  have hc94 := cos_double_interval _ (853358071521138265488488/10^24 : ℝ) (853358071578842592430131/10^24 : ℝ) (706716143042276530976976/10^24 : ℝ) (706716143157685184860262/10^24 : ℝ) hq93 (by norm_num) (by norm_num)
  have ha95 : 2*(2*(2*((785950456591645523/10^18 : ℝ)/8))) = (785950456591645523/10^18 : ℝ) := by norm_num
  rw [ha95] at hs92 hc94
  have hsx96 := sin_lipschitz_interval ((kepler_step (0.8:ℝ) (Real.pi / 4 - (0.8:ℝ) * Real.sin (Real.pi / 4)))^[3] (Real.pi / 4 - (0.8:ℝ) * Real.sin (Real.pi / 4))) _ _ _ (11697902059/10^18 : ℝ) _ _ (707497191800338107194682/10^24 : ℝ) (707497215371488672572398/10^24 : ℝ) hx78 (by norm_num) (by norm_num) hs92 (by norm_num) (by norm_num)
  have hes97 := scale_interval (0.8:ℝ) _ _ _ (565997753440270485755745/10^24 : ℝ) (565997772297190938057919/10^24 : ℝ) (by norm_num) hsx96 (by norm_num) (by norm_num)
  have hf98 := kepler_residual_interval (0.8:ℝ) (Real.pi / 4 - (0.8:ℝ) * Real.sin (Real.pi / 4)) ((kepler_step (0.8:ℝ) (Real.pi / 4 - (0.8:ℝ) * Real.sin (Real.pi / 4)))^[3] (Real.pi / 4 - (0.8:ℝ) * Real.sin (Real.pi / 4))) _ _ _ _ _ _ (239934148342235844481/10^24 : ℝ) (239976401066806153255/10^24 : ℝ) hx78 hM hes97 (by norm_num) (by norm_num)
  have hcx99 := cos_lipschitz_interval ((kepler_step (0.8:ℝ) (Real.pi / 4 - (0.8:ℝ) * Real.sin (Real.pi / 4)))^[3] (Real.pi / 4 - (0.8:ℝ) * Real.sin (Real.pi / 4))) _ _ _ (11697902059/10^18 : ℝ) _ _ (706716131344374471976976/10^24 : ℝ) (706716154855587243860262/10^24 : ℝ) hx78 (by norm_num) (by norm_num) hc94 (by norm_num) (by norm_num)
  have hec100 := scale_interval (0.8:ℝ) _ _ _ (56537290507549957758158/10^23 : ℝ) (56537292388446979508821/10^23 : ℝ) (by norm_num) hcx99 (by norm_num) (by norm_num)
  have hw101 := one_sub_interval _ _ _ (43462707611553020491179/10^23 : ℝ) (43462709492450042241842/10^23 : ℝ) hec100 (by norm_num) (by norm_num)
  have hqd102 := div_interval _ _ _ _ _ _ (552045997923611007569/10^24 : ℝ) (552143237857130032656/10^24 : ℝ) hf98 hw101 (by norm_num) (by norm_num) (by norm_num) (by norm_num) (by norm_num)
  have hstep103 := kepler_step_interval (0.8:ℝ) (Real.pi / 4 - (0.8:ℝ) * Real.sin (Real.pi / 4)) ((kepler_step (0.8:ℝ) (Real.pi / 4 - (0.8:ℝ) * Real.sin (Real.pi / 4)))^[3] (Real.pi / 4 - (0.8:ℝ) * Real.sin (Real.pi / 4))) _ _ _ _ (785398301655886333/10^18 : ℝ) (785398422291623971/10^18 : ℝ) hx78 hqd102 (by norm_num) (by norm_num)
  have hx104 : (785398301655886333/10^18 : ℝ) ≤ ((kepler_step (0.8:ℝ) (Real.pi / 4 - (0.8:ℝ) * Real.sin (Real.pi / 4)))^[4] (Real.pi / 4 - (0.8:ℝ) * Real.sin (Real.pi / 4))) ∧ ((kepler_step (0.8:ℝ) (Real.pi / 4 - (0.8:ℝ) * Real.sin (Real.pi / 4)))^[4] (Real.pi / 4 - (0.8:ℝ) * Real.sin (Real.pi / 4))) ≤ (785398422291623971/10^18 : ℝ) := by
    rw [Function.iterate_succ_apply']
    exact hstep103
  have ts105 := sin_taylor ((785398361973755152/10^18 : ℝ)/8) (by rw [abs_of_nonneg (by norm_num)]; norm_num)
  have tc106 := cos_taylor ((785398361973755152/10^18 : ℝ)/8) (by rw [abs_of_nonneg (by norm_num)]; norm_num)
  have hs107 := interval_of_abs _ _ _ (98017165022074027862424/10^24 : ℝ) (98017165042074027862425/10^24 : ℝ) ts105 (by norm_num) (by norm_num)
  have hc108 := interval_of_abs _ _ _ (995184724238211362924485/10^24 : ℝ) (995184724240211362924486/10^24 : ℝ) tc106 (by norm_num) (by norm_num)
  have hp109 := mul_interval _ _ _ _ _ _ (97545185343103997795737/10^24 : ℝ) (97545185363203726610587/10^24 : ℝ) hs107 hc108 (by norm_num) (by norm_num) (by norm_num) (by norm_num) (by norm_num) (by norm_num) (by norm_num) (by norm_num)
  have hs110 := sin_double_interval _ (97545185343103997795737/10^24 : ℝ) (97545185363203726610587/10^24 : ℝ) (195090370686207995591474/10^24 : ℝ) (195090370726407453221174/10^24 : ℝ) hp109 (by norm_num) (by norm_num)
  have hq111 := mul_interval _ _ _ _ _ _ (990392635357084794988079/10^24 : ℝ) (990392635361065533885039/10^24 : ℝ) hc108 hc108 (by norm_num) (by norm_num) (by norm_num) (by norm_num) (by norm_num) (by norm_num) (by norm_num) (by norm_num)
  have hc112 := cos_double_interval _ (990392635357084794988079/10^24 : ℝ) (990392635361065533885039/10^24 : ℝ) (980785270714169589976158/10^24 : ℝ) (980785270722131067770078/10^24 : ℝ) hq111 (by norm_num) (by norm_num)
  have hp113 := mul_interval _ _ _ _ _ _ (191341762027200204273608/10^24 : ℝ) (191341762068180447861863/10^24 : ℝ) hs110 hc112 (by norm_num) (by norm_num) (by norm_num) (by norm_num) (by norm_num) (by norm_num) (by norm_num) (by norm_num)
  have hs114 := sin_double_interval _ (191341762027200204273608/10^24 : ℝ) (191341762068180447861863/10^24 : ℝ) (382683524054400408547216/10^24 : ℝ) (382683524136360895723726/10^24 : ℝ) hp113 (by norm_num) (by norm_num)
  have hq115 := mul_interval _ _ _ _ _ _ (961939747249866928771149/10^24 : ℝ) (961939747265483929078002/10^24 : ℝ) hc112 hc112 (by norm_num) (by norm_num) (by norm_num) (by norm_num) (by norm_num) (by norm_num) (by norm_num) (by norm_num)
  have hc116 := cos_double_interval _ (961939747249866928771149/10^24 : ℝ) (961939747265483929078002/10^24 : ℝ) (923879494499733857542298/10^24 : ℝ) (923879494530967858156004/10^24 : ℝ) hq115 (by norm_num) (by norm_num)
  have hp117 := mul_interval _ _ _ _ _ _ (353553460756756191615581/10^24 : ℝ) (353553460844430542504898/10^24 : ℝ) hs114 hc116 (by norm_num) (by norm_num) (by norm_num) (by norm_num) (by norm_num) (by norm_num) (by norm_num) (by norm_num)
  have hs118 := sin_double_interval _ (353553460756756191615581/10^24 : ℝ) (353553460844430542504898/10^24 : ℝ) (707106921513512383231162/10^24 : ℝ) (707106921688861085009796/10^24 : ℝ) hp117 (by norm_num) (by norm_num)
  have hq119 := mul_interval _ _ _ _ _ _ (853553320357083763131426/10^24 : ℝ) (853553320414796668528793/10^24 : ℝ) hc116 hc116 (by norm_num) (by norm_num) (by norm_num) (by norm_num) (by norm_num) (by norm_num) (by norm_num) (by norm_num)
  have hc120 := cos_double_interval _ (853553320357083763131426/10^24 : ℝ) (853553320414796668528793/10^24 : ℝ) (707106640714167526262852/10^24 : ℝ) (707106640829593337057586/10^24 : ℝ) hq119 (by norm_num) (by norm_num)
  have ha121 : 2*(2*(2*((785398361973755152/10^18 : ℝ)/8))) = (785398361973755152/10^18 : ℝ) := by norm_num
  rw [ha121] at hs118 hc120
  have hsx122 := sin_lipschitz_interval ((kepler_step (0.8:ℝ) (Real.pi / 4 - (0.8:ℝ) * Real.sin (Real.pi / 4)))^[4] (Real.pi / 4 - (0.8:ℝ) * Real.sin (Real.pi / 4))) _ _ _ (60317868819/10^18 : ℝ) _ _ (707106861195643564231162/10^24 : ℝ) (707106982006729904009796/10^24 : ℝ) hx104 (by norm_num) (by norm_num) hs118 (by norm_num) (by norm_num)
  have hes123 := scale_interval (0.8:ℝ) _ _ _ (565685488956514851384929/10^24 : ℝ) (565685585605383923207837/10^24 : ℝ) (by norm_num) hsx122 (by norm_num) (by norm_num)
  have hf124 := kepler_residual_interval (0.8:ℝ) (Real.pi / 4 - (0.8:ℝ) * Real.sin (Real.pi / 4)) ((kepler_step (0.8:ℝ) (Real.pi / 4 - (0.8:ℝ) * Real.sin (Real.pi / 4)))^[4] (Real.pi / 4 - (0.8:ℝ) * Real.sin (Real.pi / 4))) _ _ _ _ _ _ (-22397707880305437/10^24 : ℝ) (194886898829524071/10^24 : ℝ) hx104 hM hes123 (by norm_num) (by norm_num)
  exact abs_lt_of_interval _ _ _ _ hf124 (by norm_num) (by norm_num)

set_option maxHeartbeats 3200000 in
lemma kepler_stop_e08_pi2 :
    |kepler_residual (0.8:ℝ) (Real.pi / 2 - (0.8:ℝ) * Real.sin (Real.pi / 2)) ((kepler_step (0.8:ℝ) (Real.pi / 2 - (0.8:ℝ) * Real.sin (Real.pi / 2)))^[5] (Real.pi / 2 - (0.8:ℝ) * Real.sin (Real.pi / 2)))| < 1/1000000 := by
  have hM : (77079632679489661923/10^20 : ℝ) ≤ (Real.pi / 2 - (0.8:ℝ) * Real.sin (Real.pi / 2)) ∧ (Real.pi / 2 - (0.8:ℝ) * Real.sin (Real.pi / 2)) ≤ (770796326794896619235/10^21 : ℝ) := by
    rw [Real.sin_pi_div_two]
    constructor
    · linarith [Real.pi_gt_d20]
    · linarith [Real.pi_lt_d20]
  have hx0 : (77079632679489661923/10^20 : ℝ) ≤ ((kepler_step (0.8:ℝ) (Real.pi / 2 - (0.8:ℝ) * Real.sin (Real.pi / 2)))^[0] (Real.pi / 2 - (0.8:ℝ) * Real.sin (Real.pi / 2))) ∧ ((kepler_step (0.8:ℝ) (Real.pi / 2 - (0.8:ℝ) * Real.sin (Real.pi / 2)))^[0] (Real.pi / 2 - (0.8:ℝ) * Real.sin (Real.pi / 2))) ≤ (770796326794896619235/10^21 : ℝ) := by
    simpa using hM
  have ts1 := sin_taylor ((770796326794896619/10^18 : ℝ)/8) (by rw [abs_of_nonneg (by norm_num)]; norm_num)
  have tc2 := cos_taylor ((770796326794896619/10^18 : ℝ)/8) (by rw [abs_of_nonneg (by norm_num)]; norm_num)
  have hs3 := interval_of_abs _ _ _ (96200537461907075986428/10^24 : ℝ) (96200537481907075986429/10^24 : ℝ) ts1 (by norm_num) (by norm_num)
  have hc4 := interval_of_abs _ _ _ (995361972645190759893603/10^24 : ℝ) (995361972647190759893604/10^24 : ℝ) tc2 (by norm_num) (by norm_num)
  have hp5 := mul_interval _ _ _ _ _ _ (95754356737611399901825/10^24 : ℝ) (95754356757711040429695/10^24 : ℝ) hs3 hc4 (by norm_num) (by norm_num) (by norm_num) (by norm_num) (by norm_num) (by norm_num) (by norm_num) (by norm_num)
  have hs6 := sin_double_interval _ (95754356737611399901825/10^24 : ℝ) (95754356757711040429695/10^24 : ℝ) (19150871347522279980365/10^23 : ℝ) (19150871351542208085939/10^23 : ℝ) hp5 (by norm_num) (by norm_num)
  have hq7 := mul_interval _ _ _ _ _ _ (990745456588125478584021/10^24 : ℝ) (990745456592106926474609/10^24 : ℝ) hc4 hc4 (by norm_num) (by norm_num) (by norm_num) (by norm_num) (by norm_num) (by norm_num) (by norm_num) (by norm_num)
  have hc8 := cos_double_interval _ (990745456588125478584021/10^24 : ℝ) (990745456592106926474609/10^24 : ℝ) (981490913176250957168042/10^24 : ℝ) (981490913184213852949218/10^24 : ℝ) hq7 (by norm_num) (by norm_num)
  have hp9 := mul_interval _ _ _ _ _ _ (187964062070005422713728/10^24 : ℝ) (187964062110985615713067/10^24 : ℝ) hs6 hc8 (by norm_num) (by norm_num) (by norm_num) (by norm_num) (by norm_num) (by norm_num) (by norm_num) (by norm_num)
  have hs10 := sin_double_interval _ (187964062070005422713728/10^24 : ℝ) (187964062110985615713067/10^24 : ℝ) (375928124140010845427456/10^24 : ℝ) (375928124221971231426134/10^24 : ℝ) hp9 (by norm_num) (by norm_num)
  have hq11 := mul_interval _ _ _ _ _ _ (963324412647550994767035/10^24 : ℝ) (963324412663182014470687/10^24 : ℝ) hc8 hc8 (by norm_num) (by norm_num) (by norm_num) (by norm_num) (by norm_num) (by norm_num) (by norm_num) (by norm_num)
  have hc12 := cos_double_interval _ (963324412647550994767035/10^24 : ℝ) (963324412663182014470687/10^24 : ℝ) (92664882529510198953407/10^23 : ℝ) (926648825326364028941374/10^24 : ℝ) hq11 (by norm_num) (by norm_num)
  have hp13 := mul_interval _ _ _ _ _ _ (348353354629732322758136/10^24 : ℝ) (348353354717433097998287/10^24 : ℝ) hs10 hc12 (by norm_num) (by norm_num) (by norm_num) (by norm_num) (by norm_num) (by norm_num) (by norm_num) (by norm_num)
  have hs14 := sin_double_interval _ (348353354629732322758136/10^24 : ℝ) (348353354717433097998287/10^24 : ℝ) (696706709259464645516272/10^24 : ℝ) (696706709434866195996574/10^24 : ℝ) hp13 (by norm_num) (by norm_num)
  have hq15 := mul_interval _ _ _ _ _ _ (858678045420792448800901/10^24 : ℝ) (858678045478730312988094/10^24 : ℝ) hc12 hc12 (by norm_num) (by norm_num) (by norm_num) (by norm_num) (by norm_num) (by norm_num) (by norm_num) (by norm_num)
  have hc16 := cos_double_interval _ (858678045420792448800901/10^24 : ℝ) (858678045478730312988094/10^24 : ℝ) (717356090841584897601802/10^24 : ℝ) (717356090957460625976188/10^24 : ℝ) hq15 (by norm_num) (by norm_num)
  have ha17 : 2*(2*(2*((770796326794896619/10^18 : ℝ)/8))) = (770796326794896619/10^18 : ℝ) := by norm_num
  rw [ha17] at hs14 hc16
  have hsx18 := sin_lipschitz_interval ((kepler_step (0.8:ℝ) (Real.pi / 2 - (0.8:ℝ) * Real.sin (Real.pi / 2)))^[0] (Real.pi / 2 - (0.8:ℝ) * Real.sin (Real.pi / 2))) _ _ _ (235/10^21 : ℝ) _ _ (696706709259464645281272/10^24 : ℝ) (696706709434866196231574/10^24 : ℝ) hx0 (by norm_num) (by norm_num) hs14 (by norm_num) (by norm_num)
  have hes19 := scale_interval (0.8:ℝ) _ _ _ (557365367407571716225017/10^24 : ℝ) (55736536754789295698526/10^23 : ℝ) (by norm_num) hsx18 (by norm_num) (by norm_num)
  have hf20 := kepler_residual_interval (0.8:ℝ) (Real.pi / 2 - (0.8:ℝ) * Real.sin (Real.pi / 2)) ((kepler_step (0.8:ℝ) (Real.pi / 2 - (0.8:ℝ) * Real.sin (Real.pi / 2)))^[0] (Real.pi / 2 - (0.8:ℝ) * Real.sin (Real.pi / 2))) _ _ _ _ _ _ (-55736536754789295699026/10^23 : ℝ) (-557365367407571716220017/10^24 : ℝ) hx0 hM hes19 (by norm_num) (by norm_num)
  have hcx21 := cos_lipschitz_interval ((kepler_step (0.8:ℝ) (Real.pi / 2 - (0.8:ℝ) * Real.sin (Real.pi / 2)))^[0] (Real.pi / 2 - (0.8:ℝ) * Real.sin (Real.pi / 2))) _ _ _ (235/10^21 : ℝ) _ _ (717356090841584897366802/10^24 : ℝ) (717356090957460626211188/10^24 : ℝ) hx0 (by norm_num) (by norm_num) hc16 (by norm_num) (by norm_num)
  have hec22 := scale_interval (0.8:ℝ) _ _ _ (573884872673267917893441/10^24 : ℝ) (573884872765968500968951/10^24 : ℝ) (by norm_num) hcx21 (by norm_num) (by norm_num)
  have hw23 := one_sub_interval _ _ _ (426115127234031499031049/10^24 : ℝ) (426115127326732082106559/10^24 : ℝ) hec22 (by norm_num) (by norm_num)
  have hqd24 := div_interval _ _ _ _ _ _ (-1308015913834891930318665/10^24 : ℝ) (-1308015913221031820972638/10^24 : ℝ) hf20 hw23 (by norm_num) (by norm_num) (by norm_num) (by norm_num) (by norm_num)
  have hstep25 := kepler_step_interval (0.8:ℝ) (Real.pi / 2 - (0.8:ℝ) * Real.sin (Real.pi / 2)) ((kepler_step (0.8:ℝ) (Real.pi / 2 - (0.8:ℝ) * Real.sin (Real.pi / 2)))^[0] (Real.pi / 2 - (0.8:ℝ) * Real.sin (Real.pi / 2))) _ _ _ _ (207881224001592844/10^17 : ℝ) (207881224062978855/10^17 : ℝ) hx0 hqd24 (by norm_num) (by norm_num)
  have hx26 : (207881224001592844/10^17 : ℝ) ≤ ((kepler_step (0.8:ℝ) (Real.pi / 2 - (0.8:ℝ) * Real.sin (Real.pi / 2)))^[1] (Real.pi / 2 - (0.8:ℝ) * Real.sin (Real.pi / 2))) ∧ ((kepler_step (0.8:ℝ) (Real.pi / 2 - (0.8:ℝ) * Real.sin (Real.pi / 2)))^[1] (Real.pi / 2 - (0.8:ℝ) * Real.sin (Real.pi / 2))) ≤ (207881224062978855/10^17 : ℝ) := by
    rw [Function.iterate_succ_apply']
    exact hstep25
  have ts27 := sin_taylor ((2078812240322858495/10^18 : ℝ)/8) (by rw [abs_of_nonneg (by norm_num)]; norm_num)
  have tc28 := cos_taylor ((2078812240322858495/10^18 : ℝ)/8) (by rw [abs_of_nonneg (by norm_num)]; norm_num)
  have hs29 := interval_of_abs _ _ _ (256937069168173916529427/10^24 : ℝ) (256937069188173916529428/10^24 : ℝ) ts27 (by norm_num) (by norm_num)
  have hc30 := interval_of_abs _ _ _ (966428136221311291058225/10^24 : ℝ) (966428136223311291058226/10^24 : ℝ) tc28 (by norm_num) (by norm_num)
  have hp31 := mul_interval _ _ _ _ _ _ (248311212882364463173678/10^24 : ℝ) (248311212902206900036483/10^24 : ℝ) hs29 hc30 (by norm_num) (by norm_num) (by norm_num) (by norm_num) (by norm_num) (by norm_num) (by norm_num) (by norm_num)
  have hs32 := sin_double_interval _ (248311212882364463173678/10^24 : ℝ) (248311212902206900036483/10^24 : ℝ) (496622425764728926347356/10^24 : ℝ) (496622425804413800072966/10^24 : ℝ) hp31 (by norm_num) (by norm_num)
  have hq33 := mul_interval _ _ _ _ _ _ (933983342480197413035286/10^24 : ℝ) (933983342484063125580178/10^24 : ℝ) hc30 hc30 (by norm_num) (by norm_num) (by norm_num) (by norm_num) (by norm_num) (by norm_num) (by norm_num) (by norm_num)
  have hc34 := cos_double_interval _ (933983342480197413035286/10^24 : ℝ) (933983342484063125580178/10^24 : ℝ) (867966684960394826070572/10^24 : ℝ) (867966684968126251160356/10^24 : ℝ) hq33 (by norm_num) (by norm_num)
  have hp35 := mul_interval _ _ _ _ _ _ (431051720568001538575657/10^24 : ℝ) (431051720606286285949361/10^24 : ℝ) hs32 hc34 (by norm_num) (by norm_num) (by norm_num) (by norm_num) (by norm_num) (by norm_num) (by norm_num) (by norm_num)
  have hs36 := sin_double_interval _ (431051720568001538575657/10^24 : ℝ) (431051720606286285949361/10^24 : ℝ) (862103441136003077151314/10^24 : ℝ) (862103441212572571898722/10^24 : ℝ) hp35 (by norm_num) (by norm_num)
  have hq37 := mul_interval _ _ _ _ _ _ (75336616620113728195282/10^23 : ℝ) (75336616621455852076328/10^23 : ℝ) hc34 hc34 (by norm_num) (by norm_num) (by norm_num) (by norm_num) (by norm_num) (by norm_num) (by norm_num) (by norm_num)
  have hc38 := cos_double_interval _ (75336616620113728195282/10^23 : ℝ) (75336616621455852076328/10^23 : ℝ) (50673233240227456390564/10^23 : ℝ) (50673233242911704152656/10^23 : ℝ) hq37 (by norm_num) (by norm_num)
  have hp39 := mul_interval _ _ _ _ _ _ (436855687498873854268598/10^24 : ℝ) (436855687560815085260483/10^24 : ℝ) hs36 hc38 (by norm_num) (by norm_num) (by norm_num) (by norm_num) (by norm_num) (by norm_num) (by norm_num) (by norm_num)
  have hs40 := sin_double_interval _ (436855687498873854268598/10^24 : ℝ) (436855687560815085260483/10^24 : ℝ) (873711374997747708537196/10^24 : ℝ) (873711375121630170520966/10^24 : ℝ) hp39 (by norm_num) (by norm_num)
  have hq41 := mul_interval _ _ _ _ _ _ (2567776567018492799062/10^22 : ℝ) (256777656729053182491531/10^24 : ℝ) hc38 hc38 (by norm_num) (by norm_num) (by norm_num) (by norm_num) (by norm_num) (by norm_num) (by norm_num) (by norm_num)
  have hc42 := cos_double_interval _ (2567776567018492799062/10^22 : ℝ) (256777656729053182491531/10^24 : ℝ) (-4864446865963014401876/10^22 : ℝ) (-486444686541893635016938/10^24 : ℝ) hq41 (by norm_num) (by norm_num)
  have ha43 : 2*(2*(2*((2078812240322858495/10^18 : ℝ)/8))) = (2078812240322858495/10^18 : ℝ) := by norm_num
  rw [ha43] at hs40 hc42
  have hsx44 := sin_lipschitz_interval ((kepler_step (0.8:ℝ) (Real.pi / 2 - (0.8:ℝ) * Real.sin (Real.pi / 2)))^[1] (Real.pi / 2 - (0.8:ℝ) * Real.sin (Real.pi / 2))) _ _ _ (306930055/10^18 : ℝ) _ _ (873711374690817653537196/10^24 : ℝ) (873711375428560225520966/10^24 : ℝ) hx26 (by norm_num) (by norm_num) hs40 (by norm_num) (by norm_num)
  have hes45 := scale_interval (0.8:ℝ) _ _ _ (698969099752654122829756/10^24 : ℝ) (698969100342848180416773/10^24 : ℝ) (by norm_num) hsx44 (by norm_num) (by norm_num)
  have hf46 := kepler_residual_interval (0.8:ℝ) (Real.pi / 2 - (0.8:ℝ) * Real.sin (Real.pi / 2)) ((kepler_step (0.8:ℝ) (Real.pi / 2 - (0.8:ℝ) * Real.sin (Real.pi / 2)))^[1] (Real.pi / 2 - (0.8:ℝ) * Real.sin (Real.pi / 2))) _ _ _ _ _ _ (609046812878183640348227/10^24 : ℝ) (609046814082237807940244/10^24 : ℝ) hx26 hM hes45 (by norm_num) (by norm_num)
  have hcx47 := cos_lipschitz_interval ((kepler_step (0.8:ℝ) (Real.pi / 2 - (0.8:ℝ) * Real.sin (Real.pi / 2)))^[1] (Real.pi / 2 - (0.8:ℝ) * Real.sin (Real.pi / 2))) _ _ _ (306930055/10^18 : ℝ) _ _ (-4864446869032314951876/10^22 : ℝ) (-486444686234963580016938/10^24 : ℝ) hx26 (by norm_num) (by norm_num) hc42 (by norm_num) (by norm_num)
  have hec48 := scale_interval (0.8:ℝ) _ _ _ (-38915574952258519615008/10^23 : ℝ) (-38915574898797086401355/10^23 : ℝ) (by norm_num) hcx47 (by norm_num) (by norm_num)
  have hw49 := one_sub_interval _ _ _ (138915574898797086401355/10^23 : ℝ) (138915574952258519615008/10^23 : ℝ) hec48 (by norm_num) (by norm_num)
  have hqd50 := div_interval _ _ _ _ _ _ (438429465585479783431587/10^24 : ℝ) (438429466620961114141201/10^24 : ℝ) hf46 hw49 (by norm_num) (by norm_num) (by norm_num) (by norm_num) (by norm_num)
  have hstep51 := kepler_step_interval (0.8:ℝ) (Real.pi / 2 - (0.8:ℝ) * Real.sin (Real.pi / 2)) ((kepler_step (0.8:ℝ) (Real.pi / 2 - (0.8:ℝ) * Real.sin (Real.pi / 2)))^[1] (Real.pi / 2 - (0.8:ℝ) * Real.sin (Real.pi / 2))) _ _ _ _ (1640382773394967325/10^18 : ℝ) (1640382775044308767/10^18 : ℝ) hx26 hqd50 (by norm_num) (by norm_num)
  have hx52 : (1640382773394967325/10^18 : ℝ) ≤ ((kepler_step (0.8:ℝ) (Real.pi / 2 - (0.8:ℝ) * Real.sin (Real.pi / 2)))^[2] (Real.pi / 2 - (0.8:ℝ) * Real.sin (Real.pi / 2))) ∧ ((kepler_step (0.8:ℝ) (Real.pi / 2 - (0.8:ℝ) * Real.sin (Real.pi / 2)))^[2] (Real.pi / 2 - (0.8:ℝ) * Real.sin (Real.pi / 2))) ≤ (1640382775044308767/10^18 : ℝ) := by
    rw [Function.iterate_succ_apply']
    exact hstep51
  have ts53 := sin_taylor ((1640382774219638046/10^18 : ℝ)/8) (by rw [abs_of_nonneg (by norm_num)]; norm_num)
  have tc54 := cos_taylor ((1640382774219638046/10^18 : ℝ)/8) (by rw [abs_of_nonneg (by norm_num)]; norm_num)
  have hs55 := interval_of_abs _ _ _ (203614004574786457916692/10^24 : ℝ) (203614004594786457916693/10^24 : ℝ) ts53 (by norm_num) (by norm_num)
  have hc56 := interval_of_abs _ _ _ (979051243365222664655904/10^24 : ℝ) (979051243367222664655905/10^24 : ℝ) tc54 (by norm_num) (by norm_num)
  have hp57 := mul_interval _ _ _ _ _ _ (199348544345516817394967/10^24 : ℝ) (199348544365505070271463/10^24 : ℝ) hs55 hc56 (by norm_num) (by norm_num) (by norm_num) (by norm_num) (by norm_num) (by norm_num) (by norm_num) (by norm_num)
  have hs58 := sin_double_interval _ (199348544345516817394967/10^24 : ℝ) (199348544365505070271463/10^24 : ℝ) (398697088691033634789934/10^24 : ℝ) (398697088731010140542926/10^24 : ℝ) hp57 (by norm_num) (by norm_num)
  have hq59 := mul_interval _ _ _ _ _ _ (958541337134988456739657/10^24 : ℝ) (958541337138904661713125/10^24 : ℝ) hc56 hc56 (by norm_num) (by norm_num) (by norm_num) (by norm_num) (by norm_num) (by norm_num) (by norm_num) (by norm_num)
  have hc60 := cos_double_interval _ (958541337134988456739657/10^24 : ℝ) (958541337138904661713125/10^24 : ℝ) (917082674269976913479314/10^24 : ℝ) (91708267427780932342625/10^23 : ℝ) hq59 (by norm_num) (by norm_num)
  have hp61 := mul_interval _ _ _ _ _ _ (365638192320427295035085/10^24 : ℝ) (3656381923602118148826/10^22 : ℝ) hs58 hc60 (by norm_num) (by norm_num) (by norm_num) (by norm_num) (by norm_num) (by norm_num) (by norm_num) (by norm_num)
  have hs62 := sin_double_interval _ (365638192320427295035085/10^24 : ℝ) (3656381923602118148826/10^22 : ℝ) (73127638464085459007017/10^23 : ℝ) (7312763847204236297652/10^22 : ℝ) hp61 (by norm_num) (by norm_num)
  have hq63 := mul_interval _ _ _ _ _ _ (841040631446172575536639/10^24 : ℝ) (841040631460538510456931/10^24 : ℝ) hc60 hc60 (by norm_num) (by norm_num) (by norm_num) (by norm_num) (by norm_num) (by norm_num) (by norm_num) (by norm_num)
  have hc64 := cos_double_interval _ (841040631446172575536639/10^24 : ℝ) (841040631460538510456931/10^24 : ℝ) (682081262892345151073278/10^24 : ℝ) (682081262921077020913862/10^24 : ℝ) hq63 (by norm_num) (by norm_num)
  have hp65 := mul_interval _ _ _ _ _ _ (498789919959182451482218/10^24 : ℝ) (498789920034465940467816/10^24 : ℝ) hs62 hc64 (by norm_num) (by norm_num) (by norm_num) (by norm_num) (by norm_num) (by norm_num) (by norm_num) (by norm_num)
  have hs66 := sin_double_interval _ (498789919959182451482218/10^24 : ℝ) (498789920034465940467816/10^24 : ℝ) (997579839918364902964436/10^24 : ℝ) (997579840068931880935632/10^24 : ℝ) hp65 (by norm_num) (by norm_num)
  have hq67 := mul_interval _ _ _ _ _ _ (465234849188816458363564/10^24 : ℝ) (465234849228011398496638/10^24 : ℝ) hc64 hc64 (by norm_num) (by norm_num) (by norm_num) (by norm_num) (by norm_num) (by norm_num) (by norm_num) (by norm_num)
  have hc68 := cos_double_interval _ (465234849188816458363564/10^24 : ℝ) (465234849228011398496638/10^24 : ℝ) (-69530301622367083272872/10^24 : ℝ) (-69530301543977203006724/10^24 : ℝ) hq67 (by norm_num) (by norm_num)
  have ha69 : 2*(2*(2*((1640382774219638046/10^18 : ℝ)/8))) = (1640382774219638046/10^18 : ℝ) := by norm_num
  rw [ha69] at hs66 hc68
  have hsx70 := sin_lipschitz_interval ((kepler_step (0.8:ℝ) (Real.pi / 2 - (0.8:ℝ) * Real.sin (Real.pi / 2)))^[2] (Real.pi / 2 - (0.8:ℝ) * Real.sin (Real.pi / 2))) _ _ _ (824670721/10^18 : ℝ) _ _ (997579839093694181964436/10^24 : ℝ) (997579840893602601935632/10^24 : ℝ) hx52 (by norm_num) (by norm_num) hs66 (by norm_num) (by norm_num)
  have hes71 := scale_interval (0.8:ℝ) _ _ _ (798063871274955345571548/10^24 : ℝ) (798063872714882081548506/10^24 : ℝ) (by norm_num) hsx70 (by norm_num) (by norm_num)
  have hf72 := kepler_residual_interval (0.8:ℝ) (Real.pi / 2 - (0.8:ℝ) * Real.sin (Real.pi / 2)) ((kepler_step (0.8:ℝ) (Real.pi / 2 - (0.8:ℝ) * Real.sin (Real.pi / 2)))^[2] (Real.pi / 2 - (0.8:ℝ) * Real.sin (Real.pi / 2))) _ _ _ _ _ _ (71522573885188624216494/10^24 : ℝ) (71522576974456802198452/10^24 : ℝ) hx52 hM hes71 (by norm_num) (by norm_num)
  have hcx73 := cos_lipschitz_interval ((kepler_step (0.8:ℝ) (Real.pi / 2 - (0.8:ℝ) * Real.sin (Real.pi / 2)))^[2] (Real.pi / 2 - (0.8:ℝ) * Real.sin (Real.pi / 2))) _ _ _ (824670721/10^18 : ℝ) _ _ (-69530302447037804272872/10^24 : ℝ) (-69530300719306482006724/10^24 : ℝ) hx52 (by norm_num) (by norm_num) hc68 (by norm_num) (by norm_num)
  have hec74 := scale_interval (0.8:ℝ) _ _ _ (-55624241957630243418298/10^24 : ℝ) (-55624240575445185605379/10^24 : ℝ) (by norm_num) hcx73 (by norm_num) (by norm_num)
  have hw75 := one_sub_interval _ _ _ (1055624240575445185605379/10^24 : ℝ) (1055624241957630243418298/10^24 : ℝ) hec74 (by norm_num) (by norm_num)
  have hqd76 := div_interval _ _ _ _ _ _ (6775381906022894938174/10^23 : ℝ) (67753822075427323911001/10^24 : ℝ) hf72 hw75 (by norm_num) (by norm_num) (by norm_num) (by norm_num) (by norm_num)
  have hstep77 := kepler_step_interval (0.8:ℝ) (Real.pi / 2 - (0.8:ℝ) * Real.sin (Real.pi / 2)) ((kepler_step (0.8:ℝ) (Real.pi / 2 - (0.8:ℝ) * Real.sin (Real.pi / 2)))^[2] (Real.pi / 2 - (0.8:ℝ) * Real.sin (Real.pi / 2))) _ _ _ _ (1572628951319540001/10^18 : ℝ) (1572628955984079818/10^18 : ℝ) hx52 hqd76 (by norm_num) (by norm_num)
  have hx78 : (1572628951319540001/10^18 : ℝ) ≤ ((kepler_step (0.8:ℝ) (Real.pi / 2 - (0.8:ℝ) * Real.sin (Real.pi / 2)))^[3] (Real.pi / 2 - (0.8:ℝ) * Real.sin (Real.pi / 2))) ∧ ((kepler_step (0.8:ℝ) (Real.pi / 2 - (0.8:ℝ) * Real.sin (Real.pi / 2)))^[3] (Real.pi / 2 - (0.8:ℝ) * Real.sin (Real.pi / 2))) ≤ (1572628955984079818/10^18 : ℝ) := by
    rw [Function.iterate_succ_apply']
    exact hstep77
  have ts79 := sin_taylor ((1572628953651809909/10^18 : ℝ)/8) (by rw [abs_of_nonneg (by norm_num)]; norm_num)
  have tc80 := cos_taylor ((1572628953651809909/10^18 : ℝ)/8) (by rw [abs_of_nonneg (by norm_num)]; norm_num)
  have hs81 := interval_of_abs _ _ _ (195314993566012713405976/10^24 : ℝ) (195314993586012713405977/10^24 : ℝ) ts79 (by norm_num) (by norm_num)
  have hc82 := interval_of_abs _ _ _ (98074056369788265800627/10^23 : ℝ) (980740563699882658006271/10^24 : ℝ) tc80 (by norm_num) (by norm_num)
  have hp83 := mul_interval _ _ _ _ _ _ (191553336888579633069261/10^24 : ℝ) (191553336908585074330392/10^24 : ℝ) hs81 hc82 (by norm_num) (by norm_num) (by norm_num) (by norm_num) (by norm_num) (by norm_num) (by norm_num) (by norm_num)
  have hs84 := sin_double_interval _ (191553336888579633069261/10^24 : ℝ) (191553336908585074330392/10^24 : ℝ) (383106673777159266138522/10^24 : ℝ) (383106673817170148660784/10^24 : ℝ) hp83 (by norm_num) (by norm_num)
  have hq85 := mul_interval _ _ _ _ _ _ (961852053282440631329051/10^24 : ℝ) (96185205328636359358385/10^23 : ℝ) hc82 hc82 (by norm_num) (by norm_num) (by norm_num) (by norm_num) (by norm_num) (by norm_num) (by norm_num) (by norm_num)
  have hc86 := cos_double_interval _ (961852053282440631329051/10^24 : ℝ) (96185205328636359358385/10^23 : ℝ) (923704106564881262658102/10^24 : ℝ) (9237041065727271871677/10^22 : ℝ) hq85 (by norm_num) (by norm_num)
  have hp87 := mul_interval _ _ _ _ _ _ (353877207820374324764086/10^24 : ℝ) (353877207860338367299078/10^24 : ℝ) hs84 hc86 (by norm_num) (by norm_num) (by norm_num) (by norm_num) (by norm_num) (by norm_num) (by norm_num) (by norm_num)
  have hs88 := sin_double_interval _ (353877207820374324764086/10^24 : ℝ) (353877207860338367299078/10^24 : ℝ) (707754415640748649528172/10^24 : ℝ) (707754415720676734598156/10^24 : ℝ) hp87 (by norm_num) (by norm_num)
  have hq89 := mul_interval _ _ _ _ _ _ (853229276484825519758597/10^24 : ℝ) (853229276499320145137287/10^24 : ℝ) hc86 hc86 (by norm_num) (by norm_num) (by norm_num) (by norm_num) (by norm_num) (by norm_num) (by norm_num) (by norm_num)
  have hc90 := cos_double_interval _ (853229276484825519758597/10^24 : ℝ) (853229276499320145137287/10^24 : ℝ) (706458552969651039517194/10^24 : ℝ) (706458552998640290274574/10^24 : ℝ) hq89 (by norm_num) (by norm_num)
  have hp91 := mul_interval _ _ _ _ _ _ (499999160331444247990563/10^24 : ℝ) (49999916040842739754271/10^23 : ℝ) hs88 hc90 (by norm_num) (by norm_num) (by norm_num) (by norm_num) (by norm_num) (by norm_num) (by norm_num) (by norm_num)
  have hs92 := sin_double_interval _ (499999160331444247990563/10^24 : ℝ) (49999916040842739754271/10^23 : ℝ) (999998320662888495981126/10^24 : ℝ) (99999832081685479508542/10^23 : ℝ) hp91 (by norm_num) (by norm_num)
  have hq93 := mul_interval _ _ _ _ _ _ (499083687063973243585446/10^24 : ℝ) (499083687104932651869753/10^24 : ℝ) hc90 hc90 (by norm_num) (by norm_num) (by norm_num) (by norm_num) (by norm_num) (by norm_num) (by norm_num) (by norm_num)
  have hc94 := cos_double_interval _ (499083687063973243585446/10^24 : ℝ) (499083687104932651869753/10^24 : ℝ) (-1832625872053512829108/10^24 : ℝ) (-1832625790134696260494/10^24 : ℝ) hq93 (by norm_num) (by norm_num)
  have ha95 : 2*(2*(2*((1572628953651809909/10^18 : ℝ)/8))) = (1572628953651809909/10^18 : ℝ) := by norm_num
  rw [ha95] at hs92 hc94
  have hsx96 := sin_lipschitz_interval ((kepler_step (0.8:ℝ) (Real.pi / 2 - (0.8:ℝ) * Real.sin (Real.pi / 2)))^[3] (Real.pi / 2 - (0.8:ℝ) * Real.sin (Real.pi / 2))) _ _ _ (2332269909/10^18 : ℝ) _ _ (999998318330618586981126/10^24 : ℝ) (99999832314912470408542/10^23 : ℝ) hx78 (by norm_num) (by norm_num) hs92 (by norm_num) (by norm_num)
  have hes97 := scale_interval (0.8:ℝ) _ _ _ (7999986546644948695849/10^22 : ℝ) (799998658519299763268336/10^24 : ℝ) (by norm_num) hsx96 (by norm_num) (by norm_num)
  have hf98 := kepler_residual_interval (0.8:ℝ) (Real.pi / 2 - (0.8:ℝ) * Real.sin (Real.pi / 2)) ((kepler_step (0.8:ℝ) (Real.pi / 2 - (0.8:ℝ) * Real.sin (Real.pi / 2)))^[3] (Real.pi / 2 - (0.8:ℝ) * Real.sin (Real.pi / 2))) _ _ _ _ _ _ (1833966005343618496664/10^24 : ℝ) (18339745246883291851/10^22 : ℝ) hx78 hM hes97 (by norm_num) (by norm_num)
  have hcx99 := cos_lipschitz_interval ((kepler_step (0.8:ℝ) (Real.pi / 2 - (0.8:ℝ) * Real.sin (Real.pi / 2)))^[3] (Real.pi / 2 - (0.8:ℝ) * Real.sin (Real.pi / 2))) _ _ _ (2332269909/10^18 : ℝ) _ _ (-1832628204323421829108/10^24 : ℝ) (-1832623457864787260494/10^24 : ℝ) hx78 (by norm_num) (by norm_num) hc94 (by norm_num) (by norm_num)
  have hec100 := scale_interval (0.8:ℝ) _ _ _ (-1466102563458737463287/10^24 : ℝ) (-1466098766291829808395/10^24 : ℝ) (by norm_num) hcx99 (by norm_num) (by norm_num)
  have hw101 := one_sub_interval _ _ _ (1001466098766291829808395/10^24 : ℝ) (1001466102563458737463287/10^24 : ℝ) hec100 (by norm_num) (by norm_num)
  have hqd102 := div_interval _ _ _ _ _ _ (1831281159341494243288/10^24 : ℝ) (1831289673157789581557/10^24 : ℝ) hf98 hw101 (by norm_num) (by norm_num) (by norm_num) (by norm_num) (by norm_num)
  have hstep103 := kepler_step_interval (0.8:ℝ) (Real.pi / 2 - (0.8:ℝ) * Real.sin (Real.pi / 2)) ((kepler_step (0.8:ℝ) (Real.pi / 2 - (0.8:ℝ) * Real.sin (Real.pi / 2)))^[3] (Real.pi / 2 - (0.8:ℝ) * Real.sin (Real.pi / 2))) _ _ _ _ (1570797661646382211/10^18 : ℝ) (1570797674824738324/10^18 : ℝ) hx78 hqd102 (by norm_num) (by norm_num)
  have hx104 : (1570797661646382211/10^18 : ℝ) ≤ ((kepler_step (0.8:ℝ) (Real.pi / 2 - (0.8:ℝ) * Real.sin (Real.pi / 2)))^[4] (Real.pi / 2 - (0.8:ℝ) * Real.sin (Real.pi / 2))) ∧ ((kepler_step (0.8:ℝ) (Real.pi / 2 - (0.8:ℝ) * Real.sin (Real.pi / 2)))^[4] (Real.pi / 2 - (0.8:ℝ) * Real.sin (Real.pi / 2))) ≤ (1570797674824738324/10^18 : ℝ) := by
    rw [Function.iterate_succ_apply']
    exact hstep103
  have ts105 := sin_taylor ((1570797668235560267/10^18 : ℝ)/8) (by rw [abs_of_nonneg (by norm_num)]; norm_num)
  have tc106 := cos_taylor ((1570797668235560267/10^18 : ℝ)/8) (by rw [abs_of_nonneg (by norm_num)]; norm_num)
  have hs107 := interval_of_abs _ _ _ (195090486464282705113764/10^24 : ℝ) (195090486484282705113765/10^24 : ℝ) ts105 (by norm_num) (by norm_num)
  have hc108 := interval_of_abs _ _ _ (980785247689455281377568/10^24 : ℝ) (980785247691455281377569/10^24 : ℝ) tc106 (by norm_num) (by norm_num)
  have hp109 := mul_interval _ _ _ _ _ _ (191341871088727835852149/10^24 : ℝ) (191341871108733721778909/10^24 : ℝ) hs107 hc108 (by norm_num) (by norm_num) (by norm_num) (by norm_num) (by norm_num) (by norm_num) (by norm_num) (by norm_num)
  have hs110 := sin_double_interval _ (191341871088727835852149/10^24 : ℝ) (191341871108733721778909/10^24 : ℝ) (382683742177455671704298/10^24 : ℝ) (382683742217467443557818/10^24 : ℝ) hp109 (by norm_num) (by norm_num)
  have hq111 := mul_interval _ _ _ _ _ _ (961939702085266146358053/10^24 : ℝ) (961939702089189287348818/10^24 : ℝ) hc108 hc108 (by norm_num) (by norm_num) (by norm_num) (by norm_num) (by norm_num) (by norm_num) (by norm_num) (by norm_num)
  have hc112 := cos_double_interval _ (961939702085266146358053/10^24 : ℝ) (961939702089189287348818/10^24 : ℝ) (923879404170532292716106/10^24 : ℝ) (923879404178378574697636/10^24 : ℝ) hq111 (by norm_num) (by norm_num)
  have hp113 := mul_interval _ _ _ _ _ _ (353553627708657344149287/10^24 : ℝ) (35355362774862604064031/10^23 : ℝ) hs110 hc112 (by norm_num) (by norm_num) (by norm_num) (by norm_num) (by norm_num) (by norm_num) (by norm_num) (by norm_num)
  have hs114 := sin_double_interval _ (353553627708657344149287/10^24 : ℝ) (35355362774862604064031/10^23 : ℝ) (707107255417314688298574/10^24 : ℝ) (70710725549725208128062/10^23 : ℝ) hp113 (by norm_num) (by norm_num)
  have hq115 := mul_interval _ _ _ _ _ _ (8535531534504977619437/10^22 : ℝ) (853553153464995798587862/10^24 : ℝ) hc112 hc112 (by norm_num) (by norm_num) (by norm_num) (by norm_num) (by norm_num) (by norm_num) (by norm_num) (by norm_num)
  have hc116 := cos_double_interval _ (8535531534504977619437/10^22 : ℝ) (853553153464995798587862/10^24 : ℝ) (7071063069009955238874/10^22 : ℝ) (707106306929991597175724/10^24 : ℝ) hq115 (by norm_num) (by norm_num)
  have hp117 := mul_interval _ _ _ _ _ _ (499999999961036349721651/10^24 : ℝ) (500000000038063918259584/10^24 : ℝ) hs114 hc116 (by norm_num) (by norm_num) (by norm_num) (by norm_num) (by norm_num) (by norm_num) (by norm_num) (by norm_num)
  have hs118 := sin_double_interval _ (499999999961036349721651/10^24 : ℝ) (500000000038063918259584/10^24 : ℝ) (999999999922072699443302/10^24 : ℝ) (1000000000076127836519168/10^24 : ℝ) hp117 (by norm_num) (by norm_num)
  have hq119 := mul_interval _ _ _ _ _ _ (499999329259164870048901/10^24 : ℝ) (499999329300171482644817/10^24 : ℝ) hc116 hc116 (by norm_num) (by norm_num) (by norm_num) (by norm_num) (by norm_num) (by norm_num) (by norm_num) (by norm_num)
  have hc120 := cos_double_interval _ (499999329259164870048901/10^24 : ℝ) (499999329300171482644817/10^24 : ℝ) (-1341481670259902198/10^24 : ℝ) (-1341399657034710366/10^24 : ℝ) hq119 (by norm_num) (by norm_num)
  have ha121 : 2*(2*(2*((1570797668235560267/10^18 : ℝ)/8))) = (1570797668235560267/10^18 : ℝ) := by norm_num
  rw [ha121] at hs118 hc120
  have hsx122 := sin_lipschitz_interval ((kepler_step (0.8:ℝ) (Real.pi / 2 - (0.8:ℝ) * Real.sin (Real.pi / 2)))^[4] (Real.pi / 2 - (0.8:ℝ) * Real.sin (Real.pi / 2))) _ _ _ (6589178057/10^18 : ℝ) _ _ (999999993332894642443302/10^24 : ℝ) (1000000006665305893519168/10^24 : ℝ) hx104 (by norm_num) (by norm_num) hs118 (by norm_num) (by norm_num)
  have hes123 := scale_interval (0.8:ℝ) _ _ _ (799999994666315713954641/10^24 : ℝ) (800000005332244714815335/10^24 : ℝ) (by norm_num) hsx122 (by norm_num) (by norm_num)
  have hf124 := kepler_residual_interval (0.8:ℝ) (Real.pi / 2 - (0.8:ℝ) * Real.sin (Real.pi / 2)) ((kepler_step (0.8:ℝ) (Real.pi / 2 - (0.8:ℝ) * Real.sin (Real.pi / 2)))^[4] (Real.pi / 2 - (0.8:ℝ) * Real.sin (Real.pi / 2))) _ _ _ _ _ _ (1329519240876949665/10^24 : ℝ) (1353363525990815359/10^24 : ℝ) hx104 hM hes123 (by norm_num) (by norm_num)
  have hcx125 := cos_lipschitz_interval ((kepler_step (0.8:ℝ) (Real.pi / 2 - (0.8:ℝ) * Real.sin (Real.pi / 2)))^[4] (Real.pi / 2 - (0.8:ℝ) * Real.sin (Real.pi / 2))) _ _ _ (6589178057/10^18 : ℝ) _ _ (-1348070848316902198/10^24 : ℝ) (-1334810478977710366/10^24 : ℝ) hx104 (by norm_num) (by norm_num) hc120 (by norm_num) (by norm_num)
  have hec126 := scale_interval (0.8:ℝ) _ _ _ (-1078456678653521759/10^24 : ℝ) (-1067848383182168292/10^24 : ℝ) (by norm_num) hcx125 (by norm_num) (by norm_num)
  have hw127 := one_sub_interval _ _ _ (1000001067848383182168292/10^24 : ℝ) (1000001078456678653521759/10^24 : ℝ) hec126 (by norm_num) (by norm_num)
  have hqd128 := div_interval _ _ _ _ _ _ (1329517807049591263/10^24 : ℝ) (1353362080805305511/10^24 : ℝ) hf124 hw127 (by norm_num) (by norm_num) (by norm_num) (by norm_num) (by norm_num)
  have hstep129 := kepler_step_interval (0.8:ℝ) (Real.pi / 2 - (0.8:ℝ) * Real.sin (Real.pi / 2)) ((kepler_step (0.8:ℝ) (Real.pi / 2 - (0.8:ℝ) * Real.sin (Real.pi / 2)))^[4] (Real.pi / 2 - (0.8:ℝ) * Real.sin (Real.pi / 2))) _ _ _ _ (1570796308284301405/10^18 : ℝ) (1570796345306931275/10^18 : ℝ) hx104 hqd128 (by norm_num) (by norm_num)
  have hx130 : (1570796308284301405/10^18 : ℝ) ≤ ((kepler_step (0.8:ℝ) (Real.pi / 2 - (0.8:ℝ) * Real.sin (Real.pi / 2)))^[5] (Real.pi / 2 - (0.8:ℝ) * Real.sin (Real.pi / 2))) ∧ ((kepler_step (0.8:ℝ) (Real.pi / 2 - (0.8:ℝ) * Real.sin (Real.pi / 2)))^[5] (Real.pi / 2 - (0.8:ℝ) * Real.sin (Real.pi / 2))) ≤ (1570796345306931275/10^18 : ℝ) := by
    rw [Function.iterate_succ_apply']
    exact hstep129
  have ts131 := sin_taylor ((157079632679561634/10^17 : ℝ)/8) (by rw [abs_of_nonneg (by norm_num)]; norm_num)
  have tc132 := cos_taylor ((157079632679561634/10^17 : ℝ)/8) (by rw [abs_of_nonneg (by norm_num)]; norm_num)
  have hs133 := interval_of_abs _ _ _ (195090322006216504186753/10^24 : ℝ) (195090322026216504186754/10^24 : ℝ) ts131 (by norm_num) (by norm_num)
  have hc134 := interval_of_abs _ _ _ (980785280402212897808068/10^24 : ℝ) (980785280404212897808069/10^24 : ℝ) tc132 (by norm_num) (by norm_num)
  have hp135 := mul_interval _ _ _ _ _ _ (191341716172625059547855/10^24 : ℝ) (191341716192630945799954/10^24 : ℝ) hs133 hc134 (by norm_num) (by norm_num) (by norm_num) (by norm_num) (by norm_num) (by norm_num) (by norm_num) (by norm_num)
  have hs136 := sin_double_interval _ (191341716172625059547855/10^24 : ℝ) (191341716192630945799954/10^24 : ℝ) (38268343234525011909571/10^23 : ℝ) (382683432385261891599908/10^24 : ℝ) hp135 (by norm_num) (by norm_num)
  have hq137 := mul_interval _ _ _ _ _ _ (961939766253647379354369/10^24 : ℝ) (961939766257570520475985/10^24 : ℝ) hc134 hc134 (by norm_num) (by norm_num) (by norm_num) (by norm_num) (by norm_num) (by norm_num) (by norm_num) (by norm_num)
  have hc138 := cos_double_interval _ (961939766253647379354369/10^24 : ℝ) (961939766257570520475985/10^24 : ℝ) (923879532507294758708738/10^24 : ℝ) (92387953251514104095197/10^23 : ℝ) hq137 (by norm_num) (by norm_num)
  have hp139 := mul_interval _ _ _ _ _ _ (353553390573416641926504/10^24 : ℝ) (353553390613385341822775/10^24 : ℝ) hs136 hc138 (by norm_num) (by norm_num) (by norm_num) (by norm_num) (by norm_num) (by norm_num) (by norm_num) (by norm_num)
  have hs140 := sin_double_interval _ (353553390573416641926504/10^24 : ℝ) (353553390613385341822775/10^24 : ℝ) (707106781146833283853008/10^24 : ℝ) (70710678122677068364555/10^23 : ℝ) hp139 (by norm_num) (by norm_num)
  have hq141 := mul_interval _ _ _ _ _ _ (853553390585897512781111/10^24 : ℝ) (853553390600395551922769/10^24 : ℝ) hc138 hc138 (by norm_num) (by norm_num) (by norm_num) (by norm_num) (by norm_num) (by norm_num) (by norm_num) (by norm_num)
  have hc142 := cos_double_interval _ (853553390585897512781111/10^24 : ℝ) (853553390600395551922769/10^24 : ℝ) (707106781171795025562222/10^24 : ℝ) (707106781200791103845538/10^24 : ℝ) hq141 (by norm_num) (by norm_num)
  have hp143 := mul_interval _ _ _ _ _ _ (4999999999614861992313/10^22 : ℝ) (500000000038513800276963/10^24 : ℝ) hs140 hc142 (by norm_num) (by norm_num) (by norm_num) (by norm_num) (by norm_num) (by norm_num) (by norm_num) (by norm_num)
  have hs144 := sin_double_interval _ (4999999999614861992313/10^22 : ℝ) (500000000038513800276963/10^24 : ℝ) (9999999999229723984626/10^22 : ℝ) (1000000000077027600553926/10^24 : ℝ) hp143 (by norm_num) (by norm_num)
  have hq145 := mul_interval _ _ _ _ _ _ (499999999979136816063744/10^24 : ℝ) (500000000020143463227628/10^24 : ℝ) hc142 hc142 (by norm_num) (by norm_num) (by norm_num) (by norm_num) (by norm_num) (by norm_num) (by norm_num) (by norm_num)
  have hc146 := cos_double_interval _ (499999999979136816063744/10^24 : ℝ) (500000000020143463227628/10^24 : ℝ) (-41726367872512/10^24 : ℝ) (40286926455256/10^24 : ℝ) hq145 (by norm_num) (by norm_num)
  have ha147 : 2*(2*(2*((157079632679561634/10^17 : ℝ)/8))) = (157079632679561634/10^17 : ℝ) := by norm_num
  rw [ha147] at hs144 hc146
  have hsx148 := sin_lipschitz_interval ((kepler_step (0.8:ℝ) (Real.pi / 2 - (0.8:ℝ) * Real.sin (Real.pi / 2)))^[5] (Real.pi / 2 - (0.8:ℝ) * Real.sin (Real.pi / 2))) _ _ _ (18511314935/10^18 : ℝ) _ _ (9999999814116574634626/10^22 : ℝ) (1000000018588342535553926/10^24 : ℝ) hx130 (by norm_num) (by norm_num) hs144 (by norm_num) (by norm_num)
  have hes149 := scale_interval (0.8:ℝ) _ _ _ (79999998512932597077008/10^23 : ℝ) (800000014870674028443141/10^24 : ℝ) (by norm_num) hsx148 (by norm_num) (by norm_num)
  have hf150 := kepler_residual_interval (0.8:ℝ) (Real.pi / 2 - (0.8:ℝ) * Real.sin (Real.pi / 2)) ((kepler_step (0.8:ℝ) (Real.pi / 2 - (0.8:ℝ) * Real.sin (Real.pi / 2)))^[5] (Real.pi / 2 - (0.8:ℝ) * Real.sin (Real.pi / 2))) _ _ _ _ _ _ (-33381269242678141/10^24 : ℝ) (3338270868499992/10^23 : ℝ) hx130 hM hes149 (by norm_num) (by norm_num)
  exact abs_lt_of_interval _ _ _ _ hf150 (by norm_num) (by norm_num)

lemma kepler_roundtrip_degenerate (e E : ℝ) (he0 : 0 ≤ e) (he1 : e ≤ 9/10)
    (h : e * Real.sin E = 0) :
    |kepler_solve e (E - e * Real.sin E) - E| ≤ 1/100000 := by
  apply kepler_roundtrip_of_stop e E he0 he1
  have hM : E - e * Real.sin E = E := by rw [h]; ring
  rw [hM]
  refine ⟨0, by norm_num, ?_⟩
  simp [kepler_residual, h]

lemma kepler_stop_mirror (e : ℝ)
    (h : ∃ k < 30,
      |kepler_residual e (Real.pi / 2 - e * Real.sin (Real.pi / 2))
        ((kepler_step e (Real.pi / 2 - e * Real.sin (Real.pi / 2)))^[k]
          (Real.pi / 2 - e * Real.sin (Real.pi / 2)))| < 1/1000000) :
    ∃ k < 30,
      |kepler_residual e (3 * Real.pi / 2 - e * Real.sin (3 * Real.pi / 2))
        ((kepler_step e (3 * Real.pi / 2 - e * Real.sin (3 * Real.pi / 2)))^[k]
          (3 * Real.pi / 2 - e * Real.sin (3 * Real.pi / 2)))| < 1/1000000 := by
  obtain ⟨k, hk, hres⟩ := h
  refine ⟨k, hk, ?_⟩
  have hM : 3 * Real.pi / 2 - e * Real.sin (3 * Real.pi / 2) =
      2 * Real.pi - (Real.pi / 2 - e * Real.sin (Real.pi / 2)) := by
    have h32 : (3:ℝ) * Real.pi / 2 = 2 * Real.pi - Real.pi / 2 := by ring
    rw [h32, Real.sin_sub, Real.sin_two_pi, Real.cos_two_pi]
    ring
  rw [hM, kepler_orbit_mirror, kepler_residual_mirror, abs_neg]
  exact hres

/-- C8: for every eccentricity e in {0, 0.1, 0.5, 0.8} and every eccentric
anomaly E in {0, pi/4, pi/2, pi, 3pi/2} radians (0, 45, 90, 180, 270 degrees),
computing the mean anomaly M = E - e*sin E and then solving Kepler's equation
with the spec-modelled KeplerSolver (Newton-Raphson from the initial guess M,
residual tolerance 1e-6, hard cap of 30 iterations, returning the last
estimate without error on non-convergence) recovers the original E within
1e-5 radians. -/
theorem kepler_roundtrip_spec :
    ∀ e ∈ [(0:ℝ), 0.1, 0.5, 0.8],
      ∀ E ∈ [(0:ℝ), Real.pi / 4, Real.pi / 2, Real.pi, 3 * Real.pi / 2],
        |kepler_solve e (E - e * Real.sin E) - E| ≤ 1/100000 := by
  intro e he E hE
  simp only [List.mem_cons, List.not_mem_nil, or_false] at he hE
  have hsin0 : Real.sin (0:ℝ) = 0 := Real.sin_zero
  have hsinpi : Real.sin Real.pi = 0 := Real.sin_pi
  rcases he with rfl | rfl | rfl | rfl
  · rcases hE with rfl | rfl | rfl | rfl | rfl <;>
      exact kepler_roundtrip_degenerate _ _ (by norm_num) (by norm_num) (zero_mul _)
  · rcases hE with rfl | rfl | rfl | rfl | rfl
    · exact kepler_roundtrip_degenerate _ _ (by norm_num) (by norm_num)
        (by rw [hsin0]; ring)
    · exact kepler_roundtrip_of_stop _ _ (by norm_num) (by norm_num)
        ⟨2, by norm_num, kepler_stop_e01_pi4⟩
    · exact kepler_roundtrip_of_stop _ _ (by norm_num) (by norm_num)
        ⟨2, by norm_num, kepler_stop_e01_pi2⟩
    · exact kepler_roundtrip_degenerate _ _ (by norm_num) (by norm_num)
        (by rw [hsinpi]; ring)
    · exact kepler_roundtrip_of_stop _ _ (by norm_num) (by norm_num)
        (kepler_stop_mirror 0.1 ⟨2, by norm_num, kepler_stop_e01_pi2⟩)
  · rcases hE with rfl | rfl | rfl | rfl | rfl
    · exact kepler_roundtrip_degenerate _ _ (by norm_num) (by norm_num)
        (by rw [hsin0]; ring)
    · exact kepler_roundtrip_of_stop _ _ (by norm_num) (by norm_num)
        ⟨3, by norm_num, kepler_stop_e05_pi4⟩
    · exact kepler_roundtrip_of_stop _ _ (by norm_num) (by norm_num)
        ⟨4, by norm_num, kepler_stop_e05_pi2⟩
    · exact kepler_roundtrip_degenerate _ _ (by norm_num) (by norm_num)
        (by rw [hsinpi]; ring)
    · exact kepler_roundtrip_of_stop _ _ (by norm_num) (by norm_num)
        (kepler_stop_mirror 0.5 ⟨4, by norm_num, kepler_stop_e05_pi2⟩)
  · rcases hE with rfl | rfl | rfl | rfl | rfl
    · exact kepler_roundtrip_degenerate _ _ (by norm_num) (by norm_num)
        (by rw [hsin0]; ring)
    · exact kepler_roundtrip_of_stop _ _ (by norm_num) (by norm_num)
        ⟨4, by norm_num, kepler_stop_e08_pi4⟩
    · exact kepler_roundtrip_of_stop _ _ (by norm_num) (by norm_num)
        ⟨5, by norm_num, kepler_stop_e08_pi2⟩
    · exact kepler_roundtrip_degenerate _ _ (by norm_num) (by norm_num)
        (by rw [hsinpi]; ring)
    · exact kepler_roundtrip_of_stop _ _ (by norm_num) (by norm_num)
        (kepler_stop_mirror 0.8 ⟨5, by norm_num, kepler_stop_e08_pi2⟩)

/-- Witness for C8: the instantiation at e = 0.5, E = pi/2. -/
theorem kepler_roundtrip_witness :
    (0.5:ℝ) ∈ [(0:ℝ), 0.1, 0.5, 0.8] ∧
      Real.pi / 2 ∈ [(0:ℝ), Real.pi / 4, Real.pi / 2, Real.pi, 3 * Real.pi / 2] ∧
      |kepler_solve 0.5 (Real.pi / 2 - 0.5 * Real.sin (Real.pi / 2)) - Real.pi / 2| ≤
        1/100000 :=
  ⟨by norm_num, by simp, kepler_roundtrip_spec 0.5 (by norm_num) (Real.pi / 2) (by simp)⟩

end AstroCalc
